import Mathlib

/-!
Verification of the ClauseCare risk-assessment core (`src/risk_assessment/` plus
the severity rendering in `src/app.py`) against its natural-language
specification.

The Python code is shallowly embedded: clause text is a list of characters,
Python `re` literal patterns compiled as `\b<escaped>\b` with `re.IGNORECASE`
are modelled by an explicit word-boundary matcher, and the handful of genuine
regular expressions in the code base (six keyword-library entries, the two
cap-indicator regexes of the scorer, the five dangerous structural patterns of
the fast scanner, and the section-header pattern of the clause extractor) are
modelled by dedicated recognisers that follow the regexes construct by
construct.  Float arithmetic in the scorer is modelled over `ℚ`; the single
transcendental quantity `e^(-0.15·n)` of the base-score formula is abstracted
as a function parameter `expNeg : ℕ → ℚ` (every theorem that involves it holds
for all values of the parameter, hence in particular for the true
exponential).  Python `round` (round-half-to-even) is modelled exactly by
`pyRound`.
-/

namespace ClauseCare

/-- Clause / document text, as a sequence of characters. -/
abbrev Text := List Char

/-- Word character, as in Python `re`'s `\w` / `\b` for the ASCII texts the
system handles: letters, digits, underscore. -/
def isWordChar (c : Char) : Bool := c.isAlphanum || c = '_'

/-- Whitespace as matched by Python `\s` and `str.split()` / `str.strip()`
(ASCII range): space, tab, newline, carriage return, vertical tab, form feed. -/
def isSpaceChar (c : Char) : Bool :=
  c = ' ' || c = '\t' || c = '\n' || c = '\x0d' || c = '\x0b' || c = '\x0c'

/-- Digit, as in Python `\d` (ASCII). -/
def isDigitChar (c : Char) : Bool := c.isDigit

/-- Is the character at index `i` (if any) a word character? Out of range
counts as a non-word position, as at the ends of a Python string. -/
def isWordAt (t : Text) (i : ℕ) : Bool :=
  match t.get? i with
  | some c => isWordChar c
  | none => false

/-- Model of `re` word boundary `\b` at position `i` (between index `i-1` and `i`):
exactly one side is a word character. -/
def boundaryAt (t : Text) (i : ℕ) : Bool :=
  xor (if i = 0 then false else isWordAt t (i - 1)) (isWordAt t i)

/-- Case-insensitive literal match of the characters `p` at position `i`
of `t`, with no boundary requirements (the core of an `re.IGNORECASE`
literal). -/
def litCore : List Char → Text → ℕ → Bool
  | [], _, _ => true
  | c :: cs, t, i =>
    match t.get? i with
    | some d => (d.toLower = c.toLower) && litCore cs t (i + 1)
    | none => false

/-- Lower-cased ASCII code of a character (`re.IGNORECASE` folds case, and
lower-casing preserves word-character status). -/
def lowerCode (c : Char) : ℕ := c.toLower.toNat

/-- Word-character test on a lower-cased ASCII code (Python `\w` for the
ASCII texts the system handles: a letter appears as its lower-case code). -/
def isWordCode (n : ℕ) : Bool :=
  (97 ≤ n && n ≤ 122) || (48 ≤ n && n ≤ 57) || n = 95

/-- Folded representation of one text character: lower-cased code paired
with its word-character status (precomputed once per scan). -/
def foldChar (c : Char) : ℕ × Bool :=
  (lowerCode c, isWordCode (lowerCode c))

/-- Case-folded match of the pattern codes against the head of a folded text
suffix.  On success, returns the last matched text character (used for the
word boundary after the match; the accumulator is irrelevant for the
non-empty patterns in use) and the rest of the folded text. -/
def litHere : List ℕ → (ℕ × Bool) → List (ℕ × Bool) → Option ((ℕ × Bool) × List (ℕ × Bool))
  | [], last, rest => some (last, rest)
  | _ :: _, _, [] => none
  | c :: cs, _, d :: rest => if d.1 = c then litHere cs d rest else none

/-- One step of the scan for a `\b<escaped>\b` `re.IGNORECASE` literal: does
the pattern match at the head of this suffix, with a word boundary on each
side?  `prevW` is the word-character status of the character before the
suffix (false at the start of the text). -/
def litHitHere (p : List ℕ) (prevW : Bool) (rest : List (ℕ × Bool)) :
    Option ((ℕ × Bool) × List (ℕ × Bool)) :=
  match rest with
  | [] => none
  | d :: _ =>
    if xor prevW d.2 then
      match litHere p (32, false) rest with
      | some (lastC, rem) =>
        if xor lastC.2
            (match rem with
             | [] => false
             | e :: _ => e.2) then some (lastC, rem)
        else none
      | none => none
    else none

/-- Scan of folded text for a `\b`-anchored literal given by its folded
codes: is there a match at some position? -/
def litFoundC (pc : List ℕ) : Bool → List (ℕ × Bool) → Bool
  | _, [] => false
  | prevW, d :: rest =>
    (litHitHere pc prevW (d :: rest)).isSome || litFoundC pc d.2 rest

/-- Model of `pattern.search(text)` for a `\b`-anchored literal pattern: is
there a match at some position? -/
def litFound (p : List Char) (t : Text) : Bool :=
  litFoundC (p.map lowerCode) false (t.map foldChar)

/-- Counting scan over folded text: number of non-overlapping matches,
resuming after the end of each match, with fuel. -/
def litCountC (pc : List ℕ) : ℕ → Bool → List (ℕ × Bool) → ℕ
  | 0, _, _ => 0
  | _, _, [] => 0
  | fuel + 1, prevW, d :: rest =>
    match litHitHere pc prevW (d :: rest) with
    | some (lastC, rem) => 1 + litCountC pc fuel lastC.2 rem
    | none => litCountC pc fuel d.2 rest

/-- Number of non-overlapping matches of a `\b`-anchored literal pattern, as
produced by `pattern.finditer(text)`: scan left to right, and resume after
the end of each match. -/
def litCount (p : List Char) (t : Text) : ℕ :=
  litCountC (p.map lowerCode) (t.length + 1) false (t.map foldChar)

/-- Packed code trigrams of a folded text: one number per position, the three
codes at that position packed in base 256. -/
def trigsOf : List (ℕ × Bool) → List ℕ
  | d :: e :: f :: r => (d.1 * 65536 + e.1 * 256 + f.1) :: trigsOf (e :: f :: r)
  | _ => []

/-- Prefilter for the literal scan: the pattern has at least three codes and
their packed trigram occurs nowhere in the trigram list of the text, so the
pattern cannot match anywhere. -/
def trigAbsent (p : List ℕ) (trg : List ℕ) : Bool :=
  match p with
  | a :: b :: c :: _ => ! trg.contains (a * 65536 + b * 256 + c)
  | _ => false

/-- One weight entry per non-overlapping occurrence of each pattern of the
list, in order (the shape of the literal part of the library scan). -/
def occOf (fuel : ℕ) (tc : List (ℕ × Bool)) : List (List ℕ × ℚ) → List ℚ
  | [] => []
  | pw :: rest => List.replicate (litCountC pw.1 fuel false tc) pw.2 ++ occOf fuel tc rest

/-- Checker for an empty scan result: every pattern either fails the trigram
prefilter or scans to zero occurrences.  The disjunction is evaluated left to
right, so the scan runs only for the few patterns the prefilter lets through. -/
def occCheck (fuel : ℕ) (tc : List (ℕ × Bool)) (trg : List ℕ) : List (List ℕ × ℚ) → Bool
  | [] => true
  | pw :: rest =>
    (trigAbsent pw.1 trg || (litCountC pw.1 fuel false tc == 0)) && occCheck fuel tc trg rest

theorem litHere_some_head {c : ℕ} {cs : List ℕ} {last d : ℕ × Bool}
    {r : List (ℕ × Bool)} {x : (ℕ × Bool) × List (ℕ × Bool)}
    (h : litHere (c :: cs) last (d :: r) = some x) :
    d.1 = c ∧ litHere cs d r = some x := by
  by_cases hc : d.1 = c
  · refine ⟨hc, ?_⟩
    simpa [litHere, hc] using h
  · simp [litHere, hc] at h

theorem litHitHere_trig {a b c : ℕ} {cs : List ℕ} {w : Bool}
    {tc : List (ℕ × Bool)} {x : (ℕ × Bool) × List (ℕ × Bool)}
    (h : litHitHere (a :: b :: c :: cs) w tc = some x) :
    ∃ d e f r, tc = d :: e :: f :: r ∧ d.1 = a ∧ e.1 = b ∧ f.1 = c := by
  match tc with
  | [] => simp [litHitHere] at h
  | d :: rest =>
    rw [litHitHere] at h
    by_cases hb : xor w d.2
    · rw [if_pos hb] at h
      rcases hlh : litHere (a :: b :: c :: cs) (32, false) (d :: rest) with _ | y
      · rw [hlh] at h; exact absurd h (by simp)
      · obtain ⟨ha, h2⟩ := litHere_some_head hlh
        match rest, h2 with
        | e :: rest2, h2 =>
          obtain ⟨hbb, h3⟩ := litHere_some_head h2
          match rest2, h3 with
          | f :: rest3, h3 =>
            obtain ⟨hcc, _⟩ := litHere_some_head h3
            exact ⟨d, e, f, rest3, rfl, ha, hbb, hcc⟩
    · rw [if_neg hb] at h; exact absurd h (by simp)

theorem trigsOf_tail {g : ℕ} {d : ℕ × Bool} {rest : List (ℕ × Bool)}
    (h : g ∈ trigsOf rest) : g ∈ trigsOf (d :: rest) := by
  match rest with
  | [] => simp [trigsOf] at h
  | [e] => simp [trigsOf] at h
  | e :: f :: r => exact List.mem_cons_of_mem _ h

theorem litCountC_zero_of_not_mem (a b c : ℕ) (cs : List ℕ) :
    ∀ (fuel : ℕ) (w : Bool) (tc : List (ℕ × Bool)),
      (∀ g ∈ trigsOf tc, g ≠ a * 65536 + b * 256 + c) →
      litCountC (a :: b :: c :: cs) fuel w tc = 0 := by
  intro fuel
  induction fuel with
  | zero => intro w tc _; simp [litCountC]
  | succ n ih =>
    intro w tc hmem
    match tc with
    | [] => simp [litCountC]
    | d :: rest =>
      rcases hh : litHitHere (a :: b :: c :: cs) w (d :: rest) with _ | y
      · rw [litCountC, hh]
        exact ih d.2 rest fun g hg => hmem g (trigsOf_tail hg)
      · obtain ⟨d2, e, f, r, heq, ha, hb, hc⟩ := litHitHere_trig hh
        exfalso
        have hmem0 : (d2.1 * 65536 + e.1 * 256 + f.1) ∈ trigsOf (d :: rest) := by
          rw [heq, trigsOf]
          exact List.mem_cons_self _ _
        exact hmem _ hmem0 (by rw [ha, hb, hc])

theorem trigAbsent_not_mem {p : List ℕ} {trg : List ℕ} (hp : trigAbsent p trg = true) :
    ∃ a b c cs, p = a :: b :: c :: cs ∧
      ∀ g ∈ trg, g ≠ a * 65536 + b * 256 + c := by
  match p with
  | [] => simp [trigAbsent] at hp
  | [a] => simp [trigAbsent] at hp
  | [a, b] => simp [trigAbsent] at hp
  | a :: b :: c :: cs =>
    refine ⟨a, b, c, cs, rfl, ?_⟩
    intro g hg hgeq
    rw [trigAbsent, Bool.not_eq_true', List.contains_eq_any_beq] at hp
    have : (trg.any fun x => a * 65536 + b * 256 + c == x) = true :=
      List.any_eq_true.mpr ⟨g, hg, by simp [hgeq]⟩
    rw [this] at hp
    exact Bool.true_eq_false.mp hp

theorem occOf_nil_of_check (fuel : ℕ) (tc : List (ℕ × Bool)) (trg : List ℕ)
    (ps : List (List ℕ × ℚ)) (htrg : trigsOf tc = trg)
    (h : occCheck fuel tc trg ps = true) : occOf fuel tc ps = [] := by
  induction ps with
  | nil => rfl
  | cons pw rest ih =>
    rw [occCheck, Bool.and_eq_true] at h
    obtain ⟨h1, h2⟩ := h
    rw [occOf, ih h2, List.append_nil]
    rcases Bool.or_eq_true _ _ |>.mp h1 with hta | hcz
    · obtain ⟨a, b, c, cs, hps, hnm⟩ := trigAbsent_not_mem hta
      rw [hps, litCountC_zero_of_not_mem a b c cs fuel false tc
        (fun g hg => hnm g (htrg ▸ hg))]
      rfl
    · rw [show litCountC pw.1 fuel false tc = 0 from by simpa using hcz]
      rfl

/-- First index `≥ i` holding a non-whitespace character (or the length of the
text) — the position reached by a greedy `\s*`. -/
def skipWs (t : Text) (i : ℕ) : ℕ :=
  go (t.length + 1) i
where
  go : ℕ → ℕ → ℕ
  | 0, j => j
  | fuel + 1, j =>
    match t.get? j with
    | some c => if isSpaceChar c then go fuel (j + 1) else j
    | none => j

/-- Model of `len(text.split())`: the number of maximal non-whitespace runs. -/
def wordCount (t : Text) : ℕ :=
  go t true
where
  go : Text → Bool → ℕ
  | [], _ => 0
  | c :: cs, atBreak =>
    if isSpaceChar c then go cs true
    else (if atBreak then 1 else 0) + go cs false

/-- Model of `str.strip()`: remove leading and trailing whitespace. -/
def stripT (t : Text) : Text :=
  ((t.dropWhile isSpaceChar).reverse.dropWhile isSpaceChar).reverse

/-- Python `round` on an exact rational value: round half to even. -/
def pyRound (q : ℚ) : ℤ :=
  if q - ⌊q⌋ < 1 / 2 then ⌊q⌋
  else if 1 / 2 < q - ⌊q⌋ then ⌊q⌋ + 1
  else if ⌊q⌋ % 2 = 0 then ⌊q⌋ else ⌊q⌋ + 1

/-- Risk severity levels (`models.SeverityLevel`). -/
inductive SeverityLevel where
  | LOW
  | MEDIUM
  | HIGH
  | CRITICAL
deriving DecidableEq, Repr

/-- Model of `SeverityLevel.from_score` (`models.py` lines 31-41). -/
def SeverityLevel.fromScore (score : ℤ) : SeverityLevel :=
  if score ≤ 30 then .LOW
  else if score ≤ 60 then .MEDIUM
  else if score ≤ 85 then .HIGH
  else .CRITICAL

/-- Model of `RiskScorer.get_severity_from_score` (`risk_scorer.py` lines 361-370):
delegates to `SeverityLevel.from_score`. -/
def getSeverityFromScore (score : ℤ) : SeverityLevel :=
  SeverityLevel.fromScore score

/-- The inline severity-from-score mapping of `render_top_risks`
(`app.py` line 769):
`"CRITICAL" if risk.score >= 85 else "HIGH" if risk.score >= 60 else "MEDIUM"`. -/
def renderTopRisksSeverity (score : ℤ) : SeverityLevel :=
  if 85 ≤ score then .CRITICAL else if 60 ≤ score then .HIGH else .MEDIUM

/-! ## Risk scorer (`risk_scorer.py`)

The scorer's seven hand-written pattern lists (lines 63-101).  All entries are
literal phrases compiled as `\b<escaped>\b` with `re.IGNORECASE`, except the
two entries of `CAP_INDICATORS` that start with `\$` or `\d`, which
`_compile_patterns` compiles as raw regexes; those two are modelled separately
by `capDollarFound` and `capTimesFound` below. -/

def positiveQualifiers : List String :=
  ["reasonable", "reasonably", "good faith", "mutual", "mutually",
   "reciprocal", "balanced", "fair", "proportionate", "customary",
   "standard", "industry standard", "commercially reasonable"]

def capIndicatorLits : List String :=
  ["capped at", "not to exceed", "maximum", "cap of", "limited to",
   "up to", "ceiling", "no more than", "aggregate limit"]

def mutualLanguage : List String :=
  ["mutual", "mutually", "reciprocal", "both parties", "each party",
   "either party", "the parties", "jointly", "together"]

def standardTerms : List String :=
  ["net-30", "net 30", "net-60", "30 days", "60 days",
   "force majeure", "act of god", "commercially reasonable efforts",
   "material breach", "cure period", "good standing"]

def obligationMarkers : List String :=
  ["shall", "must", "will", "agrees to", "undertakes to",
   "obligated to", "required to", "bound to", "warranted"]

def extremeLanguage : List String :=
  ["unlimited", "without limit", "without limitation", "no cap",
   "sole discretion", "absolute", "irrevocable", "perpetual",
   "unconditional", "in any event", "under any circumstances"]

def oneSidedMarkers : List String :=
  ["at its option", "in its sole judgment", "without recourse",
   "waives all rights", "releases all claims", "holds harmless"]

/-- The folded codes of `positiveQualifiers` (see `positiveQualifierCodes_eq`). -/
def positiveQualifierCodes : List (List ℕ) :=
  [[114, 101, 97, 115, 111, 110, 97, 98, 108, 101],
   [114, 101, 97, 115, 111, 110, 97, 98, 108, 121],
   [103, 111, 111, 100, 32, 102, 97, 105, 116, 104],
   [109, 117, 116, 117, 97, 108],
   [109, 117, 116, 117, 97, 108, 108, 121],
   [114, 101, 99, 105, 112, 114, 111, 99, 97, 108],
   [98, 97, 108, 97, 110, 99, 101, 100],
   [102, 97, 105, 114],
   [112, 114, 111, 112, 111, 114, 116, 105, 111, 110, 97, 116, 101],
   [99, 117, 115, 116, 111, 109, 97, 114, 121],
   [115, 116, 97, 110, 100, 97, 114, 100],
   [105, 110, 100, 117, 115, 116, 114, 121, 32, 115, 116, 97, 110, 100, 97, 114, 100],
   [99, 111, 109, 109, 101, 114, 99, 105, 97, 108, 108, 121, 32, 114, 101, 97, 115, 111, 110, 97, 98, 108, 101]]

/-- Correctness of the table: `positiveQualifierCodes` is `positiveQualifiers` folded by `lowerCode`. -/
theorem positiveQualifierCodes_eq :
    positiveQualifierCodes = positiveQualifiers.map (fun p => p.data.map lowerCode) := by
  rfl

/-- The folded codes of `capIndicatorLits` (see `capIndicatorCodes_eq`). -/
def capIndicatorCodes : List (List ℕ) :=
  [[99, 97, 112, 112, 101, 100, 32, 97, 116],
   [110, 111, 116, 32, 116, 111, 32, 101, 120, 99, 101, 101, 100],
   [109, 97, 120, 105, 109, 117, 109],
   [99, 97, 112, 32, 111, 102],
   [108, 105, 109, 105, 116, 101, 100, 32, 116, 111],
   [117, 112, 32, 116, 111],
   [99, 101, 105, 108, 105, 110, 103],
   [110, 111, 32, 109, 111, 114, 101, 32, 116, 104, 97, 110],
   [97, 103, 103, 114, 101, 103, 97, 116, 101, 32, 108, 105, 109, 105, 116]]

/-- Correctness of the table: `capIndicatorCodes` is `capIndicatorLits` folded by `lowerCode`. -/
theorem capIndicatorCodes_eq :
    capIndicatorCodes = capIndicatorLits.map (fun p => p.data.map lowerCode) := by
  rfl

/-- The folded codes of `mutualLanguage` (see `mutualLanguageCodes_eq`). -/
def mutualLanguageCodes : List (List ℕ) :=
  [[109, 117, 116, 117, 97, 108],
   [109, 117, 116, 117, 97, 108, 108, 121],
   [114, 101, 99, 105, 112, 114, 111, 99, 97, 108],
   [98, 111, 116, 104, 32, 112, 97, 114, 116, 105, 101, 115],
   [101, 97, 99, 104, 32, 112, 97, 114, 116, 121],
   [101, 105, 116, 104, 101, 114, 32, 112, 97, 114, 116, 121],
   [116, 104, 101, 32, 112, 97, 114, 116, 105, 101, 115],
   [106, 111, 105, 110, 116, 108, 121],
   [116, 111, 103, 101, 116, 104, 101, 114]]

/-- Correctness of the table: `mutualLanguageCodes` is `mutualLanguage` folded by `lowerCode`. -/
theorem mutualLanguageCodes_eq :
    mutualLanguageCodes = mutualLanguage.map (fun p => p.data.map lowerCode) := by
  rfl

/-- The folded codes of `standardTerms` (see `standardTermCodes_eq`). -/
def standardTermCodes : List (List ℕ) :=
  [[110, 101, 116, 45, 51, 48],
   [110, 101, 116, 32, 51, 48],
   [110, 101, 116, 45, 54, 48],
   [51, 48, 32, 100, 97, 121, 115],
   [54, 48, 32, 100, 97, 121, 115],
   [102, 111, 114, 99, 101, 32, 109, 97, 106, 101, 117, 114, 101],
   [97, 99, 116, 32, 111, 102, 32, 103, 111, 100],
   [99, 111, 109, 109, 101, 114, 99, 105, 97, 108, 108, 121, 32, 114, 101, 97, 115, 111, 110, 97, 98, 108, 101, 32, 101, 102, 102, 111, 114, 116, 115],
   [109, 97, 116, 101, 114, 105, 97, 108, 32, 98, 114, 101, 97, 99, 104],
   [99, 117, 114, 101, 32, 112, 101, 114, 105, 111, 100],
   [103, 111, 111, 100, 32, 115, 116, 97, 110, 100, 105, 110, 103]]

/-- Correctness of the table: `standardTermCodes` is `standardTerms` folded by `lowerCode`. -/
theorem standardTermCodes_eq :
    standardTermCodes = standardTerms.map (fun p => p.data.map lowerCode) := by
  rfl

/-- The folded codes of `obligationMarkers` (see `obligationMarkerCodes_eq`). -/
def obligationMarkerCodes : List (List ℕ) :=
  [[115, 104, 97, 108, 108],
   [109, 117, 115, 116],
   [119, 105, 108, 108],
   [97, 103, 114, 101, 101, 115, 32, 116, 111],
   [117, 110, 100, 101, 114, 116, 97, 107, 101, 115, 32, 116, 111],
   [111, 98, 108, 105, 103, 97, 116, 101, 100, 32, 116, 111],
   [114, 101, 113, 117, 105, 114, 101, 100, 32, 116, 111],
   [98, 111, 117, 110, 100, 32, 116, 111],
   [119, 97, 114, 114, 97, 110, 116, 101, 100]]

/-- Correctness of the table: `obligationMarkerCodes` is `obligationMarkers` folded by `lowerCode`. -/
theorem obligationMarkerCodes_eq :
    obligationMarkerCodes = obligationMarkers.map (fun p => p.data.map lowerCode) := by
  rfl

/-- The folded codes of `extremeLanguage` (see `extremeLanguageCodes_eq`). -/
def extremeLanguageCodes : List (List ℕ) :=
  [[117, 110, 108, 105, 109, 105, 116, 101, 100],
   [119, 105, 116, 104, 111, 117, 116, 32, 108, 105, 109, 105, 116],
   [119, 105, 116, 104, 111, 117, 116, 32, 108, 105, 109, 105, 116, 97, 116, 105, 111, 110],
   [110, 111, 32, 99, 97, 112],
   [115, 111, 108, 101, 32, 100, 105, 115, 99, 114, 101, 116, 105, 111, 110],
   [97, 98, 115, 111, 108, 117, 116, 101],
   [105, 114, 114, 101, 118, 111, 99, 97, 98, 108, 101],
   [112, 101, 114, 112, 101, 116, 117, 97, 108],
   [117, 110, 99, 111, 110, 100, 105, 116, 105, 111, 110, 97, 108],
   [105, 110, 32, 97, 110, 121, 32, 101, 118, 101, 110, 116],
   [117, 110, 100, 101, 114, 32, 97, 110, 121, 32, 99, 105, 114, 99, 117, 109, 115, 116, 97, 110, 99, 101, 115]]

/-- Correctness of the table: `extremeLanguageCodes` is `extremeLanguage` folded by `lowerCode`. -/
theorem extremeLanguageCodes_eq :
    extremeLanguageCodes = extremeLanguage.map (fun p => p.data.map lowerCode) := by
  rfl

/-- The folded codes of `oneSidedMarkers` (see `oneSidedMarkerCodes_eq`). -/
def oneSidedMarkerCodes : List (List ℕ) :=
  [[97, 116, 32, 105, 116, 115, 32, 111, 112, 116, 105, 111, 110],
   [105, 110, 32, 105, 116, 115, 32, 115, 111, 108, 101, 32, 106, 117, 100, 103, 109, 101, 110, 116],
   [119, 105, 116, 104, 111, 117, 116, 32, 114, 101, 99, 111, 117, 114, 115, 101],
   [119, 97, 105, 118, 101, 115, 32, 97, 108, 108, 32, 114, 105, 103, 104, 116, 115],
   [114, 101, 108, 101, 97, 115, 101, 115, 32, 97, 108, 108, 32, 99, 108, 97, 105, 109, 115],
   [104, 111, 108, 100, 115, 32, 104, 97, 114, 109, 108, 101, 115, 115]]

/-- Correctness of the table: `oneSidedMarkerCodes` is `oneSidedMarkers` folded by `lowerCode`. -/
theorem oneSidedMarkerCodes_eq :
    oneSidedMarkerCodes = oneSidedMarkers.map (fun p => p.data.map lowerCode) := by
  rfl

/-- Core of `countPresent` over pre-folded pattern codes and text. -/
def countPresentC (pcs : List (List ℕ)) (tc : List (ℕ × Bool)) : ℕ :=
  (pcs.filter fun pc => litFoundC pc false tc).length

/-- Model of `sum(1 for p in patterns if p.search(text))`: the number of patterns in
the list that occur somewhere in the text. -/
def countPresent (pats : List String) (t : Text) : ℕ :=
  countPresentC (pats.map fun p => p.data.map lowerCode) (t.map foldChar)

/-- Matcher for `\$\d+(?:,\d{3})*(?:\.\d{2})?` has a match iff a dollar sign is directly
followed by a digit (both optional groups may be empty). -/
def capDollarFound (t : Text) : Bool :=
  (List.range t.length).any fun i =>
    t.get? i == some '$' &&
      (match t.get? (i + 1) with
       | some c => isDigitChar c
       | none => false)

/-- Matcher for `\d+\s*(?:times|x)\s*(?:the|annual|monthly)` (raw, `re.IGNORECASE`):
a digit, optional whitespace, `times` or `x`, optional whitespace, then one
of the three closing words.  Presence only (the scorer only tests
`p.search`). -/
def capTimesFound (t : Text) : Bool :=
  (List.range t.length).any fun i =>
    isWordAt t i && isDigitAtPos t i &&
      (let j := skipWs t (i + 1)
       (litCore ("times").data t j && capTimesTail t (j + 5)) ||
       (litCore ("x").data t j && capTimesTail t (j + 1)))
where
  isDigitAtPos (t : Text) (i : ℕ) : Bool :=
    match t.get? i with
    | some c => isDigitChar c
    | none => false
  capTimesTail (t : Text) (k : ℕ) : Bool :=
    let m := skipWs t k
    litCore ("the").data t m || litCore ("annual").data t m ||
      litCore ("monthly").data t m

/-- Number of cap-indicator patterns present: the nine literal entries plus
the two raw regexes of `CAP_INDICATORS`. -/
def capPresentCount (t : Text) : ℕ :=
  countPresent capIndicatorLits t + (if capDollarFound t then 1 else 0) +
    (if capTimesFound t then 1 else 0)

/-! The stepwise modifier tables of `_calculate_*_modifier`
(lines 218-320), each as a function of the relevant count, followed by the
text-level modifiers that compose them with the pattern counts. -/

def lengthModifierOfCount (wc : ℕ) : ℚ :=
  if wc < 50 then 0 else if wc < 100 then 3
  else if wc < 200 then 5 else if wc < 400 then 8 else 10

def obligationModifierOfCount (c : ℕ) : ℚ :=
  if c ≤ 1 then 0 else if c ≤ 3 then 5 else if c ≤ 5 then 10 else 15

def extremeModifierOfCount (c : ℕ) : ℚ :=
  if c = 0 then 0 else if c = 1 then 8 else if c = 2 then 15 else 20

def oneSidedModifierOfCount (c : ℕ) : ℚ :=
  if c = 0 then 0 else if c = 1 then 7 else 15

def qualifierModifierOfCount (c : ℕ) : ℚ :=
  if c = 0 then 0 else if c = 1 then -3 else if c = 2 then -6 else -10

def capModifierOfCount (c : ℕ) : ℚ :=
  if c = 0 then 0 else if c = 1 then -8 else if c = 2 then -12 else -15

def mutualModifierOfCount (c : ℕ) : ℚ :=
  if c = 0 then 0 else if c = 1 then -4 else if c = 2 then -7 else -10

def standardModifierOfCount (c : ℕ) : ℚ :=
  if c = 0 then 0 else if c = 1 then -4 else if c = 2 then -7 else -10

def lengthModifier (t : Text) : ℚ := lengthModifierOfCount (wordCount t)

def obligationModifier (t : Text) : ℚ :=
  obligationModifierOfCount (countPresent obligationMarkers t)

def extremeModifier (t : Text) : ℚ :=
  extremeModifierOfCount (countPresent extremeLanguage t)

def oneSidedModifier (t : Text) : ℚ :=
  oneSidedModifierOfCount (countPresent oneSidedMarkers t)

def qualifierModifier (t : Text) : ℚ :=
  qualifierModifierOfCount (countPresent positiveQualifiers t)

def capModifier (t : Text) : ℚ := capModifierOfCount (capPresentCount t)

def mutualModifier (t : Text) : ℚ :=
  mutualModifierOfCount (countPresent mutualLanguage t)

def standardModifier (t : Text) : ℚ :=
  standardModifierOfCount (countPresent standardTerms t)

/-- Model of `RiskScorer._calculate_base_score` (lines 202-216).  A keyword match is
represented by its weight; `expNeg n` stands for the float value
`math.exp(-0.15 * n)` (the count factor is `1 - expNeg n`). -/
def baseKeywordScore (expNeg : ℕ → ℚ) (weights : List ℚ) : ℚ :=
  if weights.isEmpty then 0
  else min 50 (weights.sum * 8 * (1 - expNeg weights.length))

/-- The clamp `max(0.5, min(2.0, context_multiplier))` (line 187). -/
def clampMultiplier (cm : ℚ) : ℚ := max 0.5 (min 2.0 cm)

/-- Model of `RiskScorer.calculate_score` (lines 125-200): base keyword score plus the
eight additive modifiers, times the clamped context multiplier, optionally
blended 60/40 with an AI score, rounded and clamped to `[0, 100]`. -/
def calculateScore (expNeg : ℕ → ℚ) (t : Text) (kw : List ℚ) (cm : ℚ)
    (aiScore : Option ℤ) : ℤ :=
  let pre : ℚ :=
    baseKeywordScore expNeg kw + lengthModifier t + obligationModifier t +
      extremeModifier t + oneSidedModifier t + qualifierModifier t +
      capModifier t + mutualModifier t + standardModifier t
  let contextualized : ℚ := pre * clampMultiplier cm
  let finalScore : ℚ :=
    match aiScore with
    | some a => (a : ℚ) * 0.6 + contextualized * 0.4
    | none => contextualized
  max 0 (min 100 (pyRound finalScore))

/-- Model of `RiskScorer.calculate_confidence` (lines 372-412), over the list of
keyword-match weights and the clause text. -/
def calculateConfidence (kw : List ℚ) (t : Text) (aiAnalyzed : Bool) : ℤ :=
  let b1 : ℤ := 50 + (if 3 ≤ kw.length then 15 else if 1 ≤ kw.length then 8 else 0)
  let highWeightCount : ℤ := (kw.filter fun w => decide (2.5 ≤ w)).length
  let b2 : ℤ := b1 + min 15 (highWeightCount * 5)
  let b3 : ℤ := b2 + (if aiAnalyzed then 15 else 0)
  let b4 : ℤ := b3 + (if 50 ≤ wordCount t then 5 else 0)
  let b5 : ℤ := b4 + (if 0 < countPresent extremeLanguage t then 10 else 0)
  min 100 (max 20 b5)

/-- Severity-bracket weight used by `calculate_document_score`
(lines 456-465). -/
def docScoreWeight (s : ℤ) : ℚ :=
  if 85 ≤ s then 3.0 else if 60 ≤ s then 2.0 else if 30 ≤ s then 1.0 else 0.5

/-- Model of `max` of a list of clause scores (Python `max(clause_scores)`;
the scorer only calls it on a non-empty list). -/
def listMax : List ℤ → ℤ
  | [] => 0
  | x :: xs => xs.foldl max x

/-- Model of `RiskScorer.calculate_document_score` (lines 445-477): severity-weighted
average blended 60/40 with the maximum clause score, rounded, capped at 100
(the code has no lower clamp). -/
def calculateDocumentScore (scores : List ℤ) : ℤ :=
  if scores.isEmpty then 0
  else
    let totalWeight : ℚ := (scores.map docScoreWeight).sum
    let weightedSum : ℚ := (scores.map fun (s : ℤ) => (s : ℚ) * docScoreWeight s).sum
    let avgWeighted : ℚ := weightedSum / totalWeight
    let final : ℚ := avgWeighted * 0.6 + (listMax scores : ℚ) * 0.4
    min 100 (pyRound final)

/-! ## Regex recognisers

Position-passing combinators over `Option ℕ` (a matcher consumes text from a
position and returns the position after the consumed part), used to model the
genuine regular expressions of the code base construct by construct.  All are
case-insensitive, as every such regex is compiled with `re.IGNORECASE`. -/

/-- Consume the literal characters `p` (case-insensitively, no boundary). -/
def litAt (p : List Char) (t : Text) (i : ℕ) : Option ℕ :=
  if litCore p t i then some (i + p.length) else none

/-- Length of the run of characters satisfying `f` starting at `i`. -/
def runLength (f : Char → Bool) (t : Text) (i : ℕ) : ℕ :=
  go (t.length + 1) i
where
  go : ℕ → ℕ → ℕ
  | 0, _ => 0
  | fuel + 1, j =>
    match t.get? j with
    | some c => if f c then 1 + go fuel (j + 1) else 0
    | none => 0

/-- Matcher for `\d+`: consume one or more digits (greedy). -/
def digitsAt (t : Text) (i : ℕ) : Option ℕ :=
  let n := runLength isDigitChar t i
  if n = 0 then none else some (i + n)

/-- Matcher for `\s+`: consume one or more whitespace characters (greedy). -/
def ws1 (t : Text) (i : ℕ) : Option ℕ :=
  let j := skipWs t i
  if j = i then none else some j

/-- A greedy optional group `(?:...)?`: take the group if it matches, else
stay put.  (Used only where the group and the continuation cannot compete
for the same characters, so no backtracking is lost.) -/
def optG (m : ℕ → Option ℕ) (i : ℕ) : ℕ := (m i).getD i

/-- Number of non-overlapping matches found by `pattern.finditer(text)` for a
regex whose match attempt at position `i` is `tryAt i` (returning the end of
the match): scan left to right, resume after each match. -/
def countRx (tryAt : ℕ → Option ℕ) (t : Text) : ℕ :=
  go (t.length + 1) 0
where
  go : ℕ → ℕ → ℕ
  | 0, _ => 0
  | fuel + 1, i =>
    if t.length < i then 0
    else
      match tryAt i with
      | some e => 1 + go fuel (max e (i + 1))
      | none => go fuel (i + 1)

/-- Is there a match anywhere (`pattern.search`)? -/
def foundRx (tryAt : ℕ → Option ℕ) (t : Text) : Bool :=
  (List.range (t.length + 1)).any fun i => (tryAt i).isSome

/-! The six `is_regex` entries of the keyword library
(`keyword_library.py`). -/

/-- Model of `increase\s+(?:by|of)\s+\d+%` (financial, weight 1.5). -/
def tryIncrease (t : Text) (i : ℕ) : Option ℕ := do
  let j ← litAt ("increase").data t i
  let k ← ws1 t j
  let l ← litAt ("by").data t k <|> litAt ("of").data t k
  let m ← ws1 t l
  let n ← digitsAt t m
  litAt ("%").data t n

/-- Model of `interest\s+(?:rate|of)\s+\d+%` (financial, weight 1.5). -/
def tryInterest (t : Text) (i : ℕ) : Option ℕ := do
  let j ← litAt ("interest").data t i
  let k ← ws1 t j
  let l ← litAt ("rate").data t k <|> litAt ("of").data t k
  let m ← ws1 t l
  let n ← digitsAt t m
  litAt ("%").data t n

/-- Model of `insurance\s+(?:of|coverage)\s+\$?\d+` (financial, weight 1.5). -/
def tryInsurance (t : Text) (i : ℕ) : Option ℕ := do
  let j ← litAt ("insurance").data t i
  let k ← ws1 t j
  let l ← litAt ("of").data t k <|> litAt ("coverage").data t k
  let m ← ws1 t l
  digitsAt t (optG (litAt ("$").data t) m)

/-- Matcher for `\d+\s*days?['\"]?\s+(?:prior\s+)?(?:written\s+)?notice`
(termination, weight 1.0).  The optional quote after `days` is an apostrophe
or a double quote. -/
def tryNotice (t : Text) (i : ℕ) : Option ℕ := do
  let j ← digitsAt t i
  let k ← litAt ("day").data t (skipWs t j)
  let l := optG (litAt [Char.ofNat 115] t) k
  let m :=
    match t.get? l with
    | some c => if c = Char.ofNat 39 || c = Char.ofNat 34 then l + 1 else l
    | none => l
  let n ← ws1 t m
  let p := optG (fun x => do let y ← litAt ("prior").data t x; ws1 t y) n
  let q := optG (fun x => do let y ← litAt ("written").data t x; ws1 t y) p
  litAt ("notice").data t q

/-- Matcher for `\d+\s*days?\s+to\s+cure` (termination, weight 1.0). -/
def tryCure (t : Text) (i : ℕ) : Option ℕ := do
  let j ← digitsAt t i
  let k ← litAt ("day").data t (skipWs t j)
  let l := optG (litAt [Char.ofNat 115] t) k
  let m ← ws1 t l
  let n ← litAt ("to").data t m
  let p ← ws1 t n
  litAt ("cure").data t p

/-- Model of `confidential(?:ity)?\s+(?:for|period\s+of)\s+\d+\s+years?`
(confidentiality, weight 1.0). -/
def tryConfYears (t : Text) (i : ℕ) : Option ℕ := do
  let j ← litAt ("confidential").data t i
  let k := optG (litAt ("ity").data t) j
  let l ← ws1 t k
  let m ← litAt ("for").data t l <|>
    (do let x ← litAt ("period").data t l
        let y ← ws1 t x
        litAt ("of").data t y)
  let n ← ws1 t m
  let p ← digitsAt t n
  let q ← ws1 t p
  let r ← litAt ("year").data t q
  pure (optG (litAt [Char.ofNat 115] t) r)

/-! The five `DANGEROUS_PATTERNS` of the fast scanner (`fast_scanner.py`
lines 62-73), compiled with `re.IGNORECASE | re.DOTALL`. -/

/-- Matcher for `\b(?:you|party\s+a|customer|licensee|user)\s+(?:shall|must|will|agrees?\s+to)\s+(?:indemnify|hold\s+harmless)`. -/
def tryDanger1 (t : Text) (i : ℕ) : Option ℕ :=
  if boundaryAt t i then do
    let j ← litAt ("you").data t i <|>
      (do let x ← litAt ("party").data t i
          let y ← ws1 t x
          litAt ("a").data t y) <|>
      litAt ("customer").data t i <|> litAt ("licensee").data t i <|>
      litAt ("user").data t i
    let k ← ws1 t j
    let l ← litAt ("shall").data t k <|> litAt ("must").data t k <|>
      litAt ("will").data t k <|>
      (do let x ← litAt ("agree").data t k
          let x2 := optG (litAt [Char.ofNat 115] t) x
          let y ← ws1 t x2
          litAt ("to").data t y)
    let m ← ws1 t l
    litAt ("indemnify").data t m <|>
      (do let x ← litAt ("hold").data t m
          let y ← ws1 t x
          litAt ("harmless").data t y)
  else none

/-- Matcher for `\b(?:any\s+and\s+all|all\s+and\s+any)\s+(?:claims?|damages?|losses?|liabilities?)`. -/
def tryDanger2 (t : Text) (i : ℕ) : Option ℕ :=
  if boundaryAt t i then do
    let tri (a b c : String) (x : ℕ) : Option ℕ := do
      let p ← litAt a.data t x
      let q ← ws1 t p
      let r ← litAt b.data t q
      let s_ ← ws1 t r
      litAt c.data t s_
    let j ← tri ("any") ("and") ("all") i <|> tri ("all") ("and") ("any") i
    let k ← ws1 t j
    let noun (base : String) (x : ℕ) : Option ℕ := do
      let p ← litAt base.data t x
      pure (optG (litAt [Char.ofNat 115] t) p)
    noun ("claim") k <|> noun ("damage") k <|> noun ("losse") k <|>
      noun ("liabilitie") k
  else none

/-- Matcher for `\bwithout\s+(?:limit(?:ation)?|exception|restriction)\b`. -/
def tryDanger3 (t : Text) (i : ℕ) : Option ℕ :=
  if boundaryAt t i then do
    let j ← litAt ("without").data t i
    let k ← ws1 t j
    let withB (e : ℕ) : Option ℕ := if boundaryAt t e then some e else none
    (do let x ← litAt ("limit").data t k
        (do let y ← litAt ("ation").data t x
            withB y) <|> withB x) <|>
      (do let x ← litAt ("exception").data t k
          withB x) <|>
      (do let x ← litAt ("restriction").data t k
          withB x)
  else none

/-- The venue tail `(?:in|at)\s+(?:Singapore|Hong\s+Kong|London|Switzerland)`
of the arbitration pattern, attempted at position `k`. -/
def danger4Tail (t : Text) (k : ℕ) : Option ℕ := do
  let l ← litAt ("in").data t k <|> litAt ("at").data t k
  let m ← ws1 t l
  litAt ("singapore").data t m <|>
    (do let x ← litAt ("hong").data t m
        let y ← ws1 t x
        litAt ("kong").data t y) <|>
    litAt ("london").data t m <|> litAt ("switzerland").data t m

/-- Matcher for `\b(?:binding\s+)?arbitration.*(?:in|at)\s+(?:Singapore|Hong\s+Kong|London|Switzerland)`
(with `re.DOTALL`, so `.*` spans anything; being greedy, the match ends at
the venue tail starting at the largest feasible position). -/
def tryDanger4 (t : Text) (i : ℕ) : Option ℕ :=
  if boundaryAt t i then do
    let a ←
      (do let x ← litAt ("binding").data t i
          let y ← ws1 t x
          litAt ("arbitration").data t y) <|>
      litAt ("arbitration").data t i
    ((List.range (t.length + 1)).reverse.filterMap fun k =>
      if k < a then none else danger4Tail t k).head?
  else none

/-- Matcher for `\bimmediate\s+termination\s+(?:without|with\s+no)\s+(?:cure|notice)`. -/
def tryDanger5 (t : Text) (i : ℕ) : Option ℕ :=
  if boundaryAt t i then do
    let j ← litAt ("immediate").data t i
    let k ← ws1 t j
    let l ← litAt ("termination").data t k
    let m ← ws1 t l
    let n ← litAt ("without").data t m <|>
      (do let x ← litAt ("with").data t m
          let y ← ws1 t x
          litAt ("no").data t y)
    let p ← ws1 t n
    litAt ("cure").data t p <|> litAt ("notice").data t p
  else none

/-- Number of structural dangerous-pattern hits in a text (each contributes a
red flag of fixed weight 3.0). -/
def dangerousCount (t : Text) : ℕ :=
  countRx (tryDanger1 t) t + countRx (tryDanger2 t) t +
    countRx (tryDanger3 t) t + countRx (tryDanger4 t) t +
    countRx (tryDanger5 t) t

/-! ## Keyword library (`keyword_library.py`)

All 422 literal entries of the eight category lists, in source order, each as
`(pattern, weight)`.  Every literal entry is compiled as `\b<escaped>\b` with
`re.IGNORECASE`; `\x27` is an apostrophe.  Categories and descriptions are
kept as comments / elided: no claim under verification depends on them (the
scanner's totals, red flags and severity decisions depend only on weights and
occurrence counts).  The six `is_regex` entries are handled by the dedicated
recognisers above via `libraryOccWeights`. -/

def libraryLits : List (String × ℚ) :=
  -- financial keywords
  [("unlimited liability", 3.0),
   ("unlimited financial", 3.0),
   ("without limitation", 2.5),
   ("no cap", 2.5),
   ("no limit", 2.5),
   ("uncapped", 2.5),
   ("additional fees", 1.5),
   ("processing fee", 1.0),
   ("administrative fee", 1.0),
   ("service charge", 1.0),
   ("convenience fee", 1.5),
   ("handling fee", 1.0),
   ("setup fee", 1.0),
   ("maintenance fee", 1.0),
   ("non-refundable", 2.0),
   ("nonrefundable", 2.0),
   ("no refund", 2.5),
   ("refund shall not", 2.0),
   ("forfeiture", 2.0),
   ("forfeited", 2.0),
   ("sole discretion to adjust", 2.5),
   ("adjust fees at any time", 2.5),
   ("price increase", 1.5),
   ("automatically increase", 2.0),
   ("automatically renew at increased", 2.5),
   ("annual increase", 1.5),
   ("escalation clause", 1.5),
   ("cost of living adjustment", 1.0),
   ("CPI adjustment", 1.0),
   ("penalty", 1.5),
   ("penalties compound", 2.5),
   ("late fee", 1.5),
   ("interest rate of", 1.5),
   ("default rate", 2.0),
   ("liquidated damages", 1.5),
   ("acceleration clause", 2.0),
   ("payment in advance", 1.0),
   ("upfront payment", 1.0),
   ("upon signing", 1.0),
   ("net-60", 1.0),
   ("net-90", 1.5),
   ("upon receipt", 1.0),
   ("within 7 days", 1.0),
   ("currency fluctuation", 1.5),
   ("exchange rate", 1.0),
   ("bears the exchange risk", 2.0),
   ("security deposit", 1.0),
   ("performance bond", 1.5),
   ("letter of credit", 1.5),
   ("escrow", 1.0),
   ("responsible for all taxes", 1.5),
   ("plus applicable taxes", 1.0),
   ("exclusive of taxes", 1.0),
   ("gross up", 1.5),
   ("maintain insurance", 1.0),
   ("name as additional insured", 1.0),
  -- liability keywords
   ("shall indemnify", 2.0),
   ("will indemnify", 2.0),
   ("agrees to indemnify", 2.0),
   ("indemnify and hold harmless", 2.5),
   ("defend, indemnify", 2.5),
   ("unlimited indemnification", 3.0),
   ("broad indemnification", 2.5),
   ("indemnify for any and all", 2.5),
   ("hold harmless", 2.0),
   ("save harmless", 2.0),
   ("harmless from any", 2.0),
   ("waive all claims", 3.0),
   ("waives any right", 2.5),
   ("waives the right to", 2.5),
   ("release from liability", 2.5),
   ("releases from all liability", 3.0),
   ("releases and discharges", 2.5),
   ("forever release", 3.0),
   ("knowingly and voluntarily waive", 2.5),
   ("to the fullest extent permitted by law", 2.0),
   ("to the maximum extent", 2.0),
   ("in no event shall", 1.5),
   ("under no circumstances", 2.0),
   ("shall not be liable for", 1.5),
   ("excludes all liability", 2.5),
   ("disclaims all liability", 2.5),
   ("consequential damages", 1.5),
   ("incidental damages", 1.5),
   ("special damages", 1.5),
   ("punitive damages", 1.5),
   ("indirect damages", 1.5),
   ("excludes consequential", 1.0),
   ("including but not limited to lost profits", 2.0),
   ("as is", 1.5),
   ("as-is", 1.5),
   ("with all faults", 2.0),
   ("without warranty", 2.0),
   ("no warranties", 2.0),
   ("disclaims all warranties", 2.5),
   ("warranty of merchantability", 1.0),
   ("warranty of fitness", 1.0),
   ("joint and several", 2.5),
   ("jointly and severally", 2.5),
   ("personal guarantee", 2.5),
   ("personally liable", 2.5),
   ("guarantor", 2.0),
   ("gross negligence", 1.5),
   ("willful misconduct", 1.5),
   ("even if advised of", 2.0),
   ("regardless of negligence", 2.5),
   ("third party claims", 1.5),
   ("any claims by third parties", 2.0),
   ("third party losses", 1.5),
  -- termination keywords
   ("automatically renews", 2.0),
   ("automatically renew", 2.0),
   ("auto-renewal", 2.0),
   ("auto renewal", 2.0),
   ("renew automatically", 2.0),
   ("automatically extended", 2.0),
   ("unless terminated", 1.5),
   ("unless cancelled", 1.5),
   ("evergreen", 2.0),
   ("successive renewal", 1.5),
   ("may not terminate", 2.5),
   ("cannot terminate", 2.5),
   ("shall not terminate", 2.5),
   ("no right to terminate", 3.0),
   ("irrevocable", 3.0),
   ("non-cancelable", 2.5),
   ("non-cancellable", 2.5),
   ("binding and irrevocable", 3.0),
   ("termination fee", 2.0),
   ("early termination fee", 2.0),
   ("cancellation fee", 2.0),
   ("termination penalty", 2.5),
   ("break fee", 2.0),
   ("liquidated damages upon termination", 2.5),
   ("termination fee equal to", 2.5),
   ("remaining term", 2.0),
   ("pay for the remainder", 2.5),
   ("30 days notice", 1.0),
   ("60 days notice", 1.5),
   ("90 days notice", 2.0),
   ("180 days notice", 2.5),
   ("one year notice", 3.0),
   ("12 months notice", 3.0),
   ("minimum term", 1.5),
   ("initial term", 1.0),
   ("lock-in period", 2.0),
   ("commitment period", 1.5),
   ("binding for", 1.5),
   ("perpetual", 2.5),
   ("in perpetuity", 3.0),
   ("survives termination indefinitely", 3.0),
   ("survives termination", 1.5),
   ("survive the termination", 1.5),
   ("shall survive", 1.0),
   ("continuing obligations", 1.5),
   ("terminate for convenience", 0.5),
   ("terminate without cause", 0.5),
   ("for cause only", 2.0),
   ("material breach only", 2.0),
   ("only upon material breach", 2.0),
   ("cure period", 1.0),
   ("opportunity to cure", 1.0),
   ("no cure period", 2.5),
   ("immediate termination", 2.0),
  -- ip keywords
   ("assigns all rights", 2.5),
   ("assign all rights, title", 3.0),
   ("assigns all right, title, and interest", 3.0),
   ("transfer of ownership", 2.5),
   ("transfers all intellectual property", 3.0),
   ("hereby assigns", 2.0),
   ("irrevocably assigns", 3.0),
   ("work made for hire", 2.5),
   ("work for hire", 2.5),
   ("works for hire", 2.5),
   ("deemed work for hire", 2.5),
   ("shall be considered work for hire", 2.5),
   ("exclusive license", 2.0),
   ("exclusive, perpetual", 3.0),
   ("exclusive, worldwide", 2.5),
   ("exclusive, perpetual, worldwide", 3.0),
   ("exclusive, irrevocable", 3.0),
   ("non-exclusive license", 0.5),
   ("sublicensable", 1.5),
   ("right to sublicense", 1.5),
   ("transferable license", 1.5),
   ("future developments", 2.5),
   ("including future", 2.5),
   ("future improvements", 2.0),
   ("derivatives and modifications", 2.0),
   ("all derivative works", 2.5),
   ("any improvements", 2.0),
   ("enhancements and modifications", 1.5),
   ("waives moral rights", 2.5),
   ("waive moral rights", 2.5),
   ("moral rights waiver", 2.5),
   ("waives all moral rights", 3.0),
   ("waives any moral rights", 2.5),
   ("patent assignment", 2.0),
   ("assigns all patents", 2.5),
   ("trademark assignment", 2.0),
   ("assigns all trademarks", 2.5),
   ("copyright assignment", 2.0),
   ("background IP", 1.0),
   ("pre-existing IP", 1.0),
   ("retains ownership of background", 0.5),
   ("license to background IP", 1.5),
   ("source code", 1.0),
   ("source code escrow", 1.0),
   ("deliver source code", 2.0),
   ("access to source code", 2.0),
   ("reverse engineer", 1.5),
   ("decompile", 1.5),
   ("disassemble", 1.5),
  -- confidentiality keywords
   ("perpetual confidentiality", 3.0),
   ("indefinite confidentiality", 3.0),
   ("confidential in perpetuity", 3.0),
   ("10 years", 2.0),
   ("15 years", 2.5),
   ("20 years", 3.0),
   ("all information", 2.0),
   ("any information", 2.0),
   ("all materials", 1.5),
   ("any and all information", 2.5),
   ("regardless of whether marked", 2.0),
   ("whether or not marked confidential", 2.0),
   ("may share with affiliates", 1.5),
   ("share with affiliates without notice", 2.5),
   ("share with third parties", 2.0),
   ("disclose to subcontractors", 1.5),
   ("without prior consent", 2.0),
   ("in its sole discretion", 2.5),
   ("sole discretion to disclose", 2.5),
   ("no obligation to return", 2.5),
   ("not required to return", 2.5),
   ("need not return", 2.0),
   ("may retain copies", 1.5),
   ("retain archival copies", 1.0),
   ("return or destroy", 0.5),
   ("certify destruction", 0.5),
   ("waives data protection", 3.0),
   ("waive data protection rights", 3.0),
   ("no liability for data", 2.5),
   ("not responsible for data security", 2.5),
   ("data breach", 1.5),
   ("security incident", 1.5),
   ("your confidential information", 1.0),
   ("receiving party shall", 1.5),
   ("disclosing party may", 1.5),
   ("mutual confidentiality", 0.5),
   ("reciprocal obligations", 0.5),
   ("publicly available", 0.5),
   ("independently developed", 0.5),
   ("rightfully received", 0.5),
   ("required by law", 0.5),
   ("court order", 0.5),
  -- dispute keywords
   ("binding arbitration", 2.0),
   ("mandatory arbitration", 2.0),
   ("shall be resolved through arbitration", 1.5),
   ("submit to arbitration", 1.5),
   ("AAA arbitration", 1.5),
   ("JAMS arbitration", 1.5),
   ("ICC arbitration", 1.5),
   ("final and binding", 2.0),
   ("arbitration shall be final", 2.0),
   ("no appeal", 2.5),
   ("exclusive jurisdiction", 1.5),
   ("exclusive jurisdiction in", 2.0),
   ("courts of", 1.0),
   ("shall be brought in", 1.5),
   ("only in the courts", 2.0),
   ("irrevocably submits", 2.0),
   ("consents to jurisdiction", 1.5),
   ("personal jurisdiction", 1.5),
   ("foreign jurisdiction", 2.5),
   ("venue shall be", 1.5),
   ("exclusive venue", 2.0),
   ("State of Delaware", 1.5),
   ("State of New York", 1.5),
   ("State of California", 1.5),
   ("London, England", 2.0),
   ("Singapore", 1.5),
   ("Hong Kong", 1.5),
   ("waives right to jury trial", 2.5),
   ("waive jury trial", 2.5),
   ("waives right to trial by jury", 2.5),
   ("bench trial", 1.5),
   ("judge alone", 1.5),
   ("waives class action", 2.5),
   ("class action waiver", 2.5),
   ("waives right to class action", 2.5),
   ("individual basis only", 2.0),
   ("no class proceedings", 2.5),
   ("representative action", 2.0),
   ("each party bears own costs", 1.5),
   ("own legal fees", 1.0),
   ("prevailing party", 2.0),
   ("prevailing party entitled to fees", 2.0),
   ("loser pays", 2.5),
   ("losing party shall pay", 2.5),
   ("recover attorneys\x27 fees", 2.0),
   ("reasonable attorneys\x27 fees", 1.5),
   ("mediation", 0.5),
   ("good faith negotiation", 0.5),
   ("escalation procedure", 0.5),
   ("informal dispute resolution", 0.5),
   ("one year limitation", 2.0),
   ("6 month limitation", 2.5),
   ("must bring claim within", 1.5),
   ("shortened limitation", 2.0),
  -- compliance keywords
   ("shall comply with all applicable laws", 1.0),
   ("responsible for compliance", 2.0),
   ("sole responsibility for compliance", 2.5),
   ("all regulatory requirements", 1.5),
   ("all applicable regulations", 1.0),
   ("regulatory violations", 2.0),
   ("obtain all necessary permits", 2.0),
   ("at own expense", 1.5),
   ("all necessary licenses", 1.5),
   ("maintain all permits", 1.5),
   ("shall obtain at its expense", 2.0),
   ("responsible for obtaining", 1.5),
   ("strict liability", 2.5),
   ("strictly liable", 2.5),
   ("regardless of fault", 2.5),
   ("without regard to negligence", 2.5),
   ("absolute liability", 3.0),
   ("subject to audit", 1.5),
   ("unlimited audit", 2.5),
   ("audit at any time", 2.0),
   ("audit upon reasonable notice", 1.0),
   ("records retention", 1.0),
   ("maintain records for", 1.0),
   ("inspection rights", 1.5),
   ("right to inspect", 1.5),
   ("reporting obligations", 1.5),
   ("shall report", 1.0),
   ("monthly reporting", 1.0),
   ("quarterly reporting", 1.0),
   ("provide reports", 1.0),
   ("government approval", 2.0),
   ("regulatory approval", 1.5),
   ("government consent", 2.0),
   ("prior government approval", 2.0),
   ("export control", 1.5),
   ("export restrictions", 1.5),
   ("export compliance", 1.5),
   ("ITAR", 2.0),
   ("EAR", 1.5),
   ("sanctions", 2.0),
   ("OFAC", 2.0),
   ("HIPAA", 1.5),
   ("GDPR", 1.5),
   ("PCI DSS", 1.5),
   ("SOC 2", 1.0),
   ("ISO 27001", 1.0),
   ("CCPA", 1.5),
   ("shall certify", 1.5),
   ("provide certification", 1.5),
   ("annual certification", 1.5),
   ("written certification", 1.0),
  -- operational keywords
   ("time is of the essence", 2.5),
   ("time shall be of the essence", 2.5),
   ("strict compliance", 2.0),
   ("material breach", 1.5),
   ("substantial performance", 1.0),
   ("best efforts", 1.0),
   ("commercially reasonable efforts", 0.5),
   ("reasonable efforts", 0.5),
   ("service level agreement", 1.0),
   ("SLA", 1.0),
   ("uptime", 1.0),
   ("99.9%", 1.0),
   ("99.99%", 1.5),
   ("service credits", 0.5),
   ("response time", 1.0),
   ("resolution time", 1.0),
   ("force majeure", 0.5),
   ("act of God", 0.5),
   ("no force majeure", 2.5),
   ("force majeure shall not apply", 2.5),
   ("excused from performance", 0.5),
   ("beyond reasonable control", 0.5),
   ("including pandemic", 0.5),
   ("requires prior written approval", 2.0),
   ("subject to approval", 1.5),
   ("consent required", 1.5),
   ("prior written consent", 1.5),
   ("shall not unreasonably withhold", 0.5),
   ("in its sole discretion", 2.5),
   ("may withhold consent", 2.0),
   ("absolute discretion", 2.5),
   ("exclusive dealing", 2.5),
   ("exclusive arrangement", 2.0),
   ("sole and exclusive", 2.5),
   ("exclusive right", 2.0),
   ("shall not deal with", 2.0),
   ("shall not contract with", 2.0),
   ("non-exclusive", 0.5),
   ("non-compete", 2.0),
   ("non-competition", 2.0),
   ("shall not compete", 2.5),
   ("competing business", 2.0),
   ("compete within", 2.0),
   ("competitive activity", 2.0),
   ("non-solicitation", 1.5),
   ("shall not solicit", 1.5),
   ("employee solicitation", 1.5),
   ("customer solicitation", 1.5),
   ("change order", 1.0),
   ("change request", 1.0),
   ("scope change", 1.0),
   ("modification requires written", 0.5),
   ("no oral modification", 0.5),
   ("may assign", 1.5),
   ("shall not assign", 1.0),
   ("may not assign without", 1.0),
   ("freely assignable", 2.0),
   ("assignment requires consent", 1.0),
   ("change of control", 1.5),
   ("may subcontract", 1.5),
   ("shall not subcontract", 1.5),
   ("remains responsible for subcontractor", 1.5),
   ("subcontractor performance", 1.5)]

/-- Chunk 1 of the folded library pattern codes (see `libraryCodes`). -/
def libraryCodes1 : List (List ℕ × ℚ) :=
  [([117, 110, 108, 105, 109, 105, 116, 101, 100, 32, 108, 105, 97, 98, 105, 108, 105, 116, 121], 3.0),  -- unlimited liability
   ([117, 110, 108, 105, 109, 105, 116, 101, 100, 32, 102, 105, 110, 97, 110, 99, 105, 97, 108], 3.0),  -- unlimited financial
   ([119, 105, 116, 104, 111, 117, 116, 32, 108, 105, 109, 105, 116, 97, 116, 105, 111, 110], 2.5),  -- without limitation
   ([110, 111, 32, 99, 97, 112], 2.5),  -- no cap
   ([110, 111, 32, 108, 105, 109, 105, 116], 2.5),  -- no limit
   ([117, 110, 99, 97, 112, 112, 101, 100], 2.5),  -- uncapped
   ([97, 100, 100, 105, 116, 105, 111, 110, 97, 108, 32, 102, 101, 101, 115], 1.5),  -- additional fees
   ([112, 114, 111, 99, 101, 115, 115, 105, 110, 103, 32, 102, 101, 101], 1.0),  -- processing fee
   ([97, 100, 109, 105, 110, 105, 115, 116, 114, 97, 116, 105, 118, 101, 32, 102, 101, 101], 1.0),  -- administrative fee
   ([115, 101, 114, 118, 105, 99, 101, 32, 99, 104, 97, 114, 103, 101], 1.0),  -- service charge
   ([99, 111, 110, 118, 101, 110, 105, 101, 110, 99, 101, 32, 102, 101, 101], 1.5),  -- convenience fee
   ([104, 97, 110, 100, 108, 105, 110, 103, 32, 102, 101, 101], 1.0),  -- handling fee
   ([115, 101, 116, 117, 112, 32, 102, 101, 101], 1.0),  -- setup fee
   ([109, 97, 105, 110, 116, 101, 110, 97, 110, 99, 101, 32, 102, 101, 101], 1.0),  -- maintenance fee
   ([110, 111, 110, 45, 114, 101, 102, 117, 110, 100, 97, 98, 108, 101], 2.0),  -- non-refundable
   ([110, 111, 110, 114, 101, 102, 117, 110, 100, 97, 98, 108, 101], 2.0),  -- nonrefundable
   ([110, 111, 32, 114, 101, 102, 117, 110, 100], 2.5),  -- no refund
   ([114, 101, 102, 117, 110, 100, 32, 115, 104, 97, 108, 108, 32, 110, 111, 116], 2.0),  -- refund shall not
   ([102, 111, 114, 102, 101, 105, 116, 117, 114, 101], 2.0),  -- forfeiture
   ([102, 111, 114, 102, 101, 105, 116, 101, 100], 2.0),  -- forfeited
   ([115, 111, 108, 101, 32, 100, 105, 115, 99, 114, 101, 116, 105, 111, 110, 32, 116, 111, 32, 97, 100, 106, 117, 115, 116], 2.5),  -- sole discretion to adjust
   ([97, 100, 106, 117, 115, 116, 32, 102, 101, 101, 115, 32, 97, 116, 32, 97, 110, 121, 32, 116, 105, 109, 101], 2.5),  -- adjust fees at any time
   ([112, 114, 105, 99, 101, 32, 105, 110, 99, 114, 101, 97, 115, 101], 1.5),  -- price increase
   ([97, 117, 116, 111, 109, 97, 116, 105, 99, 97, 108, 108, 121, 32, 105, 110, 99, 114, 101, 97, 115, 101], 2.0),  -- automatically increase
   ([97, 117, 116, 111, 109, 97, 116, 105, 99, 97, 108, 108, 121, 32, 114, 101, 110, 101, 119, 32, 97, 116, 32, 105, 110, 99, 114, 101, 97, 115, 101, 100], 2.5),  -- automatically renew at increased
   ([97, 110, 110, 117, 97, 108, 32, 105, 110, 99, 114, 101, 97, 115, 101], 1.5),  -- annual increase
   ([101, 115, 99, 97, 108, 97, 116, 105, 111, 110, 32, 99, 108, 97, 117, 115, 101], 1.5),  -- escalation clause
   ([99, 111, 115, 116, 32, 111, 102, 32, 108, 105, 118, 105, 110, 103, 32, 97, 100, 106, 117, 115, 116, 109, 101, 110, 116], 1.0),  -- cost of living adjustment
   ([99, 112, 105, 32, 97, 100, 106, 117, 115, 116, 109, 101, 110, 116], 1.0),  -- CPI adjustment
   ([112, 101, 110, 97, 108, 116, 121], 1.5),  -- penalty
   ([112, 101, 110, 97, 108, 116, 105, 101, 115, 32, 99, 111, 109, 112, 111, 117, 110, 100], 2.5),  -- penalties compound
   ([108, 97, 116, 101, 32, 102, 101, 101], 1.5),  -- late fee
   ([105, 110, 116, 101, 114, 101, 115, 116, 32, 114, 97, 116, 101, 32, 111, 102], 1.5),  -- interest rate of
   ([100, 101, 102, 97, 117, 108, 116, 32, 114, 97, 116, 101], 2.0),  -- default rate
   ([108, 105, 113, 117, 105, 100, 97, 116, 101, 100, 32, 100, 97, 109, 97, 103, 101, 115], 1.5),  -- liquidated damages
   ([97, 99, 99, 101, 108, 101, 114, 97, 116, 105, 111, 110, 32, 99, 108, 97, 117, 115, 101], 2.0),  -- acceleration clause
   ([112, 97, 121, 109, 101, 110, 116, 32, 105, 110, 32, 97, 100, 118, 97, 110, 99, 101], 1.0),  -- payment in advance
   ([117, 112, 102, 114, 111, 110, 116, 32, 112, 97, 121, 109, 101, 110, 116], 1.0),  -- upfront payment
   ([117, 112, 111, 110, 32, 115, 105, 103, 110, 105, 110, 103], 1.0),  -- upon signing
   ([110, 101, 116, 45, 54, 48], 1.0),  -- net-60
   ([110, 101, 116, 45, 57, 48], 1.5),  -- net-90
   ([117, 112, 111, 110, 32, 114, 101, 99, 101, 105, 112, 116], 1.0),  -- upon receipt
   ([119, 105, 116, 104, 105, 110, 32, 55, 32, 100, 97, 121, 115], 1.0),  -- within 7 days
   ([99, 117, 114, 114, 101, 110, 99, 121, 32, 102, 108, 117, 99, 116, 117, 97, 116, 105, 111, 110], 1.5),  -- currency fluctuation
   ([101, 120, 99, 104, 97, 110, 103, 101, 32, 114, 97, 116, 101], 1.0),  -- exchange rate
   ([98, 101, 97, 114, 115, 32, 116, 104, 101, 32, 101, 120, 99, 104, 97, 110, 103, 101, 32, 114, 105, 115, 107], 2.0),  -- bears the exchange risk
   ([115, 101, 99, 117, 114, 105, 116, 121, 32, 100, 101, 112, 111, 115, 105, 116], 1.0),  -- security deposit
   ([112, 101, 114, 102, 111, 114, 109, 97, 110, 99, 101, 32, 98, 111, 110, 100], 1.5)]  -- performance bond

/-- Chunk 2 of the folded library pattern codes (see `libraryCodes`). -/
def libraryCodes2 : List (List ℕ × ℚ) :=
  [([108, 101, 116, 116, 101, 114, 32, 111, 102, 32, 99, 114, 101, 100, 105, 116], 1.5),  -- letter of credit
   ([101, 115, 99, 114, 111, 119], 1.0),  -- escrow
   ([114, 101, 115, 112, 111, 110, 115, 105, 98, 108, 101, 32, 102, 111, 114, 32, 97, 108, 108, 32, 116, 97, 120, 101, 115], 1.5),  -- responsible for all taxes
   ([112, 108, 117, 115, 32, 97, 112, 112, 108, 105, 99, 97, 98, 108, 101, 32, 116, 97, 120, 101, 115], 1.0),  -- plus applicable taxes
   ([101, 120, 99, 108, 117, 115, 105, 118, 101, 32, 111, 102, 32, 116, 97, 120, 101, 115], 1.0),  -- exclusive of taxes
   ([103, 114, 111, 115, 115, 32, 117, 112], 1.5),  -- gross up
   ([109, 97, 105, 110, 116, 97, 105, 110, 32, 105, 110, 115, 117, 114, 97, 110, 99, 101], 1.0),  -- maintain insurance
   ([110, 97, 109, 101, 32, 97, 115, 32, 97, 100, 100, 105, 116, 105, 111, 110, 97, 108, 32, 105, 110, 115, 117, 114, 101, 100], 1.0),  -- name as additional insured
   ([115, 104, 97, 108, 108, 32, 105, 110, 100, 101, 109, 110, 105, 102, 121], 2.0),  -- shall indemnify
   ([119, 105, 108, 108, 32, 105, 110, 100, 101, 109, 110, 105, 102, 121], 2.0),  -- will indemnify
   ([97, 103, 114, 101, 101, 115, 32, 116, 111, 32, 105, 110, 100, 101, 109, 110, 105, 102, 121], 2.0),  -- agrees to indemnify
   ([105, 110, 100, 101, 109, 110, 105, 102, 121, 32, 97, 110, 100, 32, 104, 111, 108, 100, 32, 104, 97, 114, 109, 108, 101, 115, 115], 2.5),  -- indemnify and hold harmless
   ([100, 101, 102, 101, 110, 100, 44, 32, 105, 110, 100, 101, 109, 110, 105, 102, 121], 2.5),  -- defend, indemnify
   ([117, 110, 108, 105, 109, 105, 116, 101, 100, 32, 105, 110, 100, 101, 109, 110, 105, 102, 105, 99, 97, 116, 105, 111, 110], 3.0),  -- unlimited indemnification
   ([98, 114, 111, 97, 100, 32, 105, 110, 100, 101, 109, 110, 105, 102, 105, 99, 97, 116, 105, 111, 110], 2.5),  -- broad indemnification
   ([105, 110, 100, 101, 109, 110, 105, 102, 121, 32, 102, 111, 114, 32, 97, 110, 121, 32, 97, 110, 100, 32, 97, 108, 108], 2.5),  -- indemnify for any and all
   ([104, 111, 108, 100, 32, 104, 97, 114, 109, 108, 101, 115, 115], 2.0),  -- hold harmless
   ([115, 97, 118, 101, 32, 104, 97, 114, 109, 108, 101, 115, 115], 2.0),  -- save harmless
   ([104, 97, 114, 109, 108, 101, 115, 115, 32, 102, 114, 111, 109, 32, 97, 110, 121], 2.0),  -- harmless from any
   ([119, 97, 105, 118, 101, 32, 97, 108, 108, 32, 99, 108, 97, 105, 109, 115], 3.0),  -- waive all claims
   ([119, 97, 105, 118, 101, 115, 32, 97, 110, 121, 32, 114, 105, 103, 104, 116], 2.5),  -- waives any right
   ([119, 97, 105, 118, 101, 115, 32, 116, 104, 101, 32, 114, 105, 103, 104, 116, 32, 116, 111], 2.5),  -- waives the right to
   ([114, 101, 108, 101, 97, 115, 101, 32, 102, 114, 111, 109, 32, 108, 105, 97, 98, 105, 108, 105, 116, 121], 2.5),  -- release from liability
   ([114, 101, 108, 101, 97, 115, 101, 115, 32, 102, 114, 111, 109, 32, 97, 108, 108, 32, 108, 105, 97, 98, 105, 108, 105, 116, 121], 3.0),  -- releases from all liability
   ([114, 101, 108, 101, 97, 115, 101, 115, 32, 97, 110, 100, 32, 100, 105, 115, 99, 104, 97, 114, 103, 101, 115], 2.5),  -- releases and discharges
   ([102, 111, 114, 101, 118, 101, 114, 32, 114, 101, 108, 101, 97, 115, 101], 3.0),  -- forever release
   ([107, 110, 111, 119, 105, 110, 103, 108, 121, 32, 97, 110, 100, 32, 118, 111, 108, 117, 110, 116, 97, 114, 105, 108, 121, 32, 119, 97, 105, 118, 101], 2.5),  -- knowingly and voluntarily waive
   ([116, 111, 32, 116, 104, 101, 32, 102, 117, 108, 108, 101, 115, 116, 32, 101, 120, 116, 101, 110, 116, 32, 112, 101, 114, 109, 105, 116, 116, 101, 100, 32, 98, 121, 32, 108, 97, 119], 2.0),  -- to the fullest extent permitted by law
   ([116, 111, 32, 116, 104, 101, 32, 109, 97, 120, 105, 109, 117, 109, 32, 101, 120, 116, 101, 110, 116], 2.0),  -- to the maximum extent
   ([105, 110, 32, 110, 111, 32, 101, 118, 101, 110, 116, 32, 115, 104, 97, 108, 108], 1.5),  -- in no event shall
   ([117, 110, 100, 101, 114, 32, 110, 111, 32, 99, 105, 114, 99, 117, 109, 115, 116, 97, 110, 99, 101, 115], 2.0),  -- under no circumstances
   ([115, 104, 97, 108, 108, 32, 110, 111, 116, 32, 98, 101, 32, 108, 105, 97, 98, 108, 101, 32, 102, 111, 114], 1.5),  -- shall not be liable for
   ([101, 120, 99, 108, 117, 100, 101, 115, 32, 97, 108, 108, 32, 108, 105, 97, 98, 105, 108, 105, 116, 121], 2.5),  -- excludes all liability
   ([100, 105, 115, 99, 108, 97, 105, 109, 115, 32, 97, 108, 108, 32, 108, 105, 97, 98, 105, 108, 105, 116, 121], 2.5),  -- disclaims all liability
   ([99, 111, 110, 115, 101, 113, 117, 101, 110, 116, 105, 97, 108, 32, 100, 97, 109, 97, 103, 101, 115], 1.5),  -- consequential damages
   ([105, 110, 99, 105, 100, 101, 110, 116, 97, 108, 32, 100, 97, 109, 97, 103, 101, 115], 1.5),  -- incidental damages
   ([115, 112, 101, 99, 105, 97, 108, 32, 100, 97, 109, 97, 103, 101, 115], 1.5),  -- special damages
   ([112, 117, 110, 105, 116, 105, 118, 101, 32, 100, 97, 109, 97, 103, 101, 115], 1.5),  -- punitive damages
   ([105, 110, 100, 105, 114, 101, 99, 116, 32, 100, 97, 109, 97, 103, 101, 115], 1.5),  -- indirect damages
   ([101, 120, 99, 108, 117, 100, 101, 115, 32, 99, 111, 110, 115, 101, 113, 117, 101, 110, 116, 105, 97, 108], 1.0),  -- excludes consequential
   ([105, 110, 99, 108, 117, 100, 105, 110, 103, 32, 98, 117, 116, 32, 110, 111, 116, 32, 108, 105, 109, 105, 116, 101, 100, 32, 116, 111, 32, 108, 111, 115, 116, 32, 112, 114, 111, 102, 105, 116, 115], 2.0),  -- including but not limited to lost profits
   ([97, 115, 32, 105, 115], 1.5),  -- as is
   ([97, 115, 45, 105, 115], 1.5),  -- as-is
   ([119, 105, 116, 104, 32, 97, 108, 108, 32, 102, 97, 117, 108, 116, 115], 2.0),  -- with all faults
   ([119, 105, 116, 104, 111, 117, 116, 32, 119, 97, 114, 114, 97, 110, 116, 121], 2.0),  -- without warranty
   ([110, 111, 32, 119, 97, 114, 114, 97, 110, 116, 105, 101, 115], 2.0),  -- no warranties
   ([100, 105, 115, 99, 108, 97, 105, 109, 115, 32, 97, 108, 108, 32, 119, 97, 114, 114, 97, 110, 116, 105, 101, 115], 2.5),  -- disclaims all warranties
   ([119, 97, 114, 114, 97, 110, 116, 121, 32, 111, 102, 32, 109, 101, 114, 99, 104, 97, 110, 116, 97, 98, 105, 108, 105, 116, 121], 1.0)]  -- warranty of merchantability

/-- Chunk 3 of the folded library pattern codes (see `libraryCodes`). -/
def libraryCodes3 : List (List ℕ × ℚ) :=
  [([119, 97, 114, 114, 97, 110, 116, 121, 32, 111, 102, 32, 102, 105, 116, 110, 101, 115, 115], 1.0),  -- warranty of fitness
   ([106, 111, 105, 110, 116, 32, 97, 110, 100, 32, 115, 101, 118, 101, 114, 97, 108], 2.5),  -- joint and several
   ([106, 111, 105, 110, 116, 108, 121, 32, 97, 110, 100, 32, 115, 101, 118, 101, 114, 97, 108, 108, 121], 2.5),  -- jointly and severally
   ([112, 101, 114, 115, 111, 110, 97, 108, 32, 103, 117, 97, 114, 97, 110, 116, 101, 101], 2.5),  -- personal guarantee
   ([112, 101, 114, 115, 111, 110, 97, 108, 108, 121, 32, 108, 105, 97, 98, 108, 101], 2.5),  -- personally liable
   ([103, 117, 97, 114, 97, 110, 116, 111, 114], 2.0),  -- guarantor
   ([103, 114, 111, 115, 115, 32, 110, 101, 103, 108, 105, 103, 101, 110, 99, 101], 1.5),  -- gross negligence
   ([119, 105, 108, 108, 102, 117, 108, 32, 109, 105, 115, 99, 111, 110, 100, 117, 99, 116], 1.5),  -- willful misconduct
   ([101, 118, 101, 110, 32, 105, 102, 32, 97, 100, 118, 105, 115, 101, 100, 32, 111, 102], 2.0),  -- even if advised of
   ([114, 101, 103, 97, 114, 100, 108, 101, 115, 115, 32, 111, 102, 32, 110, 101, 103, 108, 105, 103, 101, 110, 99, 101], 2.5),  -- regardless of negligence
   ([116, 104, 105, 114, 100, 32, 112, 97, 114, 116, 121, 32, 99, 108, 97, 105, 109, 115], 1.5),  -- third party claims
   ([97, 110, 121, 32, 99, 108, 97, 105, 109, 115, 32, 98, 121, 32, 116, 104, 105, 114, 100, 32, 112, 97, 114, 116, 105, 101, 115], 2.0),  -- any claims by third parties
   ([116, 104, 105, 114, 100, 32, 112, 97, 114, 116, 121, 32, 108, 111, 115, 115, 101, 115], 1.5),  -- third party losses
   ([97, 117, 116, 111, 109, 97, 116, 105, 99, 97, 108, 108, 121, 32, 114, 101, 110, 101, 119, 115], 2.0),  -- automatically renews
   ([97, 117, 116, 111, 109, 97, 116, 105, 99, 97, 108, 108, 121, 32, 114, 101, 110, 101, 119], 2.0),  -- automatically renew
   ([97, 117, 116, 111, 45, 114, 101, 110, 101, 119, 97, 108], 2.0),  -- auto-renewal
   ([97, 117, 116, 111, 32, 114, 101, 110, 101, 119, 97, 108], 2.0),  -- auto renewal
   ([114, 101, 110, 101, 119, 32, 97, 117, 116, 111, 109, 97, 116, 105, 99, 97, 108, 108, 121], 2.0),  -- renew automatically
   ([97, 117, 116, 111, 109, 97, 116, 105, 99, 97, 108, 108, 121, 32, 101, 120, 116, 101, 110, 100, 101, 100], 2.0),  -- automatically extended
   ([117, 110, 108, 101, 115, 115, 32, 116, 101, 114, 109, 105, 110, 97, 116, 101, 100], 1.5),  -- unless terminated
   ([117, 110, 108, 101, 115, 115, 32, 99, 97, 110, 99, 101, 108, 108, 101, 100], 1.5),  -- unless cancelled
   ([101, 118, 101, 114, 103, 114, 101, 101, 110], 2.0),  -- evergreen
   ([115, 117, 99, 99, 101, 115, 115, 105, 118, 101, 32, 114, 101, 110, 101, 119, 97, 108], 1.5),  -- successive renewal
   ([109, 97, 121, 32, 110, 111, 116, 32, 116, 101, 114, 109, 105, 110, 97, 116, 101], 2.5),  -- may not terminate
   ([99, 97, 110, 110, 111, 116, 32, 116, 101, 114, 109, 105, 110, 97, 116, 101], 2.5),  -- cannot terminate
   ([115, 104, 97, 108, 108, 32, 110, 111, 116, 32, 116, 101, 114, 109, 105, 110, 97, 116, 101], 2.5),  -- shall not terminate
   ([110, 111, 32, 114, 105, 103, 104, 116, 32, 116, 111, 32, 116, 101, 114, 109, 105, 110, 97, 116, 101], 3.0),  -- no right to terminate
   ([105, 114, 114, 101, 118, 111, 99, 97, 98, 108, 101], 3.0),  -- irrevocable
   ([110, 111, 110, 45, 99, 97, 110, 99, 101, 108, 97, 98, 108, 101], 2.5),  -- non-cancelable
   ([110, 111, 110, 45, 99, 97, 110, 99, 101, 108, 108, 97, 98, 108, 101], 2.5),  -- non-cancellable
   ([98, 105, 110, 100, 105, 110, 103, 32, 97, 110, 100, 32, 105, 114, 114, 101, 118, 111, 99, 97, 98, 108, 101], 3.0),  -- binding and irrevocable
   ([116, 101, 114, 109, 105, 110, 97, 116, 105, 111, 110, 32, 102, 101, 101], 2.0),  -- termination fee
   ([101, 97, 114, 108, 121, 32, 116, 101, 114, 109, 105, 110, 97, 116, 105, 111, 110, 32, 102, 101, 101], 2.0),  -- early termination fee
   ([99, 97, 110, 99, 101, 108, 108, 97, 116, 105, 111, 110, 32, 102, 101, 101], 2.0),  -- cancellation fee
   ([116, 101, 114, 109, 105, 110, 97, 116, 105, 111, 110, 32, 112, 101, 110, 97, 108, 116, 121], 2.5),  -- termination penalty
   ([98, 114, 101, 97, 107, 32, 102, 101, 101], 2.0),  -- break fee
   ([108, 105, 113, 117, 105, 100, 97, 116, 101, 100, 32, 100, 97, 109, 97, 103, 101, 115, 32, 117, 112, 111, 110, 32, 116, 101, 114, 109, 105, 110, 97, 116, 105, 111, 110], 2.5),  -- liquidated damages upon termination
   ([116, 101, 114, 109, 105, 110, 97, 116, 105, 111, 110, 32, 102, 101, 101, 32, 101, 113, 117, 97, 108, 32, 116, 111], 2.5),  -- termination fee equal to
   ([114, 101, 109, 97, 105, 110, 105, 110, 103, 32, 116, 101, 114, 109], 2.0),  -- remaining term
   ([112, 97, 121, 32, 102, 111, 114, 32, 116, 104, 101, 32, 114, 101, 109, 97, 105, 110, 100, 101, 114], 2.5),  -- pay for the remainder
   ([51, 48, 32, 100, 97, 121, 115, 32, 110, 111, 116, 105, 99, 101], 1.0),  -- 30 days notice
   ([54, 48, 32, 100, 97, 121, 115, 32, 110, 111, 116, 105, 99, 101], 1.5),  -- 60 days notice
   ([57, 48, 32, 100, 97, 121, 115, 32, 110, 111, 116, 105, 99, 101], 2.0),  -- 90 days notice
   ([49, 56, 48, 32, 100, 97, 121, 115, 32, 110, 111, 116, 105, 99, 101], 2.5),  -- 180 days notice
   ([111, 110, 101, 32, 121, 101, 97, 114, 32, 110, 111, 116, 105, 99, 101], 3.0),  -- one year notice
   ([49, 50, 32, 109, 111, 110, 116, 104, 115, 32, 110, 111, 116, 105, 99, 101], 3.0),  -- 12 months notice
   ([109, 105, 110, 105, 109, 117, 109, 32, 116, 101, 114, 109], 1.5),  -- minimum term
   ([105, 110, 105, 116, 105, 97, 108, 32, 116, 101, 114, 109], 1.0)]  -- initial term

/-- Chunk 4 of the folded library pattern codes (see `libraryCodes`). -/
def libraryCodes4 : List (List ℕ × ℚ) :=
  [([108, 111, 99, 107, 45, 105, 110, 32, 112, 101, 114, 105, 111, 100], 2.0),  -- lock-in period
   ([99, 111, 109, 109, 105, 116, 109, 101, 110, 116, 32, 112, 101, 114, 105, 111, 100], 1.5),  -- commitment period
   ([98, 105, 110, 100, 105, 110, 103, 32, 102, 111, 114], 1.5),  -- binding for
   ([112, 101, 114, 112, 101, 116, 117, 97, 108], 2.5),  -- perpetual
   ([105, 110, 32, 112, 101, 114, 112, 101, 116, 117, 105, 116, 121], 3.0),  -- in perpetuity
   ([115, 117, 114, 118, 105, 118, 101, 115, 32, 116, 101, 114, 109, 105, 110, 97, 116, 105, 111, 110, 32, 105, 110, 100, 101, 102, 105, 110, 105, 116, 101, 108, 121], 3.0),  -- survives termination indefinitely
   ([115, 117, 114, 118, 105, 118, 101, 115, 32, 116, 101, 114, 109, 105, 110, 97, 116, 105, 111, 110], 1.5),  -- survives termination
   ([115, 117, 114, 118, 105, 118, 101, 32, 116, 104, 101, 32, 116, 101, 114, 109, 105, 110, 97, 116, 105, 111, 110], 1.5),  -- survive the termination
   ([115, 104, 97, 108, 108, 32, 115, 117, 114, 118, 105, 118, 101], 1.0),  -- shall survive
   ([99, 111, 110, 116, 105, 110, 117, 105, 110, 103, 32, 111, 98, 108, 105, 103, 97, 116, 105, 111, 110, 115], 1.5),  -- continuing obligations
   ([116, 101, 114, 109, 105, 110, 97, 116, 101, 32, 102, 111, 114, 32, 99, 111, 110, 118, 101, 110, 105, 101, 110, 99, 101], 0.5),  -- terminate for convenience
   ([116, 101, 114, 109, 105, 110, 97, 116, 101, 32, 119, 105, 116, 104, 111, 117, 116, 32, 99, 97, 117, 115, 101], 0.5),  -- terminate without cause
   ([102, 111, 114, 32, 99, 97, 117, 115, 101, 32, 111, 110, 108, 121], 2.0),  -- for cause only
   ([109, 97, 116, 101, 114, 105, 97, 108, 32, 98, 114, 101, 97, 99, 104, 32, 111, 110, 108, 121], 2.0),  -- material breach only
   ([111, 110, 108, 121, 32, 117, 112, 111, 110, 32, 109, 97, 116, 101, 114, 105, 97, 108, 32, 98, 114, 101, 97, 99, 104], 2.0),  -- only upon material breach
   ([99, 117, 114, 101, 32, 112, 101, 114, 105, 111, 100], 1.0),  -- cure period
   ([111, 112, 112, 111, 114, 116, 117, 110, 105, 116, 121, 32, 116, 111, 32, 99, 117, 114, 101], 1.0),  -- opportunity to cure
   ([110, 111, 32, 99, 117, 114, 101, 32, 112, 101, 114, 105, 111, 100], 2.5),  -- no cure period
   ([105, 109, 109, 101, 100, 105, 97, 116, 101, 32, 116, 101, 114, 109, 105, 110, 97, 116, 105, 111, 110], 2.0),  -- immediate termination
   ([97, 115, 115, 105, 103, 110, 115, 32, 97, 108, 108, 32, 114, 105, 103, 104, 116, 115], 2.5),  -- assigns all rights
   ([97, 115, 115, 105, 103, 110, 32, 97, 108, 108, 32, 114, 105, 103, 104, 116, 115, 44, 32, 116, 105, 116, 108, 101], 3.0),  -- assign all rights, title
   ([97, 115, 115, 105, 103, 110, 115, 32, 97, 108, 108, 32, 114, 105, 103, 104, 116, 44, 32, 116, 105, 116, 108, 101, 44, 32, 97, 110, 100, 32, 105, 110, 116, 101, 114, 101, 115, 116], 3.0),  -- assigns all right, title, and interest
   ([116, 114, 97, 110, 115, 102, 101, 114, 32, 111, 102, 32, 111, 119, 110, 101, 114, 115, 104, 105, 112], 2.5),  -- transfer of ownership
   ([116, 114, 97, 110, 115, 102, 101, 114, 115, 32, 97, 108, 108, 32, 105, 110, 116, 101, 108, 108, 101, 99, 116, 117, 97, 108, 32, 112, 114, 111, 112, 101, 114, 116, 121], 3.0),  -- transfers all intellectual property
   ([104, 101, 114, 101, 98, 121, 32, 97, 115, 115, 105, 103, 110, 115], 2.0),  -- hereby assigns
   ([105, 114, 114, 101, 118, 111, 99, 97, 98, 108, 121, 32, 97, 115, 115, 105, 103, 110, 115], 3.0),  -- irrevocably assigns
   ([119, 111, 114, 107, 32, 109, 97, 100, 101, 32, 102, 111, 114, 32, 104, 105, 114, 101], 2.5),  -- work made for hire
   ([119, 111, 114, 107, 32, 102, 111, 114, 32, 104, 105, 114, 101], 2.5),  -- work for hire
   ([119, 111, 114, 107, 115, 32, 102, 111, 114, 32, 104, 105, 114, 101], 2.5),  -- works for hire
   ([100, 101, 101, 109, 101, 100, 32, 119, 111, 114, 107, 32, 102, 111, 114, 32, 104, 105, 114, 101], 2.5),  -- deemed work for hire
   ([115, 104, 97, 108, 108, 32, 98, 101, 32, 99, 111, 110, 115, 105, 100, 101, 114, 101, 100, 32, 119, 111, 114, 107, 32, 102, 111, 114, 32, 104, 105, 114, 101], 2.5),  -- shall be considered work for hire
   ([101, 120, 99, 108, 117, 115, 105, 118, 101, 32, 108, 105, 99, 101, 110, 115, 101], 2.0),  -- exclusive license
   ([101, 120, 99, 108, 117, 115, 105, 118, 101, 44, 32, 112, 101, 114, 112, 101, 116, 117, 97, 108], 3.0),  -- exclusive, perpetual
   ([101, 120, 99, 108, 117, 115, 105, 118, 101, 44, 32, 119, 111, 114, 108, 100, 119, 105, 100, 101], 2.5),  -- exclusive, worldwide
   ([101, 120, 99, 108, 117, 115, 105, 118, 101, 44, 32, 112, 101, 114, 112, 101, 116, 117, 97, 108, 44, 32, 119, 111, 114, 108, 100, 119, 105, 100, 101], 3.0),  -- exclusive, perpetual, worldwide
   ([101, 120, 99, 108, 117, 115, 105, 118, 101, 44, 32, 105, 114, 114, 101, 118, 111, 99, 97, 98, 108, 101], 3.0),  -- exclusive, irrevocable
   ([110, 111, 110, 45, 101, 120, 99, 108, 117, 115, 105, 118, 101, 32, 108, 105, 99, 101, 110, 115, 101], 0.5),  -- non-exclusive license
   ([115, 117, 98, 108, 105, 99, 101, 110, 115, 97, 98, 108, 101], 1.5),  -- sublicensable
   ([114, 105, 103, 104, 116, 32, 116, 111, 32, 115, 117, 98, 108, 105, 99, 101, 110, 115, 101], 1.5),  -- right to sublicense
   ([116, 114, 97, 110, 115, 102, 101, 114, 97, 98, 108, 101, 32, 108, 105, 99, 101, 110, 115, 101], 1.5),  -- transferable license
   ([102, 117, 116, 117, 114, 101, 32, 100, 101, 118, 101, 108, 111, 112, 109, 101, 110, 116, 115], 2.5),  -- future developments
   ([105, 110, 99, 108, 117, 100, 105, 110, 103, 32, 102, 117, 116, 117, 114, 101], 2.5),  -- including future
   ([102, 117, 116, 117, 114, 101, 32, 105, 109, 112, 114, 111, 118, 101, 109, 101, 110, 116, 115], 2.0),  -- future improvements
   ([100, 101, 114, 105, 118, 97, 116, 105, 118, 101, 115, 32, 97, 110, 100, 32, 109, 111, 100, 105, 102, 105, 99, 97, 116, 105, 111, 110, 115], 2.0),  -- derivatives and modifications
   ([97, 108, 108, 32, 100, 101, 114, 105, 118, 97, 116, 105, 118, 101, 32, 119, 111, 114, 107, 115], 2.5),  -- all derivative works
   ([97, 110, 121, 32, 105, 109, 112, 114, 111, 118, 101, 109, 101, 110, 116, 115], 2.0),  -- any improvements
   ([101, 110, 104, 97, 110, 99, 101, 109, 101, 110, 116, 115, 32, 97, 110, 100, 32, 109, 111, 100, 105, 102, 105, 99, 97, 116, 105, 111, 110, 115], 1.5),  -- enhancements and modifications
   ([119, 97, 105, 118, 101, 115, 32, 109, 111, 114, 97, 108, 32, 114, 105, 103, 104, 116, 115], 2.5)]  -- waives moral rights

/-- Chunk 5 of the folded library pattern codes (see `libraryCodes`). -/
def libraryCodes5 : List (List ℕ × ℚ) :=
  [([119, 97, 105, 118, 101, 32, 109, 111, 114, 97, 108, 32, 114, 105, 103, 104, 116, 115], 2.5),  -- waive moral rights
   ([109, 111, 114, 97, 108, 32, 114, 105, 103, 104, 116, 115, 32, 119, 97, 105, 118, 101, 114], 2.5),  -- moral rights waiver
   ([119, 97, 105, 118, 101, 115, 32, 97, 108, 108, 32, 109, 111, 114, 97, 108, 32, 114, 105, 103, 104, 116, 115], 3.0),  -- waives all moral rights
   ([119, 97, 105, 118, 101, 115, 32, 97, 110, 121, 32, 109, 111, 114, 97, 108, 32, 114, 105, 103, 104, 116, 115], 2.5),  -- waives any moral rights
   ([112, 97, 116, 101, 110, 116, 32, 97, 115, 115, 105, 103, 110, 109, 101, 110, 116], 2.0),  -- patent assignment
   ([97, 115, 115, 105, 103, 110, 115, 32, 97, 108, 108, 32, 112, 97, 116, 101, 110, 116, 115], 2.5),  -- assigns all patents
   ([116, 114, 97, 100, 101, 109, 97, 114, 107, 32, 97, 115, 115, 105, 103, 110, 109, 101, 110, 116], 2.0),  -- trademark assignment
   ([97, 115, 115, 105, 103, 110, 115, 32, 97, 108, 108, 32, 116, 114, 97, 100, 101, 109, 97, 114, 107, 115], 2.5),  -- assigns all trademarks
   ([99, 111, 112, 121, 114, 105, 103, 104, 116, 32, 97, 115, 115, 105, 103, 110, 109, 101, 110, 116], 2.0),  -- copyright assignment
   ([98, 97, 99, 107, 103, 114, 111, 117, 110, 100, 32, 105, 112], 1.0),  -- background IP
   ([112, 114, 101, 45, 101, 120, 105, 115, 116, 105, 110, 103, 32, 105, 112], 1.0),  -- pre-existing IP
   ([114, 101, 116, 97, 105, 110, 115, 32, 111, 119, 110, 101, 114, 115, 104, 105, 112, 32, 111, 102, 32, 98, 97, 99, 107, 103, 114, 111, 117, 110, 100], 0.5),  -- retains ownership of background
   ([108, 105, 99, 101, 110, 115, 101, 32, 116, 111, 32, 98, 97, 99, 107, 103, 114, 111, 117, 110, 100, 32, 105, 112], 1.5),  -- license to background IP
   ([115, 111, 117, 114, 99, 101, 32, 99, 111, 100, 101], 1.0),  -- source code
   ([115, 111, 117, 114, 99, 101, 32, 99, 111, 100, 101, 32, 101, 115, 99, 114, 111, 119], 1.0),  -- source code escrow
   ([100, 101, 108, 105, 118, 101, 114, 32, 115, 111, 117, 114, 99, 101, 32, 99, 111, 100, 101], 2.0),  -- deliver source code
   ([97, 99, 99, 101, 115, 115, 32, 116, 111, 32, 115, 111, 117, 114, 99, 101, 32, 99, 111, 100, 101], 2.0),  -- access to source code
   ([114, 101, 118, 101, 114, 115, 101, 32, 101, 110, 103, 105, 110, 101, 101, 114], 1.5),  -- reverse engineer
   ([100, 101, 99, 111, 109, 112, 105, 108, 101], 1.5),  -- decompile
   ([100, 105, 115, 97, 115, 115, 101, 109, 98, 108, 101], 1.5),  -- disassemble
   ([112, 101, 114, 112, 101, 116, 117, 97, 108, 32, 99, 111, 110, 102, 105, 100, 101, 110, 116, 105, 97, 108, 105, 116, 121], 3.0),  -- perpetual confidentiality
   ([105, 110, 100, 101, 102, 105, 110, 105, 116, 101, 32, 99, 111, 110, 102, 105, 100, 101, 110, 116, 105, 97, 108, 105, 116, 121], 3.0),  -- indefinite confidentiality
   ([99, 111, 110, 102, 105, 100, 101, 110, 116, 105, 97, 108, 32, 105, 110, 32, 112, 101, 114, 112, 101, 116, 117, 105, 116, 121], 3.0),  -- confidential in perpetuity
   ([49, 48, 32, 121, 101, 97, 114, 115], 2.0),  -- 10 years
   ([49, 53, 32, 121, 101, 97, 114, 115], 2.5),  -- 15 years
   ([50, 48, 32, 121, 101, 97, 114, 115], 3.0),  -- 20 years
   ([97, 108, 108, 32, 105, 110, 102, 111, 114, 109, 97, 116, 105, 111, 110], 2.0),  -- all information
   ([97, 110, 121, 32, 105, 110, 102, 111, 114, 109, 97, 116, 105, 111, 110], 2.0),  -- any information
   ([97, 108, 108, 32, 109, 97, 116, 101, 114, 105, 97, 108, 115], 1.5),  -- all materials
   ([97, 110, 121, 32, 97, 110, 100, 32, 97, 108, 108, 32, 105, 110, 102, 111, 114, 109, 97, 116, 105, 111, 110], 2.5),  -- any and all information
   ([114, 101, 103, 97, 114, 100, 108, 101, 115, 115, 32, 111, 102, 32, 119, 104, 101, 116, 104, 101, 114, 32, 109, 97, 114, 107, 101, 100], 2.0),  -- regardless of whether marked
   ([119, 104, 101, 116, 104, 101, 114, 32, 111, 114, 32, 110, 111, 116, 32, 109, 97, 114, 107, 101, 100, 32, 99, 111, 110, 102, 105, 100, 101, 110, 116, 105, 97, 108], 2.0),  -- whether or not marked confidential
   ([109, 97, 121, 32, 115, 104, 97, 114, 101, 32, 119, 105, 116, 104, 32, 97, 102, 102, 105, 108, 105, 97, 116, 101, 115], 1.5),  -- may share with affiliates
   ([115, 104, 97, 114, 101, 32, 119, 105, 116, 104, 32, 97, 102, 102, 105, 108, 105, 97, 116, 101, 115, 32, 119, 105, 116, 104, 111, 117, 116, 32, 110, 111, 116, 105, 99, 101], 2.5),  -- share with affiliates without notice
   ([115, 104, 97, 114, 101, 32, 119, 105, 116, 104, 32, 116, 104, 105, 114, 100, 32, 112, 97, 114, 116, 105, 101, 115], 2.0),  -- share with third parties
   ([100, 105, 115, 99, 108, 111, 115, 101, 32, 116, 111, 32, 115, 117, 98, 99, 111, 110, 116, 114, 97, 99, 116, 111, 114, 115], 1.5),  -- disclose to subcontractors
   ([119, 105, 116, 104, 111, 117, 116, 32, 112, 114, 105, 111, 114, 32, 99, 111, 110, 115, 101, 110, 116], 2.0),  -- without prior consent
   ([105, 110, 32, 105, 116, 115, 32, 115, 111, 108, 101, 32, 100, 105, 115, 99, 114, 101, 116, 105, 111, 110], 2.5),  -- in its sole discretion
   ([115, 111, 108, 101, 32, 100, 105, 115, 99, 114, 101, 116, 105, 111, 110, 32, 116, 111, 32, 100, 105, 115, 99, 108, 111, 115, 101], 2.5),  -- sole discretion to disclose
   ([110, 111, 32, 111, 98, 108, 105, 103, 97, 116, 105, 111, 110, 32, 116, 111, 32, 114, 101, 116, 117, 114, 110], 2.5),  -- no obligation to return
   ([110, 111, 116, 32, 114, 101, 113, 117, 105, 114, 101, 100, 32, 116, 111, 32, 114, 101, 116, 117, 114, 110], 2.5),  -- not required to return
   ([110, 101, 101, 100, 32, 110, 111, 116, 32, 114, 101, 116, 117, 114, 110], 2.0),  -- need not return
   ([109, 97, 121, 32, 114, 101, 116, 97, 105, 110, 32, 99, 111, 112, 105, 101, 115], 1.5),  -- may retain copies
   ([114, 101, 116, 97, 105, 110, 32, 97, 114, 99, 104, 105, 118, 97, 108, 32, 99, 111, 112, 105, 101, 115], 1.0),  -- retain archival copies
   ([114, 101, 116, 117, 114, 110, 32, 111, 114, 32, 100, 101, 115, 116, 114, 111, 121], 0.5),  -- return or destroy
   ([99, 101, 114, 116, 105, 102, 121, 32, 100, 101, 115, 116, 114, 117, 99, 116, 105, 111, 110], 0.5),  -- certify destruction
   ([119, 97, 105, 118, 101, 115, 32, 100, 97, 116, 97, 32, 112, 114, 111, 116, 101, 99, 116, 105, 111, 110], 3.0),  -- waives data protection
   ([119, 97, 105, 118, 101, 32, 100, 97, 116, 97, 32, 112, 114, 111, 116, 101, 99, 116, 105, 111, 110, 32, 114, 105, 103, 104, 116, 115], 3.0)]  -- waive data protection rights

/-- Chunk 6 of the folded library pattern codes (see `libraryCodes`). -/
def libraryCodes6 : List (List ℕ × ℚ) :=
  [([110, 111, 32, 108, 105, 97, 98, 105, 108, 105, 116, 121, 32, 102, 111, 114, 32, 100, 97, 116, 97], 2.5),  -- no liability for data
   ([110, 111, 116, 32, 114, 101, 115, 112, 111, 110, 115, 105, 98, 108, 101, 32, 102, 111, 114, 32, 100, 97, 116, 97, 32, 115, 101, 99, 117, 114, 105, 116, 121], 2.5),  -- not responsible for data security
   ([100, 97, 116, 97, 32, 98, 114, 101, 97, 99, 104], 1.5),  -- data breach
   ([115, 101, 99, 117, 114, 105, 116, 121, 32, 105, 110, 99, 105, 100, 101, 110, 116], 1.5),  -- security incident
   ([121, 111, 117, 114, 32, 99, 111, 110, 102, 105, 100, 101, 110, 116, 105, 97, 108, 32, 105, 110, 102, 111, 114, 109, 97, 116, 105, 111, 110], 1.0),  -- your confidential information
   ([114, 101, 99, 101, 105, 118, 105, 110, 103, 32, 112, 97, 114, 116, 121, 32, 115, 104, 97, 108, 108], 1.5),  -- receiving party shall
   ([100, 105, 115, 99, 108, 111, 115, 105, 110, 103, 32, 112, 97, 114, 116, 121, 32, 109, 97, 121], 1.5),  -- disclosing party may
   ([109, 117, 116, 117, 97, 108, 32, 99, 111, 110, 102, 105, 100, 101, 110, 116, 105, 97, 108, 105, 116, 121], 0.5),  -- mutual confidentiality
   ([114, 101, 99, 105, 112, 114, 111, 99, 97, 108, 32, 111, 98, 108, 105, 103, 97, 116, 105, 111, 110, 115], 0.5),  -- reciprocal obligations
   ([112, 117, 98, 108, 105, 99, 108, 121, 32, 97, 118, 97, 105, 108, 97, 98, 108, 101], 0.5),  -- publicly available
   ([105, 110, 100, 101, 112, 101, 110, 100, 101, 110, 116, 108, 121, 32, 100, 101, 118, 101, 108, 111, 112, 101, 100], 0.5),  -- independently developed
   ([114, 105, 103, 104, 116, 102, 117, 108, 108, 121, 32, 114, 101, 99, 101, 105, 118, 101, 100], 0.5),  -- rightfully received
   ([114, 101, 113, 117, 105, 114, 101, 100, 32, 98, 121, 32, 108, 97, 119], 0.5),  -- required by law
   ([99, 111, 117, 114, 116, 32, 111, 114, 100, 101, 114], 0.5),  -- court order
   ([98, 105, 110, 100, 105, 110, 103, 32, 97, 114, 98, 105, 116, 114, 97, 116, 105, 111, 110], 2.0),  -- binding arbitration
   ([109, 97, 110, 100, 97, 116, 111, 114, 121, 32, 97, 114, 98, 105, 116, 114, 97, 116, 105, 111, 110], 2.0),  -- mandatory arbitration
   ([115, 104, 97, 108, 108, 32, 98, 101, 32, 114, 101, 115, 111, 108, 118, 101, 100, 32, 116, 104, 114, 111, 117, 103, 104, 32, 97, 114, 98, 105, 116, 114, 97, 116, 105, 111, 110], 1.5),  -- shall be resolved through arbitration
   ([115, 117, 98, 109, 105, 116, 32, 116, 111, 32, 97, 114, 98, 105, 116, 114, 97, 116, 105, 111, 110], 1.5),  -- submit to arbitration
   ([97, 97, 97, 32, 97, 114, 98, 105, 116, 114, 97, 116, 105, 111, 110], 1.5),  -- AAA arbitration
   ([106, 97, 109, 115, 32, 97, 114, 98, 105, 116, 114, 97, 116, 105, 111, 110], 1.5),  -- JAMS arbitration
   ([105, 99, 99, 32, 97, 114, 98, 105, 116, 114, 97, 116, 105, 111, 110], 1.5),  -- ICC arbitration
   ([102, 105, 110, 97, 108, 32, 97, 110, 100, 32, 98, 105, 110, 100, 105, 110, 103], 2.0),  -- final and binding
   ([97, 114, 98, 105, 116, 114, 97, 116, 105, 111, 110, 32, 115, 104, 97, 108, 108, 32, 98, 101, 32, 102, 105, 110, 97, 108], 2.0),  -- arbitration shall be final
   ([110, 111, 32, 97, 112, 112, 101, 97, 108], 2.5),  -- no appeal
   ([101, 120, 99, 108, 117, 115, 105, 118, 101, 32, 106, 117, 114, 105, 115, 100, 105, 99, 116, 105, 111, 110], 1.5),  -- exclusive jurisdiction
   ([101, 120, 99, 108, 117, 115, 105, 118, 101, 32, 106, 117, 114, 105, 115, 100, 105, 99, 116, 105, 111, 110, 32, 105, 110], 2.0),  -- exclusive jurisdiction in
   ([99, 111, 117, 114, 116, 115, 32, 111, 102], 1.0),  -- courts of
   ([115, 104, 97, 108, 108, 32, 98, 101, 32, 98, 114, 111, 117, 103, 104, 116, 32, 105, 110], 1.5),  -- shall be brought in
   ([111, 110, 108, 121, 32, 105, 110, 32, 116, 104, 101, 32, 99, 111, 117, 114, 116, 115], 2.0),  -- only in the courts
   ([105, 114, 114, 101, 118, 111, 99, 97, 98, 108, 121, 32, 115, 117, 98, 109, 105, 116, 115], 2.0),  -- irrevocably submits
   ([99, 111, 110, 115, 101, 110, 116, 115, 32, 116, 111, 32, 106, 117, 114, 105, 115, 100, 105, 99, 116, 105, 111, 110], 1.5),  -- consents to jurisdiction
   ([112, 101, 114, 115, 111, 110, 97, 108, 32, 106, 117, 114, 105, 115, 100, 105, 99, 116, 105, 111, 110], 1.5),  -- personal jurisdiction
   ([102, 111, 114, 101, 105, 103, 110, 32, 106, 117, 114, 105, 115, 100, 105, 99, 116, 105, 111, 110], 2.5),  -- foreign jurisdiction
   ([118, 101, 110, 117, 101, 32, 115, 104, 97, 108, 108, 32, 98, 101], 1.5),  -- venue shall be
   ([101, 120, 99, 108, 117, 115, 105, 118, 101, 32, 118, 101, 110, 117, 101], 2.0),  -- exclusive venue
   ([115, 116, 97, 116, 101, 32, 111, 102, 32, 100, 101, 108, 97, 119, 97, 114, 101], 1.5),  -- State of Delaware
   ([115, 116, 97, 116, 101, 32, 111, 102, 32, 110, 101, 119, 32, 121, 111, 114, 107], 1.5),  -- State of New York
   ([115, 116, 97, 116, 101, 32, 111, 102, 32, 99, 97, 108, 105, 102, 111, 114, 110, 105, 97], 1.5),  -- State of California
   ([108, 111, 110, 100, 111, 110, 44, 32, 101, 110, 103, 108, 97, 110, 100], 2.0),  -- London, England
   ([115, 105, 110, 103, 97, 112, 111, 114, 101], 1.5),  -- Singapore
   ([104, 111, 110, 103, 32, 107, 111, 110, 103], 1.5),  -- Hong Kong
   ([119, 97, 105, 118, 101, 115, 32, 114, 105, 103, 104, 116, 32, 116, 111, 32, 106, 117, 114, 121, 32, 116, 114, 105, 97, 108], 2.5),  -- waives right to jury trial
   ([119, 97, 105, 118, 101, 32, 106, 117, 114, 121, 32, 116, 114, 105, 97, 108], 2.5),  -- waive jury trial
   ([119, 97, 105, 118, 101, 115, 32, 114, 105, 103, 104, 116, 32, 116, 111, 32, 116, 114, 105, 97, 108, 32, 98, 121, 32, 106, 117, 114, 121], 2.5),  -- waives right to trial by jury
   ([98, 101, 110, 99, 104, 32, 116, 114, 105, 97, 108], 1.5),  -- bench trial
   ([106, 117, 100, 103, 101, 32, 97, 108, 111, 110, 101], 1.5),  -- judge alone
   ([119, 97, 105, 118, 101, 115, 32, 99, 108, 97, 115, 115, 32, 97, 99, 116, 105, 111, 110], 2.5),  -- waives class action
   ([99, 108, 97, 115, 115, 32, 97, 99, 116, 105, 111, 110, 32, 119, 97, 105, 118, 101, 114], 2.5)]  -- class action waiver

/-- Chunk 7 of the folded library pattern codes (see `libraryCodes`). -/
def libraryCodes7 : List (List ℕ × ℚ) :=
  [([119, 97, 105, 118, 101, 115, 32, 114, 105, 103, 104, 116, 32, 116, 111, 32, 99, 108, 97, 115, 115, 32, 97, 99, 116, 105, 111, 110], 2.5),  -- waives right to class action
   ([105, 110, 100, 105, 118, 105, 100, 117, 97, 108, 32, 98, 97, 115, 105, 115, 32, 111, 110, 108, 121], 2.0),  -- individual basis only
   ([110, 111, 32, 99, 108, 97, 115, 115, 32, 112, 114, 111, 99, 101, 101, 100, 105, 110, 103, 115], 2.5),  -- no class proceedings
   ([114, 101, 112, 114, 101, 115, 101, 110, 116, 97, 116, 105, 118, 101, 32, 97, 99, 116, 105, 111, 110], 2.0),  -- representative action
   ([101, 97, 99, 104, 32, 112, 97, 114, 116, 121, 32, 98, 101, 97, 114, 115, 32, 111, 119, 110, 32, 99, 111, 115, 116, 115], 1.5),  -- each party bears own costs
   ([111, 119, 110, 32, 108, 101, 103, 97, 108, 32, 102, 101, 101, 115], 1.0),  -- own legal fees
   ([112, 114, 101, 118, 97, 105, 108, 105, 110, 103, 32, 112, 97, 114, 116, 121], 2.0),  -- prevailing party
   ([112, 114, 101, 118, 97, 105, 108, 105, 110, 103, 32, 112, 97, 114, 116, 121, 32, 101, 110, 116, 105, 116, 108, 101, 100, 32, 116, 111, 32, 102, 101, 101, 115], 2.0),  -- prevailing party entitled to fees
   ([108, 111, 115, 101, 114, 32, 112, 97, 121, 115], 2.5),  -- loser pays
   ([108, 111, 115, 105, 110, 103, 32, 112, 97, 114, 116, 121, 32, 115, 104, 97, 108, 108, 32, 112, 97, 121], 2.5),  -- losing party shall pay
   ([114, 101, 99, 111, 118, 101, 114, 32, 97, 116, 116, 111, 114, 110, 101, 121, 115, 39, 32, 102, 101, 101, 115], 2.0),  -- recover attorneys\x27 fees
   ([114, 101, 97, 115, 111, 110, 97, 98, 108, 101, 32, 97, 116, 116, 111, 114, 110, 101, 121, 115, 39, 32, 102, 101, 101, 115], 1.5),  -- reasonable attorneys\x27 fees
   ([109, 101, 100, 105, 97, 116, 105, 111, 110], 0.5),  -- mediation
   ([103, 111, 111, 100, 32, 102, 97, 105, 116, 104, 32, 110, 101, 103, 111, 116, 105, 97, 116, 105, 111, 110], 0.5),  -- good faith negotiation
   ([101, 115, 99, 97, 108, 97, 116, 105, 111, 110, 32, 112, 114, 111, 99, 101, 100, 117, 114, 101], 0.5),  -- escalation procedure
   ([105, 110, 102, 111, 114, 109, 97, 108, 32, 100, 105, 115, 112, 117, 116, 101, 32, 114, 101, 115, 111, 108, 117, 116, 105, 111, 110], 0.5),  -- informal dispute resolution
   ([111, 110, 101, 32, 121, 101, 97, 114, 32, 108, 105, 109, 105, 116, 97, 116, 105, 111, 110], 2.0),  -- one year limitation
   ([54, 32, 109, 111, 110, 116, 104, 32, 108, 105, 109, 105, 116, 97, 116, 105, 111, 110], 2.5),  -- 6 month limitation
   ([109, 117, 115, 116, 32, 98, 114, 105, 110, 103, 32, 99, 108, 97, 105, 109, 32, 119, 105, 116, 104, 105, 110], 1.5),  -- must bring claim within
   ([115, 104, 111, 114, 116, 101, 110, 101, 100, 32, 108, 105, 109, 105, 116, 97, 116, 105, 111, 110], 2.0),  -- shortened limitation
   ([115, 104, 97, 108, 108, 32, 99, 111, 109, 112, 108, 121, 32, 119, 105, 116, 104, 32, 97, 108, 108, 32, 97, 112, 112, 108, 105, 99, 97, 98, 108, 101, 32, 108, 97, 119, 115], 1.0),  -- shall comply with all applicable laws
   ([114, 101, 115, 112, 111, 110, 115, 105, 98, 108, 101, 32, 102, 111, 114, 32, 99, 111, 109, 112, 108, 105, 97, 110, 99, 101], 2.0),  -- responsible for compliance
   ([115, 111, 108, 101, 32, 114, 101, 115, 112, 111, 110, 115, 105, 98, 105, 108, 105, 116, 121, 32, 102, 111, 114, 32, 99, 111, 109, 112, 108, 105, 97, 110, 99, 101], 2.5),  -- sole responsibility for compliance
   ([97, 108, 108, 32, 114, 101, 103, 117, 108, 97, 116, 111, 114, 121, 32, 114, 101, 113, 117, 105, 114, 101, 109, 101, 110, 116, 115], 1.5),  -- all regulatory requirements
   ([97, 108, 108, 32, 97, 112, 112, 108, 105, 99, 97, 98, 108, 101, 32, 114, 101, 103, 117, 108, 97, 116, 105, 111, 110, 115], 1.0),  -- all applicable regulations
   ([114, 101, 103, 117, 108, 97, 116, 111, 114, 121, 32, 118, 105, 111, 108, 97, 116, 105, 111, 110, 115], 2.0),  -- regulatory violations
   ([111, 98, 116, 97, 105, 110, 32, 97, 108, 108, 32, 110, 101, 99, 101, 115, 115, 97, 114, 121, 32, 112, 101, 114, 109, 105, 116, 115], 2.0),  -- obtain all necessary permits
   ([97, 116, 32, 111, 119, 110, 32, 101, 120, 112, 101, 110, 115, 101], 1.5),  -- at own expense
   ([97, 108, 108, 32, 110, 101, 99, 101, 115, 115, 97, 114, 121, 32, 108, 105, 99, 101, 110, 115, 101, 115], 1.5),  -- all necessary licenses
   ([109, 97, 105, 110, 116, 97, 105, 110, 32, 97, 108, 108, 32, 112, 101, 114, 109, 105, 116, 115], 1.5),  -- maintain all permits
   ([115, 104, 97, 108, 108, 32, 111, 98, 116, 97, 105, 110, 32, 97, 116, 32, 105, 116, 115, 32, 101, 120, 112, 101, 110, 115, 101], 2.0),  -- shall obtain at its expense
   ([114, 101, 115, 112, 111, 110, 115, 105, 98, 108, 101, 32, 102, 111, 114, 32, 111, 98, 116, 97, 105, 110, 105, 110, 103], 1.5),  -- responsible for obtaining
   ([115, 116, 114, 105, 99, 116, 32, 108, 105, 97, 98, 105, 108, 105, 116, 121], 2.5),  -- strict liability
   ([115, 116, 114, 105, 99, 116, 108, 121, 32, 108, 105, 97, 98, 108, 101], 2.5),  -- strictly liable
   ([114, 101, 103, 97, 114, 100, 108, 101, 115, 115, 32, 111, 102, 32, 102, 97, 117, 108, 116], 2.5),  -- regardless of fault
   ([119, 105, 116, 104, 111, 117, 116, 32, 114, 101, 103, 97, 114, 100, 32, 116, 111, 32, 110, 101, 103, 108, 105, 103, 101, 110, 99, 101], 2.5),  -- without regard to negligence
   ([97, 98, 115, 111, 108, 117, 116, 101, 32, 108, 105, 97, 98, 105, 108, 105, 116, 121], 3.0),  -- absolute liability
   ([115, 117, 98, 106, 101, 99, 116, 32, 116, 111, 32, 97, 117, 100, 105, 116], 1.5),  -- subject to audit
   ([117, 110, 108, 105, 109, 105, 116, 101, 100, 32, 97, 117, 100, 105, 116], 2.5),  -- unlimited audit
   ([97, 117, 100, 105, 116, 32, 97, 116, 32, 97, 110, 121, 32, 116, 105, 109, 101], 2.0),  -- audit at any time
   ([97, 117, 100, 105, 116, 32, 117, 112, 111, 110, 32, 114, 101, 97, 115, 111, 110, 97, 98, 108, 101, 32, 110, 111, 116, 105, 99, 101], 1.0),  -- audit upon reasonable notice
   ([114, 101, 99, 111, 114, 100, 115, 32, 114, 101, 116, 101, 110, 116, 105, 111, 110], 1.0),  -- records retention
   ([109, 97, 105, 110, 116, 97, 105, 110, 32, 114, 101, 99, 111, 114, 100, 115, 32, 102, 111, 114], 1.0),  -- maintain records for
   ([105, 110, 115, 112, 101, 99, 116, 105, 111, 110, 32, 114, 105, 103, 104, 116, 115], 1.5),  -- inspection rights
   ([114, 105, 103, 104, 116, 32, 116, 111, 32, 105, 110, 115, 112, 101, 99, 116], 1.5),  -- right to inspect
   ([114, 101, 112, 111, 114, 116, 105, 110, 103, 32, 111, 98, 108, 105, 103, 97, 116, 105, 111, 110, 115], 1.5),  -- reporting obligations
   ([115, 104, 97, 108, 108, 32, 114, 101, 112, 111, 114, 116], 1.0),  -- shall report
   ([109, 111, 110, 116, 104, 108, 121, 32, 114, 101, 112, 111, 114, 116, 105, 110, 103], 1.0)]  -- monthly reporting

/-- Chunk 8 of the folded library pattern codes (see `libraryCodes`). -/
def libraryCodes8 : List (List ℕ × ℚ) :=
  [([113, 117, 97, 114, 116, 101, 114, 108, 121, 32, 114, 101, 112, 111, 114, 116, 105, 110, 103], 1.0),  -- quarterly reporting
   ([112, 114, 111, 118, 105, 100, 101, 32, 114, 101, 112, 111, 114, 116, 115], 1.0),  -- provide reports
   ([103, 111, 118, 101, 114, 110, 109, 101, 110, 116, 32, 97, 112, 112, 114, 111, 118, 97, 108], 2.0),  -- government approval
   ([114, 101, 103, 117, 108, 97, 116, 111, 114, 121, 32, 97, 112, 112, 114, 111, 118, 97, 108], 1.5),  -- regulatory approval
   ([103, 111, 118, 101, 114, 110, 109, 101, 110, 116, 32, 99, 111, 110, 115, 101, 110, 116], 2.0),  -- government consent
   ([112, 114, 105, 111, 114, 32, 103, 111, 118, 101, 114, 110, 109, 101, 110, 116, 32, 97, 112, 112, 114, 111, 118, 97, 108], 2.0),  -- prior government approval
   ([101, 120, 112, 111, 114, 116, 32, 99, 111, 110, 116, 114, 111, 108], 1.5),  -- export control
   ([101, 120, 112, 111, 114, 116, 32, 114, 101, 115, 116, 114, 105, 99, 116, 105, 111, 110, 115], 1.5),  -- export restrictions
   ([101, 120, 112, 111, 114, 116, 32, 99, 111, 109, 112, 108, 105, 97, 110, 99, 101], 1.5),  -- export compliance
   ([105, 116, 97, 114], 2.0),  -- ITAR
   ([101, 97, 114], 1.5),  -- EAR
   ([115, 97, 110, 99, 116, 105, 111, 110, 115], 2.0),  -- sanctions
   ([111, 102, 97, 99], 2.0),  -- OFAC
   ([104, 105, 112, 97, 97], 1.5),  -- HIPAA
   ([103, 100, 112, 114], 1.5),  -- GDPR
   ([112, 99, 105, 32, 100, 115, 115], 1.5),  -- PCI DSS
   ([115, 111, 99, 32, 50], 1.0),  -- SOC 2
   ([105, 115, 111, 32, 50, 55, 48, 48, 49], 1.0),  -- ISO 27001
   ([99, 99, 112, 97], 1.5),  -- CCPA
   ([115, 104, 97, 108, 108, 32, 99, 101, 114, 116, 105, 102, 121], 1.5),  -- shall certify
   ([112, 114, 111, 118, 105, 100, 101, 32, 99, 101, 114, 116, 105, 102, 105, 99, 97, 116, 105, 111, 110], 1.5),  -- provide certification
   ([97, 110, 110, 117, 97, 108, 32, 99, 101, 114, 116, 105, 102, 105, 99, 97, 116, 105, 111, 110], 1.5),  -- annual certification
   ([119, 114, 105, 116, 116, 101, 110, 32, 99, 101, 114, 116, 105, 102, 105, 99, 97, 116, 105, 111, 110], 1.0),  -- written certification
   ([116, 105, 109, 101, 32, 105, 115, 32, 111, 102, 32, 116, 104, 101, 32, 101, 115, 115, 101, 110, 99, 101], 2.5),  -- time is of the essence
   ([116, 105, 109, 101, 32, 115, 104, 97, 108, 108, 32, 98, 101, 32, 111, 102, 32, 116, 104, 101, 32, 101, 115, 115, 101, 110, 99, 101], 2.5),  -- time shall be of the essence
   ([115, 116, 114, 105, 99, 116, 32, 99, 111, 109, 112, 108, 105, 97, 110, 99, 101], 2.0),  -- strict compliance
   ([109, 97, 116, 101, 114, 105, 97, 108, 32, 98, 114, 101, 97, 99, 104], 1.5),  -- material breach
   ([115, 117, 98, 115, 116, 97, 110, 116, 105, 97, 108, 32, 112, 101, 114, 102, 111, 114, 109, 97, 110, 99, 101], 1.0),  -- substantial performance
   ([98, 101, 115, 116, 32, 101, 102, 102, 111, 114, 116, 115], 1.0),  -- best efforts
   ([99, 111, 109, 109, 101, 114, 99, 105, 97, 108, 108, 121, 32, 114, 101, 97, 115, 111, 110, 97, 98, 108, 101, 32, 101, 102, 102, 111, 114, 116, 115], 0.5),  -- commercially reasonable efforts
   ([114, 101, 97, 115, 111, 110, 97, 98, 108, 101, 32, 101, 102, 102, 111, 114, 116, 115], 0.5),  -- reasonable efforts
   ([115, 101, 114, 118, 105, 99, 101, 32, 108, 101, 118, 101, 108, 32, 97, 103, 114, 101, 101, 109, 101, 110, 116], 1.0),  -- service level agreement
   ([115, 108, 97], 1.0),  -- SLA
   ([117, 112, 116, 105, 109, 101], 1.0),  -- uptime
   ([57, 57, 46, 57, 37], 1.0),  -- 99.9%
   ([57, 57, 46, 57, 57, 37], 1.5),  -- 99.99%
   ([115, 101, 114, 118, 105, 99, 101, 32, 99, 114, 101, 100, 105, 116, 115], 0.5),  -- service credits
   ([114, 101, 115, 112, 111, 110, 115, 101, 32, 116, 105, 109, 101], 1.0),  -- response time
   ([114, 101, 115, 111, 108, 117, 116, 105, 111, 110, 32, 116, 105, 109, 101], 1.0),  -- resolution time
   ([102, 111, 114, 99, 101, 32, 109, 97, 106, 101, 117, 114, 101], 0.5),  -- force majeure
   ([97, 99, 116, 32, 111, 102, 32, 103, 111, 100], 0.5),  -- act of God
   ([110, 111, 32, 102, 111, 114, 99, 101, 32, 109, 97, 106, 101, 117, 114, 101], 2.5),  -- no force majeure
   ([102, 111, 114, 99, 101, 32, 109, 97, 106, 101, 117, 114, 101, 32, 115, 104, 97, 108, 108, 32, 110, 111, 116, 32, 97, 112, 112, 108, 121], 2.5),  -- force majeure shall not apply
   ([101, 120, 99, 117, 115, 101, 100, 32, 102, 114, 111, 109, 32, 112, 101, 114, 102, 111, 114, 109, 97, 110, 99, 101], 0.5),  -- excused from performance
   ([98, 101, 121, 111, 110, 100, 32, 114, 101, 97, 115, 111, 110, 97, 98, 108, 101, 32, 99, 111, 110, 116, 114, 111, 108], 0.5),  -- beyond reasonable control
   ([105, 110, 99, 108, 117, 100, 105, 110, 103, 32, 112, 97, 110, 100, 101, 109, 105, 99], 0.5),  -- including pandemic
   ([114, 101, 113, 117, 105, 114, 101, 115, 32, 112, 114, 105, 111, 114, 32, 119, 114, 105, 116, 116, 101, 110, 32, 97, 112, 112, 114, 111, 118, 97, 108], 2.0),  -- requires prior written approval
   ([115, 117, 98, 106, 101, 99, 116, 32, 116, 111, 32, 97, 112, 112, 114, 111, 118, 97, 108], 1.5)]  -- subject to approval

/-- Chunk 9 of the folded library pattern codes (see `libraryCodes`). -/
def libraryCodes9 : List (List ℕ × ℚ) :=
  [([99, 111, 110, 115, 101, 110, 116, 32, 114, 101, 113, 117, 105, 114, 101, 100], 1.5),  -- consent required
   ([112, 114, 105, 111, 114, 32, 119, 114, 105, 116, 116, 101, 110, 32, 99, 111, 110, 115, 101, 110, 116], 1.5),  -- prior written consent
   ([115, 104, 97, 108, 108, 32, 110, 111, 116, 32, 117, 110, 114, 101, 97, 115, 111, 110, 97, 98, 108, 121, 32, 119, 105, 116, 104, 104, 111, 108, 100], 0.5),  -- shall not unreasonably withhold
   ([105, 110, 32, 105, 116, 115, 32, 115, 111, 108, 101, 32, 100, 105, 115, 99, 114, 101, 116, 105, 111, 110], 2.5),  -- in its sole discretion
   ([109, 97, 121, 32, 119, 105, 116, 104, 104, 111, 108, 100, 32, 99, 111, 110, 115, 101, 110, 116], 2.0),  -- may withhold consent
   ([97, 98, 115, 111, 108, 117, 116, 101, 32, 100, 105, 115, 99, 114, 101, 116, 105, 111, 110], 2.5),  -- absolute discretion
   ([101, 120, 99, 108, 117, 115, 105, 118, 101, 32, 100, 101, 97, 108, 105, 110, 103], 2.5),  -- exclusive dealing
   ([101, 120, 99, 108, 117, 115, 105, 118, 101, 32, 97, 114, 114, 97, 110, 103, 101, 109, 101, 110, 116], 2.0),  -- exclusive arrangement
   ([115, 111, 108, 101, 32, 97, 110, 100, 32, 101, 120, 99, 108, 117, 115, 105, 118, 101], 2.5),  -- sole and exclusive
   ([101, 120, 99, 108, 117, 115, 105, 118, 101, 32, 114, 105, 103, 104, 116], 2.0),  -- exclusive right
   ([115, 104, 97, 108, 108, 32, 110, 111, 116, 32, 100, 101, 97, 108, 32, 119, 105, 116, 104], 2.0),  -- shall not deal with
   ([115, 104, 97, 108, 108, 32, 110, 111, 116, 32, 99, 111, 110, 116, 114, 97, 99, 116, 32, 119, 105, 116, 104], 2.0),  -- shall not contract with
   ([110, 111, 110, 45, 101, 120, 99, 108, 117, 115, 105, 118, 101], 0.5),  -- non-exclusive
   ([110, 111, 110, 45, 99, 111, 109, 112, 101, 116, 101], 2.0),  -- non-compete
   ([110, 111, 110, 45, 99, 111, 109, 112, 101, 116, 105, 116, 105, 111, 110], 2.0),  -- non-competition
   ([115, 104, 97, 108, 108, 32, 110, 111, 116, 32, 99, 111, 109, 112, 101, 116, 101], 2.5),  -- shall not compete
   ([99, 111, 109, 112, 101, 116, 105, 110, 103, 32, 98, 117, 115, 105, 110, 101, 115, 115], 2.0),  -- competing business
   ([99, 111, 109, 112, 101, 116, 101, 32, 119, 105, 116, 104, 105, 110], 2.0),  -- compete within
   ([99, 111, 109, 112, 101, 116, 105, 116, 105, 118, 101, 32, 97, 99, 116, 105, 118, 105, 116, 121], 2.0),  -- competitive activity
   ([110, 111, 110, 45, 115, 111, 108, 105, 99, 105, 116, 97, 116, 105, 111, 110], 1.5),  -- non-solicitation
   ([115, 104, 97, 108, 108, 32, 110, 111, 116, 32, 115, 111, 108, 105, 99, 105, 116], 1.5),  -- shall not solicit
   ([101, 109, 112, 108, 111, 121, 101, 101, 32, 115, 111, 108, 105, 99, 105, 116, 97, 116, 105, 111, 110], 1.5),  -- employee solicitation
   ([99, 117, 115, 116, 111, 109, 101, 114, 32, 115, 111, 108, 105, 99, 105, 116, 97, 116, 105, 111, 110], 1.5),  -- customer solicitation
   ([99, 104, 97, 110, 103, 101, 32, 111, 114, 100, 101, 114], 1.0),  -- change order
   ([99, 104, 97, 110, 103, 101, 32, 114, 101, 113, 117, 101, 115, 116], 1.0),  -- change request
   ([115, 99, 111, 112, 101, 32, 99, 104, 97, 110, 103, 101], 1.0),  -- scope change
   ([109, 111, 100, 105, 102, 105, 99, 97, 116, 105, 111, 110, 32, 114, 101, 113, 117, 105, 114, 101, 115, 32, 119, 114, 105, 116, 116, 101, 110], 0.5),  -- modification requires written
   ([110, 111, 32, 111, 114, 97, 108, 32, 109, 111, 100, 105, 102, 105, 99, 97, 116, 105, 111, 110], 0.5),  -- no oral modification
   ([109, 97, 121, 32, 97, 115, 115, 105, 103, 110], 1.5),  -- may assign
   ([115, 104, 97, 108, 108, 32, 110, 111, 116, 32, 97, 115, 115, 105, 103, 110], 1.0),  -- shall not assign
   ([109, 97, 121, 32, 110, 111, 116, 32, 97, 115, 115, 105, 103, 110, 32, 119, 105, 116, 104, 111, 117, 116], 1.0),  -- may not assign without
   ([102, 114, 101, 101, 108, 121, 32, 97, 115, 115, 105, 103, 110, 97, 98, 108, 101], 2.0),  -- freely assignable
   ([97, 115, 115, 105, 103, 110, 109, 101, 110, 116, 32, 114, 101, 113, 117, 105, 114, 101, 115, 32, 99, 111, 110, 115, 101, 110, 116], 1.0),  -- assignment requires consent
   ([99, 104, 97, 110, 103, 101, 32, 111, 102, 32, 99, 111, 110, 116, 114, 111, 108], 1.5),  -- change of control
   ([109, 97, 121, 32, 115, 117, 98, 99, 111, 110, 116, 114, 97, 99, 116], 1.5),  -- may subcontract
   ([115, 104, 97, 108, 108, 32, 110, 111, 116, 32, 115, 117, 98, 99, 111, 110, 116, 114, 97, 99, 116], 1.5),  -- shall not subcontract
   ([114, 101, 109, 97, 105, 110, 115, 32, 114, 101, 115, 112, 111, 110, 115, 105, 98, 108, 101, 32, 102, 111, 114, 32, 115, 117, 98, 99, 111, 110, 116, 114, 97, 99, 116, 111, 114], 1.5),  -- remains responsible for subcontractor
   ([115, 117, 98, 99, 111, 110, 116, 114, 97, 99, 116, 111, 114, 32, 112, 101, 114, 102, 111, 114, 109, 97, 110, 99, 101], 1.5)]  -- subcontractor performance

/-- The lower-cased ASCII codes of every literal library pattern, in the
order of `libraryLits`; `libraryCodes_eq_lits` proves this table equal to
`libraryLits` under `lowerCode`, so the scan can run on pre-folded data. -/
def libraryCodes : List (List ℕ × ℚ) :=
  libraryCodes1 ++ libraryCodes2 ++ libraryCodes3 ++ libraryCodes4 ++ libraryCodes5 ++ libraryCodes6 ++ libraryCodes7 ++ libraryCodes8 ++ libraryCodes9
set_option maxRecDepth 100000 in
set_option maxHeartbeats 4000000 in
/-- Correctness of the literal code table: `libraryCodes` is exactly
`libraryLits` with every pattern folded by `lowerCode`. -/
theorem libraryCodes_eq_lits :
    libraryCodes = libraryLits.map (fun pw => (pw.1.data.map lowerCode, pw.2)) := by
  rfl

/-- The literal-pattern part of the library scan, over a pre-folded text:
one weight entry per non-overlapping occurrence of each literal pattern. -/
def libraryLitOcc (fuel : ℕ) (tc : List (ℕ × Bool)) : List ℚ :=
  occOf fuel tc libraryCodes

/-- All keyword-library occurrence weights found in a text, one entry per
occurrence (`KeywordLibrary.search_all` flattened to the data the scanner
aggregates): the literal entries, then the six regex entries with their
weights. -/
def libraryOccWeights (t : Text) : List ℚ :=
  libraryLitOcc (t.length + 1) (t.map foldChar)
    ++ List.replicate (countRx (tryIncrease t) t) 1.5
    ++ List.replicate (countRx (tryInterest t) t) 1.5
    ++ List.replicate (countRx (tryInsurance t) t) 1.5
    ++ List.replicate (countRx (tryNotice t) t) 1.0
    ++ List.replicate (countRx (tryCure t) t) 1.0
    ++ List.replicate (countRx (tryConfYears t) t) 1.0

/-! ## Fast scanner (`fast_scanner.py`) -/

/-- The red-flag weights produced when scanning a text: one entry per keyword
occurrence of weight ≥ 2.5, plus one entry of weight 3.0 per structural
dangerous-pattern hit (`scan_document` steps 1-2 / `scan_clause`). -/
def redFlagWeights (t : Text) : List ℚ :=
  (libraryOccWeights t).filter (fun w => decide (2.5 ≤ w))
    ++ List.replicate (dangerousCount t) 3.0

/-- Model of `scan_clause`'s total weight: the sum of `category_scores.values()`,
which accumulates every keyword occurrence weight and 3.0 per dangerous
pattern hit (lines 215, 239, 242). -/
def clauseTotalWeight (t : Text) : ℚ :=
  (libraryOccWeights t).sum + 3.0 * (dangerousCount t : ℚ)

/-- Model of `has_critical` of `scan_clause` (line 243): some red flag of
weight ≥ 3.0. -/
def clauseHasCritical (t : Text) : Bool :=
  (redFlagWeights t).any fun w => decide (3.0 ≤ w)

/-- The severity / needs-deep-analysis decision of `FastScanner.scan_clause`
(lines 241-256). -/
def scanClauseDecision (t : Text) : SeverityLevel × Bool :=
  let totalWeight := clauseTotalWeight t
  let hasCritical := clauseHasCritical t
  if hasCritical || decide (10 < totalWeight) then
    ((if hasCritical then .CRITICAL else .HIGH), true)
  else if decide (5 < totalWeight) then (.MEDIUM, true)
  else if decide (2 < totalWeight) then
    (.MEDIUM, decide (0 < (libraryOccWeights t).length))
  else (.LOW, decide (0 < (redFlagWeights t).length))

/-- The coarse document-level severity estimate of
`FastScanner.scan_document` (lines 154-165): `total_weight` sums only the
keyword-match weights, and `critical_count` counts the red flags of
weight ≥ 3.0. -/
def scanDocumentEstimate (t : Text) : SeverityLevel :=
  let totalWeight := (libraryOccWeights t).sum
  let criticalCount := ((redFlagWeights t).filter fun w => decide (3.0 ≤ w)).length
  if 3 ≤ criticalCount || decide (50 < totalWeight) then .CRITICAL
  else if 1 ≤ criticalCount || decide (30 < totalWeight) then .HIGH
  else if decide (15 < totalWeight) then .MEDIUM
  else .LOW

/-! ## Risk assessment engine (`risk_assessment_engine.py`) -/

/-- The fields of a `ClauseRisk` that the claims under verification inspect
(identifier, score, severity, confidence, AI flag).  The narrative fields
(explanations, recommendations, red-flag phrases, timestamps) carry no
algorithmic content relevant to any claim and are elided. -/
structure ClauseRiskM where
  clauseId : String
  score : ℤ
  severity : SeverityLevel
  confidence : ℤ
  aiAnalyzed : Bool
deriving DecidableEq, Repr

/-- Model of `RiskAssessmentEngine._rule_based_clause_analysis` (lines 431-502): score
the clause with the scan's keyword matches and `context_multiplier=1.0`,
derive the severity via `SeverityLevel.from_score`, and compute the
confidence with `ai_analyzed=False`. -/
def ruleBasedClauseAnalysis (expNeg : ℕ → ℚ) (cid : String) (t : Text) :
    ClauseRiskM :=
  let kw := libraryOccWeights t
  let score := calculateScore expNeg t kw 1 none
  { clauseId := cid
    score := score
    severity := SeverityLevel.fromScore score
    confidence := calculateConfidence kw t false
    aiAnalyzed := false }

/-- Model of `RiskAssessmentEngine._analyze_clauses_sequential` (lines 368-407).  The
external AI analyzer is abstracted as a function that either returns a
`ClauseRiskM` or raises (`Except.error`); `hasKeywords` abstracts the
membership test `clause_id in keyword_map`.  A raised failure on a clause is
caught there and replaced by the rule-based analysis of that clause alone. -/
def analyzeOneClause (expNeg : ℕ → ℚ)
    (analyzer : String → Text → Except Unit ClauseRiskM)
    (hasKeywords : String → Bool) (ct : String × Text) : ClauseRiskM :=
  if hasKeywords ct.1 then
    match analyzer ct.1 ct.2 with
    | .ok r => r
    | .error _ => ruleBasedClauseAnalysis expNeg ct.1 ct.2
  else ruleBasedClauseAnalysis expNeg ct.1 ct.2

def analyzeClausesSequential (expNeg : ℕ → ℚ)
    (analyzer : String → Text → Except Unit ClauseRiskM)
    (hasKeywords : String → Bool) (clauses : List (String × Text)) :
    List ClauseRiskM :=
  clauses.map (analyzeOneClause expNeg analyzer hasKeywords)

/-! ## Clause extraction (`RiskAssessmentEngine._extract_clauses`,
`risk_assessment_engine.py` lines 257-299) -/

/-- The characters of `t` from index `a` (inclusive) to `b` (exclusive) —
Python `text[a:b]`. -/
def extractRange (t : Text) (a b : ℕ) : Text := (t.take b).drop a

/-- First index `≥ start` at which `sep` occurs verbatim (case-sensitive). -/
def findSub (sep : Text) (t : Text) (start : ℕ) : Option ℕ :=
  go (t.length + 1) start
where
  plainAt : Text → ℕ → Bool
    | [], _ => true
    | c :: cs, i =>
      match t.get? i with
      | some d => d = c && plainAt cs (i + 1)
      | none => false
  go : ℕ → ℕ → Option ℕ
  | 0, _ => none
  | fuel + 1, i =>
    if t.length < i then none
    else if plainAt sep i then some i
    else go fuel (i + 1)

/-- Python `text.split(sep)` for a non-empty separator: split at each
non-overlapping occurrence, scanning left to right. -/
def splitOnSep (sep : Text) (t : Text) : List Text :=
  go (t.length + 1) 0
where
  go : ℕ → ℕ → List Text
  | 0, start => [extractRange t start t.length]
  | fuel + 1, start =>
    match findSub sep t start with
    | some i => extractRange t start i :: go fuel (i + sep.length)
    | none => [extractRange t start t.length]

/-- The group `\d+(?:\.\d+)*\.?\s*[A-Z][^.]*?[.:]` of the section-header
pattern, attempted at position `g` (no `re.IGNORECASE`: the one required
letter is an ASCII capital); returns the end of the group, which is also the
end of the whole match.  The non-greedy `[^.]*?[.:]` ends the group at the
first `.` or `:` after the capital letter. -/
def tryHeaderGroup (t : Text) (g : ℕ) : Option ℕ := do
  let j ← digitsAt t g
  let j2 := dotDigits (t.length + 1) j
  let j3 :=
    match t.get? j2 with
    | some c => if c = '.' then j2 + 1 else j2
    | none => j2
  let k := skipWs t j3
  match t.get? k with
  | some c => if c.isUpper then findStop (t.length + 1) (k + 1) else none
  | none => none
where
  dotDigits : ℕ → ℕ → ℕ
  | 0, j => j
  | fuel + 1, j =>
    if t.get? j = some '.' then
      let n := runLength isDigitChar t (j + 1)
      if n = 0 then j else dotDigits fuel (j + 1 + n)
    else j
  findStop : ℕ → ℕ → Option ℕ
  | 0, _ => none
  | fuel + 1, m =>
    match t.get? m with
    | some c => if c = '.' || c = ':' then some (m + 1) else findStop fuel (m + 1)
    | none => none

/-- Model of `re.finditer` for the full pattern
`(?:^|\n)(\d+(?:\.\d+)*\.?\s*[A-Z][^.]*?[.:])` with `re.MULTILINE`:
scan left to right; at a line start the zero-width `^` branch applies (the
match starts with the group), otherwise a literal newline is consumed first
(the match starts one character before the group); resume after each match.
Each element is `(matchStart, groupStart, groupEnd)`. -/
def headerMatches (t : Text) : List (ℕ × ℕ × ℕ) :=
  go (t.length + 1) 0
where
  lineStart (i : ℕ) : Bool :=
    if i = 0 then true else t.get? (i - 1) = some '\n'
  go : ℕ → ℕ → List (ℕ × ℕ × ℕ)
  | 0, _ => []
  | fuel + 1, i =>
    if t.length < i then []
    else if lineStart i then
      match tryHeaderGroup t i with
      | some e => (i, i, e) :: go fuel e
      | none =>
        if t.get? i = some '\n' then
          match tryHeaderGroup t (i + 1) with
          | some e => (i, i + 1, e) :: go fuel e
          | none => go fuel (i + 1)
        else go fuel (i + 1)
    else if t.get? i = some '\n' then
      match tryHeaderGroup t (i + 1) with
      | some e => (i, i + 1, e) :: go fuel e
      | none => go fuel (i + 1)
    else go fuel (i + 1)

/-- The section-based split: each clause runs from one detected header to the
next (header text prepended), and sections of at most 30 stripped characters
are skipped. -/
def sectionSplit (t : Text) : List (String × Text) :=
  let hs := headerMatches t
  (List.range hs.length).filterMap fun i =>
    match hs.get? i with
    | some (_, gs, ge) =>
      let e :=
        match hs.get? (i + 1) with
        | some (ms2, _, _) => ms2
        | none => t.length
      let header := stripT (extractRange t gs ge)
      let content := stripT (extractRange t ge e)
      if 30 < content.length then
        some (("section_" ++ toString (i + 1)), header ++ ('\n' :: content))
      else none
    | none => none

/-- The paragraph fallback: blank-line-delimited paragraphs, stripped, kept
when longer than 50 characters. -/
def paragraphSplit (t : Text) : List (String × Text) :=
  let paragraphs := splitOnSep ('\n' :: ['\n']) t
  (List.range paragraphs.length).filterMap fun i =>
    match paragraphs.get? i with
    | some para =>
      let p := stripT para
      if 50 < p.length then
        some (("paragraph_" ++ toString (i + 1)), p)
      else none
    | none => none

/-- Model of `RiskAssessmentEngine._extract_clauses`: with at least 3 section
headers, each clause is the text from one header to the next (header text
prepended, sections of at most 30 stripped characters skipped); otherwise the
blank-line paragraphs longer than 50 stripped characters; if nothing
survives, the whole document as a single clause. -/
def extractClauses (t : Text) : List (String × Text) :=
  let clauses : List (String × Text) :=
    if 3 ≤ (headerMatches t).length then sectionSplit t else paragraphSplit t
  if clauses.isEmpty then [(("full_document"), t)] else clauses

/-! ## Document aggregator (`document_aggregator.py` lines 103-131) -/

/-- Insertion step of a stable sort by score, descending: an element being
inserted (which occurs earlier in the original list) goes before every
element of equal or smaller score, as Python's stable
`sorted(key=score, reverse=True)` does. -/
def insertByScoreDesc (x : ClauseRiskM) : List ClauseRiskM → List ClauseRiskM
  | [] => [x]
  | y :: ys =>
    if y.score ≤ x.score then x :: y :: ys else y :: insertByScoreDesc x ys

/-- Stable sort by score, descending (`sorted(..., key=lambda x: x.score,
reverse=True)`). -/
def sortByScoreDesc (l : List ClauseRiskM) : List ClauseRiskM :=
  l.foldr insertByScoreDesc []

/-- The `must_address` bucket of `DocumentAggregator.aggregate`
(lines 103-116): the critical-severity clauses, sorted by score descending,
first five. -/
def mustAddressImmediately (rs : List ClauseRiskM) : List ClauseRiskM :=
  (sortByScoreDesc (rs.filter fun r => r.severity == .CRITICAL)).take 5

/-- Model of `should_negotiate` (lines 118-121): ids of the high-severity clauses. -/
def shouldNegotiate (rs : List ClauseRiskM) : List String :=
  (rs.filter fun r => r.severity == .HIGH).map fun r => r.clauseId

/-- Model of `acceptable` (lines 123-126): ids of the low-severity clauses with
score below 25. -/
def acceptableAsIs (rs : List ClauseRiskM) : List String :=
  (rs.filter fun r => r.severity == .LOW && decide (r.score < 25)).map
    fun r => r.clauseId

/-- Model of `deal_breakers` (lines 128-131): ids of the clauses with score ≥ 90. -/
def dealBreakers (rs : List ClauseRiskM) : List String :=
  (rs.filter fun r => decide (90 ≤ r.score)).map fun r => r.clauseId

/-! ## Helper lemmas about the rounding, clamping and sorting primitives -/

theorem pyRound_intCast (n : ℤ) : pyRound ((n : ℚ)) = n := by
  unfold pyRound
  norm_num [Int.floor_intCast]

theorem pyRound_eq_of_lt_half (q : ℚ) (n : ℤ) (h1 : (n : ℚ) ≤ q)
    (h2 : q < (n : ℚ) + 1 / 2) : pyRound q = n := by
  have hf : ⌊q⌋ = n := by
    rw [Int.floor_eq_iff]
    exact ⟨h1, by linarith⟩
  have hfr : q - ⌊q⌋ < 1 / 2 := by rw [hf]; linarith
  unfold pyRound
  rw [if_pos hfr, hf]

theorem pyRound_nonneg (q : ℚ) (h : 0 ≤ q) : 0 ≤ pyRound q := by
  have h0 : (0 : ℤ) ≤ ⌊q⌋ := Int.floor_nonneg.mpr h
  unfold pyRound
  split_ifs <;> omega

theorem pyRound_mono {q r : ℚ} (h : q ≤ r) : pyRound q ≤ pyRound r := by
  rcases lt_or_le ⌊q⌋ ⌊r⌋ with hf | hf
  · unfold pyRound
    split_ifs <;> omega
  · have hfe : ⌊q⌋ = ⌊r⌋ := le_antisymm (Int.floor_le_floor h) hf
    have hle : q - (⌊q⌋ : ℚ) ≤ r - (⌊r⌋ : ℚ) := by
      rw [hfe]
      linarith
    unfold pyRound
    rw [hfe] at hle ⊢
    split_ifs <;> first | omega | linarith

theorem clampMultiplier_pos (cm : ℚ) : 0 < clampMultiplier cm :=
  lt_of_lt_of_le (by norm_num) (le_max_left _ _)

theorem clampMultiplier_one : clampMultiplier 1 = 1 := by
  norm_num [clampMultiplier, min_def, max_def]

/-- The final clamp of `calculate_score` keeps every score in `[0, 100]`. -/
theorem calculateScore_range (expNeg : ℕ → ℚ) (t : Text) (kw : List ℚ)
    (cm : ℚ) (ai : Option ℤ) :
    0 ≤ calculateScore expNeg t kw cm ai ∧ calculateScore expNeg t kw cm ai ≤ 100 := by
  unfold calculateScore
  exact ⟨le_max_left _ _, max_le (by norm_num) (min_le_left _ _)⟩

/-- Shared bound for `calculate_confidence`: the base of 50 is only ever
incremented before the final `min(100, max(20, ·))`, so the result is always
in `[50, 100]`. -/
theorem calculateConfidence_range (kw : List ℚ) (t : Text) (ai : Bool) :
    50 ≤ calculateConfidence kw t ai ∧ calculateConfidence kw t ai ≤ 100 := by
  unfold calculateConfidence
  have hc : (0 : ℤ) ≤ ((kw.filter fun w => decide (2.5 ≤ w)).length : ℤ) :=
    Int.natCast_nonneg _
  have hmin : (0 : ℤ) ≤ min 15 (((kw.filter fun w => decide (2.5 ≤ w)).length : ℤ) * 5) ∧
      min 15 (((kw.filter fun w => decide (2.5 ≤ w)).length : ℤ) * 5) ≤ 15 :=
    ⟨le_min (by norm_num) (by positivity), min_le_left _ _⟩
  simp only [inf_eq_min, sup_eq_max]
  split_ifs <;> omega

theorem insertByScoreDesc_perm (x : ClauseRiskM) (l : List ClauseRiskM) :
    List.Perm (insertByScoreDesc x l) (x :: l) := by
  induction l with
  | nil => rfl
  | cons y ys ih =>
    rw [insertByScoreDesc]
    split_ifs
    · rfl
    · exact (ih.cons y).trans (List.Perm.swap x y ys)

theorem sortByScoreDesc_perm (l : List ClauseRiskM) : List.Perm (sortByScoreDesc l) l := by
  induction l with
  | nil => rfl
  | cons x xs ih => exact (insertByScoreDesc_perm x (sortByScoreDesc xs)).trans (ih.cons x)

theorem pairwise_insertByScoreDesc (x : ClauseRiskM) (l : List ClauseRiskM)
    (h : l.Pairwise fun a b => b.score ≤ a.score) :
    (insertByScoreDesc x l).Pairwise fun a b => b.score ≤ a.score := by
  induction l with
  | nil => simp [insertByScoreDesc]
  | cons y ys ih =>
    rw [insertByScoreDesc]
    rcases List.pairwise_cons.mp h with ⟨hy, hys⟩
    split_ifs with hxy
    · refine List.pairwise_cons.mpr ⟨?_, h⟩
      intro z hz
      rcases List.mem_cons.mp hz with hz | hz
      · subst hz
        exact hxy
      · exact le_trans (hy z hz) hxy
    · refine List.pairwise_cons.mpr ⟨?_, ih hys⟩
      intro z hz
      have hz2 : z ∈ x :: ys := (insertByScoreDesc_perm x ys).mem_iff.mp hz
      rcases List.mem_cons.mp hz2 with hz3 | hz3
      · subst hz3
        omega
      · exact hy z hz3

theorem sortByScoreDesc_pairwise (l : List ClauseRiskM) :
    (sortByScoreDesc l).Pairwise fun a b => b.score ≤ a.score := by
  induction l with
  | nil => exact List.Pairwise.nil
  | cons x xs ih => exact pairwise_insertByScoreDesc x (sortByScoreDesc xs) ih

theorem le_foldl_max (b : ℤ) (l : List ℤ) : b ≤ l.foldl max b := by
  induction l generalizing b with
  | nil => exact le_refl b
  | cons c cs ih => exact le_trans (le_max_left b c) (ih (max b c))

/-! ## Spec-side definitions

Each of these follows the wording of the specification (the second leg of a
refinement claim), to be compared with the definitions above that were
transcribed from the source. -/

/-- Per-clause score formula as worded in §4.4 of the spec: base with
diminishing returns (step 1), the eight additive modifiers (steps 2-9), the
context multiplier clamped to `[0.5, 2.0]`, the 60/40 blend with an optional
external score, then round and clamp to `[0, 100]`. -/
def specClauseScore (expNeg : ℕ → ℚ) (t : Text) (kw : List ℚ) (cm : ℚ)
    (external : Option ℤ) : ℤ :=
  let base : ℚ :=
    if kw.length = 0 then 0 else min 50 (kw.sum * 8 * (1 - expNeg kw.length))
  let wc := wordCount t
  let step2 : ℚ :=
    if wc < 50 then 0 else if wc < 100 then 3
    else if wc < 200 then 5 else if wc < 400 then 8 else 10
  let c3 := countPresent obligationMarkers t
  let step3 : ℚ := if c3 ≤ 1 then 0 else if c3 ≤ 3 then 5 else if c3 ≤ 5 then 10 else 15
  let c4 := countPresent extremeLanguage t
  let step4 : ℚ := if c4 = 0 then 0 else if c4 = 1 then 8 else if c4 = 2 then 15 else 20
  let c5 := countPresent oneSidedMarkers t
  let step5 : ℚ := if c5 = 0 then 0 else if c5 = 1 then 7 else 15
  let c6 := countPresent positiveQualifiers t
  let step6 : ℚ := if c6 = 0 then 0 else if c6 = 1 then -3 else if c6 = 2 then -6 else -10
  let c7 := capPresentCount t
  let step7 : ℚ := if c7 = 0 then 0 else if c7 = 1 then -8 else if c7 = 2 then -12 else -15
  let c8 := countPresent mutualLanguage t
  let step8 : ℚ := if c8 = 0 then 0 else if c8 = 1 then -4 else if c8 = 2 then -7 else -10
  let c9 := countPresent standardTerms t
  let step9 : ℚ := if c9 = 0 then 0 else if c9 = 1 then -4 else if c9 = 2 then -7 else -10
  let preContext := base + step2 + step3 + step4 + step5 + step6 + step7 + step8 + step9
  let contextualized := preContext * max 0.5 (min 2.0 cm)
  let blended : ℚ :=
    match external with
    | some e => 0.6 * (e : ℚ) + 0.4 * contextualized
    | none => contextualized
  max 0 (min 100 (pyRound blended))

/-- Document-level score formula as worded in §4.4 of the spec: weight each
clause score by its severity bracket, blend the weighted average 60/40 with
the maximum score, round, clamp to `[0, 100]`. -/
def specDocumentScore (scores : List ℤ) : ℤ :=
  if scores = [] then 0
  else
    let bracketWeight : ℤ → ℚ := fun s =>
      if 85 ≤ s then 3.0 else if 60 ≤ s then 2.0 else if 30 ≤ s then 1.0 else 0.5
    let wavg : ℚ :=
      (scores.map fun (s : ℤ) => (s : ℚ) * bracketWeight s).sum /
        (scores.map bracketWeight).sum
    max 0 (min 100 (pyRound (0.6 * wavg + 0.4 * (listMax scores : ℚ))))

/-! ## Claim theorems -/

/-- Claim C1: for every clause text, list of keyword matches, context
multiplier and optional external score, `RiskScorer.calculate_score` returns
exactly the §4.4 formula — base
`min(50, total_weight × 8 × (1 − e^(−0.15·count)))` (0 with no matches), plus
the eight additive modifiers, times the context multiplier clamped to
`[0.5, 2.0]`, blended `0.6·external + 0.4·contextualized` when an external
score is supplied, rounded to the nearest integer and clamped to `[0, 100]`.
(Universally quantified over `expNeg`, the value of the float
`e^(−0.15·count)`.) -/
theorem calculate_score_matches_spec (expNeg : ℕ → ℚ) (t : Text) (kw : List ℚ)
    (cm : ℚ) (ai : Option ℤ) :
    calculateScore expNeg t kw cm ai = specClauseScore expNeg t kw cm ai := by
  have hbase : baseKeywordScore expNeg kw =
      (if kw.length = 0 then (0 : ℚ) else min 50 (kw.sum * 8 * (1 - expNeg kw.length))) := by
    cases kw <;> simp [baseKeywordScore]
  unfold calculateScore specClauseScore
  rw [hbase]
  unfold lengthModifier obligationModifier extremeModifier oneSidedModifier
    qualifierModifier capModifier mutualModifier standardModifier
    lengthModifierOfCount obligationModifierOfCount extremeModifierOfCount
    oneSidedModifierOfCount qualifierModifierOfCount capModifierOfCount
    mutualModifierOfCount standardModifierOfCount clampMultiplier
  cases ai with
  | none => rfl
  | some e =>
    have hring : ∀ c : ℚ, (e : ℚ) * 0.6 + c * 0.4 = 0.6 * (e : ℚ) + 0.4 * c := by
      intro c
      ring
    simp only [hring]

/-- Claim C2 counterexample: the claim requires every severity-from-score
derivation in the system to use the `from_score` boundaries (≤30 low, ≤60
medium, ≤85 high, else critical), but `render_top_risks` in `app.py`
(line 769) maps a score of 85 to CRITICAL while `SeverityLevel.from_score`
maps 85 to HIGH. -/
theorem render_top_risks_severity_disagrees :
    renderTopRisksSeverity 85 = .CRITICAL ∧ SeverityLevel.fromScore 85 = .HIGH ∧
      renderTopRisksSeverity 85 ≠ SeverityLevel.fromScore 85 := by
  refine ⟨rfl, rfl, ?_⟩
  decide

/-- Claim C2 (amended): `SeverityLevel.from_score` maps exactly by the
30/60/85 boundaries; every score produced by the scorer lies in `[0, 100]`;
and the severity derivations inside the risk-assessment core —
`RiskScorer.get_severity_from_score` and the rule-based engine path — use
exactly this mapping.  (As the counterexample shows, the claim's universal
"every place the system derives a severity from a score" fails for the UI's
`render_top_risks`, which uses ≥85→critical / ≥60→high / else medium.) -/
theorem severity_mapping_consistent :
    (∀ s : ℤ, (s ≤ 30 → SeverityLevel.fromScore s = .LOW) ∧
      (30 < s → s ≤ 60 → SeverityLevel.fromScore s = .MEDIUM) ∧
      (60 < s → s ≤ 85 → SeverityLevel.fromScore s = .HIGH) ∧
      (85 < s → SeverityLevel.fromScore s = .CRITICAL)) ∧
    (∀ (expNeg : ℕ → ℚ) (t : Text) (kw : List ℚ) (cm : ℚ) (ai : Option ℤ),
      0 ≤ calculateScore expNeg t kw cm ai ∧ calculateScore expNeg t kw cm ai ≤ 100) ∧
    (∀ s : ℤ, getSeverityFromScore s = SeverityLevel.fromScore s) ∧
    (∀ (expNeg : ℕ → ℚ) (cid : String) (t : Text),
      (ruleBasedClauseAnalysis expNeg cid t).severity =
        SeverityLevel.fromScore ((ruleBasedClauseAnalysis expNeg cid t).score)) := by
  refine ⟨?_, ?_, fun _ => rfl, fun _ _ _ => rfl⟩
  · intro s
    unfold SeverityLevel.fromScore
    refine ⟨?_, ?_, ?_, ?_⟩ <;> intros <;> split_ifs <;> first | rfl | omega
  · intro expNeg t kw cm ai
    exact calculateScore_range expNeg t kw cm ai

/-- Witness for the amended claim C2 at concrete scores. -/
theorem severity_mapping_consistent_witness :
    SeverityLevel.fromScore 30 = .LOW ∧ SeverityLevel.fromScore 31 = .MEDIUM ∧
      SeverityLevel.fromScore 85 = .HIGH ∧ SeverityLevel.fromScore 86 = .CRITICAL :=
  ⟨(severity_mapping_consistent.1 30).1 (by decide),
   (severity_mapping_consistent.1 31).2.1 (by decide) (by decide),
   (severity_mapping_consistent.1 85).2.2.1 (by decide) (by decide),
   (severity_mapping_consistent.1 86).2.2.2 (by decide)⟩

theorem docScoreWeight_pos (s : ℤ) : 0 < docScoreWeight s := by
  unfold docScoreWeight
  split_ifs <;> norm_num

/-- Helper: the blended document score value is nonnegative for clause scores
that are all nonnegative. -/
theorem docScoreBlend_nonneg (x : ℤ) (xs : List ℤ)
    (h : ∀ s ∈ x :: xs, 0 ≤ s) :
    0 ≤ ((x :: xs).map fun (s : ℤ) => (s : ℚ) * docScoreWeight s).sum /
        ((x :: xs).map docScoreWeight).sum * 0.6 +
      (listMax (x :: xs) : ℚ) * 0.4 := by
  have hnum : 0 ≤ ((x :: xs).map fun (s : ℤ) => (s : ℚ) * docScoreWeight s).sum := by
    apply List.sum_nonneg
    intro q hq
    rcases List.mem_map.mp hq with ⟨s, hs, rfl⟩
    have h0 : (0 : ℚ) ≤ (s : ℚ) := by
      exact_mod_cast h s hs
    exact mul_nonneg h0 (le_of_lt (docScoreWeight_pos s))
  have hden : 0 ≤ ((x :: xs).map docScoreWeight).sum := by
    apply List.sum_nonneg
    intro q hq
    rcases List.mem_map.mp hq with ⟨s, _, rfl⟩
    exact le_of_lt (docScoreWeight_pos s)
  have hmax : (0 : ℚ) ≤ (listMax (x :: xs) : ℚ) := by
    have hx : (0 : ℤ) ≤ x := h x (List.mem_cons_self x xs)
    have : (0 : ℤ) ≤ listMax (x :: xs) := le_trans hx (le_foldl_max x xs)
    exact_mod_cast this
  have havg : 0 ≤ ((x :: xs).map fun (s : ℤ) => (s : ℚ) * docScoreWeight s).sum /
      ((x :: xs).map docScoreWeight).sum := div_nonneg hnum hden
  nlinarith

/-- Helper: concrete evaluation of the document score on the spec's sample
list (weighted average 64, maximum 85, blend 72.4, rounded to 72). -/
theorem docScoreSample_eq : calculateDocumentScore [85, 70, 45, 30, 20] = 72 := by
  have hmax : listMax [85, 70, 45, 30, 20] = (85 : ℤ) := by decide
  unfold calculateDocumentScore
  rw [hmax]
  norm_num [docScoreWeight, List.sum_cons, List.sum_nil]
  have hp : pyRound ((362 : ℚ) / 5) = 72 :=
    pyRound_eq_of_lt_half _ 72 (by norm_num) (by norm_num)
  rw [hp]
  norm_num [min_def]

/-- Claim C3: `RiskScorer.calculate_document_score` on a non-empty list of
clause scores in `[0, 100]` equals the spec's formula — severity-bracket
weights (≥85→3.0, ≥60→2.0, ≥30→1.0, else 0.5), `0.6 × weighted average +
0.4 × max`, rounded and clamped to `[0, 100]` — and on `[85, 70, 45, 30, 20]`
the result lies strictly between 50 and 90. -/
theorem document_score_matches_spec :
    (∀ scores : List ℤ, scores ≠ [] → (∀ s ∈ scores, 0 ≤ s ∧ s ≤ 100) →
      calculateDocumentScore scores = specDocumentScore scores) ∧
    50 < calculateDocumentScore [85, 70, 45, 30, 20] ∧
    calculateDocumentScore [85, 70, 45, 30, 20] < 90 := by
  refine ⟨?_, ?_, ?_⟩
  · intro scores hne hb
    cases scores with
    | nil => exact absurd rfl hne
    | cons x xs =>
      unfold calculateDocumentScore specDocumentScore
      simp only [List.isEmpty_cons, Bool.false_eq_true, if_false,
        reduceCtorEq, ite_false]
      have hnn := docScoreBlend_nonneg x xs (fun s hs => (hb s hs).1)
      have hring :
          ((x :: xs).map fun (s : ℤ) => (s : ℚ) * docScoreWeight s).sum /
              ((x :: xs).map docScoreWeight).sum * 0.6 +
            (listMax (x :: xs) : ℚ) * 0.4 =
          0.6 * (((x :: xs).map fun (s : ℤ) => (s : ℚ) *
              (if 85 ≤ s then 3.0 else if 60 ≤ s then 2.0
               else if 30 ≤ s then 1.0 else 0.5)).sum /
              ((x :: xs).map fun (s : ℤ) =>
                (if 85 ≤ s then (3.0 : ℚ) else if 60 ≤ s then 2.0
                 else if 30 ≤ s then 1.0 else 0.5)).sum) +
            0.4 * (listMax (x :: xs) : ℚ) := by
        unfold docScoreWeight
        ring
      rw [hring] at hnn ⊢
      have hclamp : 0 ≤ min 100 (pyRound (0.6 * (((x :: xs).map fun (s : ℤ) => (s : ℚ) *
              (if 85 ≤ s then 3.0 else if 60 ≤ s then 2.0
               else if 30 ≤ s then 1.0 else 0.5)).sum /
              ((x :: xs).map fun (s : ℤ) =>
                (if 85 ≤ s then (3.0 : ℚ) else if 60 ≤ s then 2.0
                 else if 30 ≤ s then 1.0 else 0.5)).sum) +
            0.4 * (listMax (x :: xs) : ℚ))) :=
        le_min (by norm_num) (pyRound_nonneg _ hnn)
      rw [max_eq_right hclamp]
  · rw [docScoreSample_eq]
    decide
  · rw [docScoreSample_eq]
    decide

/-- Witness for claim C3: the universally quantified equality applied to the
concrete sample list. -/
theorem document_score_matches_spec_witness :
    calculateDocumentScore [85, 70, 45, 30, 20] =
      specDocumentScore [85, 70, 45, 30, 20] :=
  document_score_matches_spec.1 [85, 70, 45, 30, 20] (by decide)
    (by decide)

/-- Claim C10: `RiskScorer.calculate_confidence` always returns a value in
`[50, 100]`: the base of 50 is only incremented, the documented lower clamp
of 20 never binds, and no confidence ≤ 40 is reachable through this
function. -/
theorem confidence_always_at_least_fifty (kw : List ℚ) (t : Text) (ai : Bool) :
    50 ≤ calculateConfidence kw t ai ∧ calculateConfidence kw t ai ≤ 100 ∧
      ¬ calculateConfidence kw t ai ≤ 40 := by
  obtain ⟨h1, h2⟩ := calculateConfidence_range kw t ai
  exact ⟨h1, h2, by omega⟩

/-- The clause of §4.3 as the code implements it (amended claim C4): the
critical-or-high branch keys on a red flag of weight ≥ 3.0 (`has_critical`),
not on the presence of any red flag. -/
def specScanClauseDecisionAmended (totalWeight : ℚ) (hasTrueRedFlag : Bool)
    (matchCount redFlagCount : ℕ) : SeverityLevel × Bool :=
  if hasTrueRedFlag || decide (10 < totalWeight) then
    ((if hasTrueRedFlag then .CRITICAL else .HIGH), true)
  else if decide (5 < totalWeight) then (.MEDIUM, true)
  else if decide (2 < totalWeight) then (.MEDIUM, decide (0 < matchCount))
  else (.LOW, decide (0 < redFlagCount))

/-- A text whose only keyword match is the single weight-2.5 entry
`"no cap"`, giving one red flag below the 3.0 threshold. -/
def noCapText : String := "no cap"

/-- The folded characters of `noCapText`. -/
def noCapCodes : List (ℕ × Bool) :=
  [(110, true), (111, true), (32, false), (99, true), (97, true), (112, true)]

/-- Claim C4 counterexample: the clause `"no cap"` carries a red flag
(weight 2.5), so the claim's first branch ("any red flag present →
critical-or-high") demands severity HIGH; `scan_clause` instead takes the
`total_weight > 2` branch and returns MEDIUM, because its first branch tests
`has_critical` (a red flag of weight ≥ 3.0), which is false here. -/
theorem scan_clause_decision_counterexample :
    redFlagWeights noCapText.data = [2.5] ∧
      clauseHasCritical noCapText.data = false ∧
      scanClauseDecision noCapText.data = (.MEDIUM, true) := by
  have h : libraryOccWeights noCapText.data = [2.5] := by
    unfold libraryOccWeights libraryLitOcc
    rw [show noCapText.data.map foldChar = noCapCodes from rfl,
      show noCapText.data.length + 1 = 7 from rfl]
    set_option maxRecDepth 100000 in rfl
  have hd : dangerousCount noCapText.data = 0 := by
    set_option maxRecDepth 100000 in rfl
  have hrf : redFlagWeights noCapText.data = [2.5] := by
    rw [redFlagWeights, h, hd]
    norm_num [List.filter]
  have hhc : clauseHasCritical noCapText.data = false := by
    rw [clauseHasCritical, hrf]
    norm_num [List.any]
  refine ⟨hrf, hhc, ?_⟩
  rw [scanClauseDecision, clauseTotalWeight, h, hd, hhc, hrf]
  norm_num

/-- Claim C4 (amended): `FastScanner.scan_clause` assigns severity and the
needs-deep-analysis flag by exactly the §4.3 table, with the first branch
keyed on a red flag of weight ≥ 3.0 (keyword weight ≥ 3.0 or a structural
pattern hit) rather than on any red flag: such a flag or total weight > 10
gives critical (flag present) or high, with deep analysis; > 5 gives medium
with deep analysis; > 2 gives medium with deep analysis iff any keyword match
exists; otherwise low with deep analysis iff any red flag exists. -/
theorem scan_clause_decision_matches_amended_spec (t : Text) :
    scanClauseDecision t =
      specScanClauseDecisionAmended (clauseTotalWeight t) (clauseHasCritical t)
        (libraryOccWeights t).length (redFlagWeights t).length := rfl

/-- The document-level estimate of §4.3 as the code implements it (amended
claim C8): both the critical and the high branch count only the red flags of
weight ≥ 3.0, and the total weight sums only the keyword matches. -/
def specScanDocumentEstimateAmended (totalKeywordWeight : ℚ)
    (trueRedFlagCount : ℕ) : SeverityLevel :=
  if 3 ≤ trueRedFlagCount || decide (50 < totalKeywordWeight) then .CRITICAL
  else if 1 ≤ trueRedFlagCount || decide (30 < totalKeywordWeight) then .HIGH
  else if decide (15 < totalKeywordWeight) then .MEDIUM
  else .LOW

/-- Claim C8 counterexample: the document `"no cap"` produces one red flag
(the weight-2.5 keyword match), so the claim's estimate ("high when there is
≥ 1 red flag") demands HIGH; `scan_document` counts only red flags of
weight ≥ 3.0 in `critical_count` and, with total weight 2.5 ≤ 15, returns
LOW. -/
theorem scan_document_estimate_counterexample :
    redFlagWeights noCapText.data ≠ [] ∧
      (∀ w ∈ redFlagWeights noCapText.data, w < 3) ∧
      scanDocumentEstimate noCapText.data = .LOW := by
  have h : libraryOccWeights noCapText.data = [2.5] := by
    unfold libraryOccWeights libraryLitOcc
    rw [show noCapText.data.map foldChar = noCapCodes from rfl,
      show noCapText.data.length + 1 = 7 from rfl]
    set_option maxRecDepth 100000 in rfl
  have hd : dangerousCount noCapText.data = 0 := by
    set_option maxRecDepth 100000 in rfl
  have hrf : redFlagWeights noCapText.data = [2.5] := by
    rw [redFlagWeights, h, hd]
    norm_num [List.filter]
  refine ⟨by rw [hrf]; simp, ?_, ?_⟩
  · rw [hrf]
    intro w hw
    rcases List.mem_singleton.mp hw with rfl
    norm_num
  · rw [scanDocumentEstimate, h, hrf]
    norm_num [List.filter]

/-- Claim C8 (amended): `FastScanner.scan_document` turns every keyword match
of weight ≥ 2.5 and every structural danger-pattern hit (fixed weight 3.0)
into a red flag, and estimates: critical when ≥ 3 red flags of weight ≥ 3.0
or keyword weight > 50; high when ≥ 1 red flag of weight ≥ 3.0 or keyword
weight > 30; medium when keyword weight > 15; low otherwise. -/
theorem scan_document_estimate_matches_amended_spec (t : Text) :
    redFlagWeights t =
        (libraryOccWeights t).filter (fun w => decide (2.5 ≤ w)) ++
          List.replicate (dangerousCount t) 3.0 ∧
      scanDocumentEstimate t =
        specScanDocumentEstimateAmended (libraryOccWeights t).sum
          ((redFlagWeights t).filter fun w => decide (3.0 ≤ w)).length :=
  ⟨rfl, rfl⟩

/-- Claim C5 counterexample: on the clause `"no cap"` with a failing external
analyzer, the engine's per-clause fallback produces the rule-based result
with `ai_analyzed = false` — but its confidence is 73, not ≤ 40: the
rule-based path computes confidence through `calculate_confidence`, which
never returns less than 50 (base 50 plus nonnegative increments). -/
theorem fallback_confidence_exceeds_forty :
    analyzeClausesSequential (fun _ => 0) (fun _ _ => .error ()) (fun _ => true)
        [(("c1"), noCapText.data)] =
      [ruleBasedClauseAnalysis (fun _ => 0) ("c1") noCapText.data] ∧
      (ruleBasedClauseAnalysis (fun _ => 0) ("c1") noCapText.data).aiAnalyzed = false ∧
      (ruleBasedClauseAnalysis (fun _ => 0) ("c1") noCapText.data).confidence = 73 ∧
      ¬ (ruleBasedClauseAnalysis (fun _ => 0) ("c1") noCapText.data).confidence ≤ 40 := by
  have h : libraryOccWeights noCapText.data = [2.5] := by
    unfold libraryOccWeights libraryLitOcc
    rw [show noCapText.data.map foldChar = noCapCodes from rfl,
      show noCapText.data.length + 1 = 7 from rfl]
    set_option maxRecDepth 100000 in rfl
  have hwc : wordCount noCapText.data = 2 := by decide
  have hex : countPresent extremeLanguage noCapText.data = 1 := by decide
  have hconf : (ruleBasedClauseAnalysis (fun _ => 0) ("c1") noCapText.data).confidence = 73 := by
    show calculateConfidence (libraryOccWeights noCapText.data) noCapText.data false = 73
    rw [h, calculateConfidence, hwc, hex]
    norm_num [List.filter, min_def, max_def]
  exact ⟨rfl, rfl, hconf, by rw [hconf]; omega⟩

/-- Claim C5 (amended): a failure of the external analyzer on a clause is
caught inside the per-clause loop: that clause (and only that clause) gets
the deterministic rule-based `ClauseRisk` with `ai_analyzed = false` and a
confidence of at least 50 (not ≤ 40 — the rule-based confidence formula
starts at 50 and only adds); every clause is still analysed (the output has
one entry per input clause, each depending only on its own clause), so the
failure never propagates to the caller. -/
theorem analyzer_failure_isolated (expNeg : ℕ → ℚ)
    (analyzer : String → Text → Except Unit ClauseRiskM)
    (hasKeywords : String → Bool) (clauses : List (String × Text)) (i : ℕ)
    (cid : String) (t : Text)
    (hget : clauses.get? i = some (cid, t))
    (hfail : analyzer cid t = .error ()) :
    (analyzeClausesSequential expNeg analyzer hasKeywords clauses).get? i =
        some (ruleBasedClauseAnalysis expNeg cid t) ∧
      (ruleBasedClauseAnalysis expNeg cid t).aiAnalyzed = false ∧
      50 ≤ (ruleBasedClauseAnalysis expNeg cid t).confidence ∧
      (analyzeClausesSequential expNeg analyzer hasKeywords clauses).length =
        clauses.length ∧
      ∀ j, (analyzeClausesSequential expNeg analyzer hasKeywords clauses).get? j =
        (clauses.get? j).map (analyzeOneClause expNeg analyzer hasKeywords) := by
  refine ⟨?_, rfl, ?_, ?_, ?_⟩
  · rw [analyzeClausesSequential, List.get?_map, hget, Option.map_some']
    have hone : analyzeOneClause expNeg analyzer hasKeywords (cid, t) =
        ruleBasedClauseAnalysis expNeg cid t := by
      rw [analyzeOneClause]
      cases hhk : hasKeywords (cid, t).1 <;> simp [hfail]
    rw [hone]
  · exact (calculateConfidence_range _ _ _).1
  · exact List.length_map _ _
  · intro j
    rw [analyzeClausesSequential, List.get?_map]

/-- Witness for the amended claim C5: a one-clause document whose analyzer
fails, evaluated concretely. -/
theorem analyzer_failure_isolated_witness :
    (analyzeClausesSequential (fun _ => 1) (fun _ _ => .error ()) (fun _ => false)
        [(("w1"), ('z' :: []))]).get? 0 =
        some (ruleBasedClauseAnalysis (fun _ => 1) ("w1") ('z' :: [])) ∧
      (ruleBasedClauseAnalysis (fun _ => 1) ("w1") ('z' :: [])).aiAnalyzed = false :=
  ⟨(analyzer_failure_isolated (fun _ => 1) (fun _ _ => .error ()) (fun _ => false)
      [(("w1"), ('z' :: []))] 0 ("w1") ('z' :: []) rfl rfl).1,
   (analyzer_failure_isolated (fun _ => 1) (fun _ _ => .error ()) (fun _ => false)
      [(("w1"), ('z' :: []))] 0 ("w1") ('z' :: []) rfl rfl).2.1⟩

/-- Model of `calculate_score` with the eight text-derived quantities (word
count and the seven pattern-presence counts) taken as explicit arguments;
`calculateScore` is definitionally this function applied to the counts
extracted from the clause text (see `calculateScore_eq_counts`). -/
def scoreFromCounts (expNeg : ℕ → ℚ) (kw : List ℚ)
    (wc ob ex os ql cap mu st : ℕ) (cm : ℚ) (aiScore : Option ℤ) : ℤ :=
  let pre : ℚ :=
    baseKeywordScore expNeg kw + lengthModifierOfCount wc +
      obligationModifierOfCount ob + extremeModifierOfCount ex +
      oneSidedModifierOfCount os + qualifierModifierOfCount ql +
      capModifierOfCount cap + mutualModifierOfCount mu +
      standardModifierOfCount st
  let contextualized : ℚ := pre * clampMultiplier cm
  let finalScore : ℚ :=
    match aiScore with
    | some a => (a : ℚ) * 0.6 + contextualized * 0.4
    | none => contextualized
  max 0 (min 100 (pyRound finalScore))

theorem calculateScore_eq_counts (expNeg : ℕ → ℚ) (t : Text) (kw : List ℚ)
    (cm : ℚ) (ai : Option ℤ) :
    calculateScore expNeg t kw cm ai =
      scoreFromCounts expNeg kw (wordCount t)
        (countPresent obligationMarkers t) (countPresent extremeLanguage t)
        (countPresent oneSidedMarkers t) (countPresent positiveQualifiers t)
        (capPresentCount t) (countPresent mutualLanguage t)
        (countPresent standardTerms t) cm ai := rfl

theorem capModifierOfCount_anti {c1 c2 : ℕ} (h : c1 ≤ c2) :
    capModifierOfCount c2 ≤ capModifierOfCount c1 := by
  unfold capModifierOfCount
  split_ifs <;> try norm_num
  all_goals omega

/-- The demonstration clause for claim C6: 47 words, three extreme-language
phrases, three cap indicators (`capped at`, `not to exceed`, a dollar
amount), and no keyword-library match. -/
def capDemoText : String :=
  "unlimited unconditional in any event capped at $100,000 not to exceed z z z z z z z z z z z z z z z z z z z z z z z z z z z z z z z z z z z z"

/-- The cap phrase appended in claim C6. -/
def capPhrase : String := " capped at $100,000"

/-- The folded (`foldChar`) characters of `capDemoText`, as a literal table;
`capDemoCodes_eq` proves it equal to the computed folding. -/
def capDemoCodes : List (ℕ × Bool) :=
  [(117, true), (110, true), (108, true), (105, true), (109, true), (105, true), (116, true), (101, true),
   (100, true), (32, false), (117, true), (110, true), (99, true), (111, true), (110, true), (100, true),
   (105, true), (116, true), (105, true), (111, true), (110, true), (97, true), (108, true), (32, false),
   (105, true), (110, true), (32, false), (97, true), (110, true), (121, true), (32, false), (101, true),
   (118, true), (101, true), (110, true), (116, true), (32, false), (99, true), (97, true), (112, true),
   (112, true), (101, true), (100, true), (32, false), (97, true), (116, true), (32, false), (36, false),
   (49, true), (48, true), (48, true), (44, false), (48, true), (48, true), (48, true), (32, false),
   (110, true), (111, true), (116, true), (32, false), (116, true), (111, true), (32, false), (101, true),
   (120, true), (99, true), (101, true), (101, true), (100, true), (32, false), (122, true), (32, false),
   (122, true), (32, false), (122, true), (32, false), (122, true), (32, false), (122, true), (32, false),
   (122, true), (32, false), (122, true), (32, false), (122, true), (32, false), (122, true), (32, false),
   (122, true), (32, false), (122, true), (32, false), (122, true), (32, false), (122, true), (32, false),
   (122, true), (32, false), (122, true), (32, false), (122, true), (32, false), (122, true), (32, false),
   (122, true), (32, false), (122, true), (32, false), (122, true), (32, false), (122, true), (32, false),
   (122, true), (32, false), (122, true), (32, false), (122, true), (32, false), (122, true), (32, false),
   (122, true), (32, false), (122, true), (32, false), (122, true), (32, false), (122, true), (32, false),
   (122, true), (32, false), (122, true), (32, false), (122, true), (32, false), (122, true), (32, false),
   (122, true), (32, false), (122, true), (32, false), (122, true)]

/-- The folded characters of `capDemoText ++ capPhrase`, as a literal table;
`capFullCodes_eq` proves it equal to the computed folding. -/
def capFullCodes : List (ℕ × Bool) :=
  [(117, true), (110, true), (108, true), (105, true), (109, true), (105, true), (116, true), (101, true),
   (100, true), (32, false), (117, true), (110, true), (99, true), (111, true), (110, true), (100, true),
   (105, true), (116, true), (105, true), (111, true), (110, true), (97, true), (108, true), (32, false),
   (105, true), (110, true), (32, false), (97, true), (110, true), (121, true), (32, false), (101, true),
   (118, true), (101, true), (110, true), (116, true), (32, false), (99, true), (97, true), (112, true),
   (112, true), (101, true), (100, true), (32, false), (97, true), (116, true), (32, false), (36, false),
   (49, true), (48, true), (48, true), (44, false), (48, true), (48, true), (48, true), (32, false),
   (110, true), (111, true), (116, true), (32, false), (116, true), (111, true), (32, false), (101, true),
   (120, true), (99, true), (101, true), (101, true), (100, true), (32, false), (122, true), (32, false),
   (122, true), (32, false), (122, true), (32, false), (122, true), (32, false), (122, true), (32, false),
   (122, true), (32, false), (122, true), (32, false), (122, true), (32, false), (122, true), (32, false),
   (122, true), (32, false), (122, true), (32, false), (122, true), (32, false), (122, true), (32, false),
   (122, true), (32, false), (122, true), (32, false), (122, true), (32, false), (122, true), (32, false),
   (122, true), (32, false), (122, true), (32, false), (122, true), (32, false), (122, true), (32, false),
   (122, true), (32, false), (122, true), (32, false), (122, true), (32, false), (122, true), (32, false),
   (122, true), (32, false), (122, true), (32, false), (122, true), (32, false), (122, true), (32, false),
   (122, true), (32, false), (122, true), (32, false), (122, true), (32, false), (122, true), (32, false),
   (122, true), (32, false), (122, true), (32, false), (122, true), (32, false), (99, true), (97, true),
   (112, true), (112, true), (101, true), (100, true), (32, false), (97, true), (116, true), (32, false),
   (36, false), (49, true), (48, true), (48, true), (44, false), (48, true), (48, true), (48, true)]

/-- Literal packed trigram table of `capDemoText` (see `trigsOf`). -/
def trigCapDemo : List ℕ :=
  [7695980, 7236713, 7104877, 6909289, 7170420, 6911077, 7628132, 6644768, 6561909, 2127214,
   7695971, 7234415, 6516590, 7302756, 7234665, 6580596, 6911081, 7629167, 6909806, 7302753,
   7233900, 6384672, 7086185, 2124142, 6909472, 7217249, 2122094, 6385273, 7239968, 7938149,
   2123126, 6649445, 7759214, 6647412, 7238688, 7610467, 2122593, 6513008, 6385776, 7368805,
   7365988, 6644768, 6561889, 2122100, 6386720, 7610404, 2106417, 2371888, 3223600, 3158060,
   3157040, 2895920, 3158064, 3158048, 3154030, 2125423, 7237492, 7304224, 7610484, 2126959,
   7630624, 7282789, 2123128, 6649955, 7889765, 6514021, 6645092, 6644768, 6561914, 2128416,
   8003706, 2128416, 8003706, 2128416, 8003706, 2128416, 8003706, 2128416, 8003706, 2128416,
   8003706, 2128416, 8003706, 2128416, 8003706, 2128416, 8003706, 2128416, 8003706, 2128416,
   8003706, 2128416, 8003706, 2128416, 8003706, 2128416, 8003706, 2128416, 8003706, 2128416,
   8003706, 2128416, 8003706, 2128416, 8003706, 2128416, 8003706, 2128416, 8003706, 2128416,
   8003706, 2128416, 8003706, 2128416, 8003706, 2128416, 8003706, 2128416, 8003706, 2128416,
   8003706, 2128416, 8003706, 2128416, 8003706, 2128416, 8003706, 2128416, 8003706, 2128416,
   8003706, 2128416, 8003706, 2128416, 8003706, 2128416, 8003706, 2128416, 8003706]

/-- Literal packed trigram table of `capDemoText ++ capPhrase` (see `trigsOf`). -/
def trigCapFull : List ℕ :=
  [7695980, 7236713, 7104877, 6909289, 7170420, 6911077, 7628132, 6644768, 6561909, 2127214,
   7695971, 7234415, 6516590, 7302756, 7234665, 6580596, 6911081, 7629167, 6909806, 7302753,
   7233900, 6384672, 7086185, 2124142, 6909472, 7217249, 2122094, 6385273, 7239968, 7938149,
   2123126, 6649445, 7759214, 6647412, 7238688, 7610467, 2122593, 6513008, 6385776, 7368805,
   7365988, 6644768, 6561889, 2122100, 6386720, 7610404, 2106417, 2371888, 3223600, 3158060,
   3157040, 2895920, 3158064, 3158048, 3154030, 2125423, 7237492, 7304224, 7610484, 2126959,
   7630624, 7282789, 2123128, 6649955, 7889765, 6514021, 6645092, 6644768, 6561914, 2128416,
   8003706, 2128416, 8003706, 2128416, 8003706, 2128416, 8003706, 2128416, 8003706, 2128416,
   8003706, 2128416, 8003706, 2128416, 8003706, 2128416, 8003706, 2128416, 8003706, 2128416,
   8003706, 2128416, 8003706, 2128416, 8003706, 2128416, 8003706, 2128416, 8003706, 2128416,
   8003706, 2128416, 8003706, 2128416, 8003706, 2128416, 8003706, 2128416, 8003706, 2128416,
   8003706, 2128416, 8003706, 2128416, 8003706, 2128416, 8003706, 2128416, 8003706, 2128416,
   8003706, 2128416, 8003706, 2128416, 8003706, 2128416, 8003706, 2128416, 8003706, 2128416,
   8003706, 2128416, 8003706, 2128416, 8003706, 2128416, 8003706, 2128416, 8003706, 2128416,
   8003683, 2122593, 6513008, 6385776, 7368805, 7365988, 6644768, 6561889, 2122100, 6386720,
   7610404, 2106417, 2371888, 3223600, 3158060, 3157040, 2895920, 3158064]

set_option maxRecDepth 1000000 in
/-- Correctness of `capDemoCodes`: it is the folding of `capDemoText`. -/
theorem capDemoCodes_eq : capDemoText.data.map foldChar = capDemoCodes := by
  rfl

set_option maxRecDepth 1000000 in
/-- Correctness of `capFullCodes`: it is the folding of the appended text. -/
theorem capFullCodes_eq :
    (capDemoText.data ++ capPhrase.data).map foldChar = capFullCodes := by
  rfl

set_option maxRecDepth 1000000 in
/-- Correctness of `trigCapDemo`: the packed trigrams of `capDemoCodes`. -/
theorem trigCapDemo_eq : trigsOf capDemoCodes = trigCapDemo := by
  rfl

set_option maxRecDepth 1000000 in
/-- Correctness of `trigCapFull`: the packed trigrams of `capFullCodes`. -/
theorem trigCapFull_eq : trigsOf capFullCodes = trigCapFull := by
  rfl

set_option maxRecDepth 1000000 in
set_option maxHeartbeats 16000000 in
/-- Claim C6 counterexample: appending `" capped at $100,000"` to
`capDemoText` raises its rule-based score from 5 to 8.  Both texts have no
keyword-library match (so the base score is 0 and the abstracted exponential
is irrelevant) and both already contain three cap indicators (cap modifier
−15 either way); the appended three words push the word count from 47 to 50,
turning the length modifier from 0 into +3.  This refutes "appending the cap
phrase never increases the score". -/
theorem cap_phrase_can_increase_score :
    libraryOccWeights capDemoText.data = [] ∧
      libraryOccWeights (capDemoText.data ++ capPhrase.data) = [] ∧
      (ruleBasedClauseAnalysis (fun _ => 0) ("c1") capDemoText.data).score = 5 ∧
      (ruleBasedClauseAnalysis (fun _ => 0) ("c1")
        (capDemoText.data ++ capPhrase.data)).score = 8 := by
  have h1 : libraryOccWeights capDemoText.data = [] := by
    unfold libraryOccWeights libraryLitOcc
    rw [capDemoCodes_eq, show capDemoText.data.length + 1 = 142 from rfl,
      occOf_nil_of_check 142 capDemoCodes trigCapDemo libraryCodes trigCapDemo_eq (by rfl)]
    rfl
  have h2 : libraryOccWeights (capDemoText.data ++ capPhrase.data) = [] := by
    unfold libraryOccWeights libraryLitOcc
    rw [capFullCodes_eq,
      show (capDemoText.data ++ capPhrase.data).length + 1 = 161 from rfl,
      occOf_nil_of_check 161 capFullCodes trigCapFull libraryCodes trigCapFull_eq (by rfl)]
    rfl
  refine ⟨h1, h2, ?_, ?_⟩
  · show calculateScore (fun _ => 0) capDemoText.data
      (libraryOccWeights capDemoText.data) 1 none = 5
    rw [h1]
    have hwc : wordCount capDemoText.data = 47 := by decide
    have hob : countPresent obligationMarkers capDemoText.data = 0 := by
      unfold countPresent
      rw [← obligationMarkerCodes_eq, capDemoCodes_eq]
      rfl
    have hex : countPresent extremeLanguage capDemoText.data = 3 := by
      unfold countPresent
      rw [← extremeLanguageCodes_eq, capDemoCodes_eq]
      rfl
    have hos : countPresent oneSidedMarkers capDemoText.data = 0 := by
      unfold countPresent
      rw [← oneSidedMarkerCodes_eq, capDemoCodes_eq]
      rfl
    have hq : countPresent positiveQualifiers capDemoText.data = 0 := by
      unfold countPresent
      rw [← positiveQualifierCodes_eq, capDemoCodes_eq]
      rfl
    have hcap : capPresentCount capDemoText.data = 3 := by
      unfold capPresentCount countPresent
      rw [← capIndicatorCodes_eq, capDemoCodes_eq]
      rfl
    have hmu : countPresent mutualLanguage capDemoText.data = 0 := by
      unfold countPresent
      rw [← mutualLanguageCodes_eq, capDemoCodes_eq]
      rfl
    have hst : countPresent standardTerms capDemoText.data = 0 := by
      unfold countPresent
      rw [← standardTermCodes_eq, capDemoCodes_eq]
      rfl
    rw [calculateScore, clampMultiplier_one]
    simp only [baseKeywordScore, lengthModifier, hwc, obligationModifier, hob,
      extremeModifier, hex, oneSidedModifier, hos, qualifierModifier, hq,
      capModifier, hcap, mutualModifier, hmu, standardModifier, hst,
      lengthModifierOfCount, obligationModifierOfCount, extremeModifierOfCount,
      oneSidedModifierOfCount, qualifierModifierOfCount, capModifierOfCount,
      mutualModifierOfCount, standardModifierOfCount]
    norm_num
    rw [show ((5 : ℚ)) = ((5 : ℤ) : ℚ) by norm_num, pyRound_intCast]
    omega
  · show calculateScore (fun _ => 0) (capDemoText.data ++ capPhrase.data)
      (libraryOccWeights (capDemoText.data ++ capPhrase.data)) 1 none = 8
    rw [h2]
    have hwc : wordCount (capDemoText.data ++ capPhrase.data) = 50 := by decide
    have hob : countPresent obligationMarkers (capDemoText.data ++ capPhrase.data) = 0 := by
      unfold countPresent
      rw [← obligationMarkerCodes_eq, capFullCodes_eq]
      rfl
    have hex : countPresent extremeLanguage (capDemoText.data ++ capPhrase.data) = 3 := by
      unfold countPresent
      rw [← extremeLanguageCodes_eq, capFullCodes_eq]
      rfl
    have hos : countPresent oneSidedMarkers (capDemoText.data ++ capPhrase.data) = 0 := by
      unfold countPresent
      rw [← oneSidedMarkerCodes_eq, capFullCodes_eq]
      rfl
    have hq : countPresent positiveQualifiers (capDemoText.data ++ capPhrase.data) = 0 := by
      unfold countPresent
      rw [← positiveQualifierCodes_eq, capFullCodes_eq]
      rfl
    have hcap : capPresentCount (capDemoText.data ++ capPhrase.data) = 3 := by
      unfold capPresentCount countPresent
      rw [← capIndicatorCodes_eq, capFullCodes_eq]
      rfl
    have hmu : countPresent mutualLanguage (capDemoText.data ++ capPhrase.data) = 0 := by
      unfold countPresent
      rw [← mutualLanguageCodes_eq, capFullCodes_eq]
      rfl
    have hst : countPresent standardTerms (capDemoText.data ++ capPhrase.data) = 0 := by
      unfold countPresent
      rw [← standardTermCodes_eq, capFullCodes_eq]
      rfl
    rw [calculateScore, clampMultiplier_one]
    simp only [baseKeywordScore, lengthModifier, hwc, obligationModifier, hob,
      extremeModifier, hex, oneSidedModifier, hos, qualifierModifier, hq,
      capModifier, hcap, mutualModifier, hmu, standardModifier, hst,
      lengthModifierOfCount, obligationModifierOfCount, extremeModifierOfCount,
      oneSidedModifierOfCount, qualifierModifierOfCount, capModifierOfCount,
      mutualModifierOfCount, standardModifierOfCount]
    norm_num
    rw [show ((8 : ℚ)) = ((8 : ℤ) : ℚ) by norm_num, pyRound_intCast]
    omega

/-- Claim C6 (amended): what does hold is monotonicity in the cap count
alone — with the keyword matches, the word count and the six other pattern
counts unchanged, a clause with at least as many cap-indicator patterns never
scores higher: the cap modifier is antitone in its count and the rest of the
scoring pipeline (context multiplication by a positive clamped factor, the
60/40 blend, rounding, clamping) is monotone.  Appending the cap phrase can
still raise the score by changing one of the frozen quantities, as the
counterexample's word-count jump shows. -/
theorem score_antitone_in_cap_count (expNeg : ℕ → ℚ) (kw : List ℚ)
    (wc ob ex os ql mu st : ℕ) (cm : ℚ) (ai : Option ℤ) {c1 c2 : ℕ}
    (h : c1 ≤ c2) :
    scoreFromCounts expNeg kw wc ob ex os ql c2 mu st cm ai ≤
      scoreFromCounts expNeg kw wc ob ex os ql c1 mu st cm ai := by
  have hm := capModifierOfCount_anti h
  unfold scoreFromCounts
  have hpre : baseKeywordScore expNeg kw + lengthModifierOfCount wc +
      obligationModifierOfCount ob + extremeModifierOfCount ex +
      oneSidedModifierOfCount os + qualifierModifierOfCount ql +
      capModifierOfCount c2 + mutualModifierOfCount mu +
      standardModifierOfCount st ≤
      baseKeywordScore expNeg kw + lengthModifierOfCount wc +
      obligationModifierOfCount ob + extremeModifierOfCount ex +
      oneSidedModifierOfCount os + qualifierModifierOfCount ql +
      capModifierOfCount c1 + mutualModifierOfCount mu +
      standardModifierOfCount st := by
    gcongr
  have hctx : (baseKeywordScore expNeg kw + lengthModifierOfCount wc +
      obligationModifierOfCount ob + extremeModifierOfCount ex +
      oneSidedModifierOfCount os + qualifierModifierOfCount ql +
      capModifierOfCount c2 + mutualModifierOfCount mu +
      standardModifierOfCount st) * clampMultiplier cm ≤
      (baseKeywordScore expNeg kw + lengthModifierOfCount wc +
      obligationModifierOfCount ob + extremeModifierOfCount ex +
      oneSidedModifierOfCount os + qualifierModifierOfCount ql +
      capModifierOfCount c1 + mutualModifierOfCount mu +
      standardModifierOfCount st) * clampMultiplier cm :=
    mul_le_mul_of_nonneg_right hpre (le_of_lt (clampMultiplier_pos cm))
  cases ai with
  | none => exact max_le_max le_rfl (min_le_min le_rfl (pyRound_mono hctx))
  | some a =>
    refine max_le_max le_rfl (min_le_min le_rfl (pyRound_mono ?_))
    have h04 : ((0 : ℚ)) ≤ 0.4 := by norm_num
    nlinarith

/-- Witness for the amended claim C6: with the counterexample's counts and
the cap count raised from 0 to 3, the score does not increase. -/
theorem score_antitone_in_cap_count_witness :
    scoreFromCounts (fun _ => 0) [] 47 0 3 0 0 3 0 0 1 none ≤
      scoreFromCounts (fun _ => 0) [] 47 0 3 0 0 0 0 0 1 none :=
  score_antitone_in_cap_count (fun _ => 0) [] 47 0 3 0 0 0 0 1 none
    (by decide)

/-- Modelled from the claim for C7: its closed set of section-header
patterns.  A line is a header when it starts with a numbered header
("12.", "12.3"), a lettered "(a)", "ARTICLE ...", or "SECTION ...".  (The
code's `_extract_clauses` has no such set — its single regex only recognises
headers that start with a digit.) -/
def claimHeaderLine (line : Text) : Bool :=
  (match digitsAt line 0 with
   | some j => line.get? j = some '.'
   | none => false) ||
  (match line.get? 0, line.get? 1, line.get? 2 with
   | some c0, some c1, some c2 => c0 = '(' && c1.isAlpha && c2 = ')'
   | _, _, _ => false) ||
  litCore ("article ").data line 0 || litCore ("section ").data line 0

/-- Number of lines matching the claim's closed header set. -/
def claimHeaderCount (t : Text) : ℕ :=
  ((splitOnSep ['\n'] t).filter claimHeaderLine).length

/-- A document structured by three `ARTICLE` headers (one of the claim's
header forms) and no numbered headers. -/
def articleDocText : String :=
  "ARTICLE I: Payment\n\nThe customer agrees to pay all fees within seven days of invoice receipt.\n\nARTICLE II: Termination\n\nEither party may terminate this agreement with thirty days notice in writing.\n\nARTICLE III: Liability\n\nLiability under this agreement is capped at the total fees paid in the prior year."

set_option maxRecDepth 1000000 in
set_option maxHeartbeats 4000000 in
/-- Claim C7 counterexample: `articleDocText` has 3 headers of the claim's
closed set (the ARTICLE lines), so the claim requires the
text-between-consecutive-headers split with the header text prepended; the
code's single header regex (which requires a leading digit) finds 0 headers,
falls back to blank-line paragraphs, and returns the three body paragraphs
with paragraph ids and no header text. -/
theorem extract_clauses_counterexample :
    claimHeaderCount articleDocText.data = 3 ∧
      (headerMatches articleDocText.data).length = 0 ∧
      (extractClauses articleDocText.data).map Prod.fst =
        [("paragraph_2"), ("paragraph_4"), ("paragraph_6")] := by
  refine ⟨by decide, by decide, by decide⟩

/-- Claim C7 (amended): clause extraction detects only the numbered-header
pattern `(?:^|\n)(\d+(?:\.\d+)*\.?\s*[A-Z][^.]*?[.:])` — there is no
detection of lettered `(a)`, `ARTICLE` or `SECTION` headers.  When at least
3 such headers are found, the clauses are the sections between consecutive
headers with the header prepended (sections of at most 30 stripped
characters discarded); otherwise the blank-line paragraphs longer than 50
stripped characters; and when no clause survives, the entire document is a
single clause. -/
theorem extract_clauses_amended (t : Text) :
    (3 ≤ (headerMatches t).length → sectionSplit t ≠ [] →
      extractClauses t = sectionSplit t) ∧
    (3 ≤ (headerMatches t).length → sectionSplit t = [] →
      extractClauses t = [(("full_document"), t)]) ∧
    ((headerMatches t).length < 3 → paragraphSplit t ≠ [] →
      extractClauses t = paragraphSplit t) ∧
    ((headerMatches t).length < 3 → paragraphSplit t = [] →
      extractClauses t = [(("full_document"), t)]) := by
  refine ⟨?_, ?_, ?_, ?_⟩ <;> intro hh hs <;> unfold extractClauses
  · rw [if_pos hh]
    simp [List.isEmpty_iff, hs]
  · rw [if_pos hh]
    simp [List.isEmpty_iff, hs]
  · have hc : ¬ 3 ≤ (headerMatches t).length := by omega
    rw [if_neg hc]
    simp [List.isEmpty_iff, hs]
  · have hc : ¬ 3 ≤ (headerMatches t).length := by omega
    rw [if_neg hc]
    simp [List.isEmpty_iff, hs]

/-- A document with three numbered section headers, used as the witness input
for the amended claim C7. -/
def numberedDocText : String :=
  "1. Payment Terms.\nThe customer agrees to pay all fees within seven days of invoice receipt.\n2. Termination Rights.\nEither party may terminate this agreement with thirty days notice in writing.\n3. Liability Cap.\nLiability under this agreement is capped at the total fees paid in the prior year."

set_option maxRecDepth 1000000 in
set_option maxHeartbeats 4000000 in
/-- Witness for the amended claim C7: on the numbered document the extraction
takes the section path. -/
theorem extract_clauses_amended_witness :
    extractClauses numberedDocText.data = sectionSplit numberedDocText.data :=
  (extract_clauses_amended numberedDocText.data).1 (by decide) (by decide)

/-- Claim C9: the aggregator's buckets are exactly as specified.
`must_address_immediately` holds only critical-severity clauses of the input,
at most 5, ordered by score descending, and holds every critical clause when
there are at most 5 of them; `should_negotiate` holds precisely the ids of
the high-severity clauses; `acceptable_as_is` precisely the ids of the
low-severity clauses with score < 25; `deal_breakers` precisely the ids of
the clauses with score ≥ 90. -/
theorem aggregator_bucketing (rs : List ClauseRiskM) :
    (mustAddressImmediately rs).length ≤ 5 ∧
      (∀ r ∈ mustAddressImmediately rs, r.severity = .CRITICAL ∧ r ∈ rs) ∧
      (mustAddressImmediately rs).Pairwise (fun a b => b.score ≤ a.score) ∧
      ((rs.filter fun r => r.severity == .CRITICAL).length ≤ 5 →
        ∀ r ∈ rs, r.severity = .CRITICAL → r ∈ mustAddressImmediately rs) ∧
      (∀ cid, cid ∈ shouldNegotiate rs ↔
        ∃ r ∈ rs, r.severity = .HIGH ∧ r.clauseId = cid) ∧
      (∀ cid, cid ∈ acceptableAsIs rs ↔
        ∃ r ∈ rs, r.severity = .LOW ∧ r.score < 25 ∧ r.clauseId = cid) ∧
      (∀ cid, cid ∈ dealBreakers rs ↔
        ∃ r ∈ rs, 90 ≤ r.score ∧ r.clauseId = cid) := by
  have hperm := sortByScoreDesc_perm (rs.filter fun r => r.severity == .CRITICAL)
  refine ⟨?_, ?_, ?_, ?_, ?_, ?_, ?_⟩
  · exact le_trans (List.length_take_le 5 _) le_rfl
  · intro r hr
    have hmem : r ∈ sortByScoreDesc (rs.filter fun x => x.severity == .CRITICAL) :=
      List.take_subset 5 _ hr
    have hmem2 : r ∈ rs.filter fun x => x.severity == .CRITICAL :=
      hperm.mem_iff.mp hmem
    rcases List.mem_filter.mp hmem2 with ⟨hin, hcrit⟩
    exact ⟨by simpa using hcrit, hin⟩
  · exact (sortByScoreDesc_pairwise _).sublist (List.take_sublist 5 _)
  · intro hlen r hr hcrit
    have hmem2 : r ∈ rs.filter fun x => x.severity == .CRITICAL :=
      List.mem_filter.mpr ⟨hr, by simpa using hcrit⟩
    have hmem : r ∈ sortByScoreDesc (rs.filter fun x => x.severity == .CRITICAL) :=
      hperm.mem_iff.mpr hmem2
    have hlen2 : (sortByScoreDesc (rs.filter fun x => x.severity == .CRITICAL)).length ≤ 5 :=
      hperm.length_eq ▸ hlen
    rw [mustAddressImmediately, List.take_of_length_le hlen2]
    exact hmem
  · intro cid
    simp only [shouldNegotiate, List.mem_map, List.mem_filter]
    constructor
    · rintro ⟨r, ⟨hin, hsev⟩, hid⟩
      exact ⟨r, hin, by simpa using hsev, hid⟩
    · rintro ⟨r, hin, hsev, hid⟩
      exact ⟨r, ⟨hin, by simpa using hsev⟩, hid⟩
  · intro cid
    simp only [acceptableAsIs, List.mem_map, List.mem_filter, Bool.and_eq_true,
      decide_eq_true_eq]
    constructor
    · rintro ⟨r, ⟨hin, hsev, hsc⟩, hid⟩
      exact ⟨r, hin, by simpa using hsev, hsc, hid⟩
    · rintro ⟨r, hin, hsev, hsc, hid⟩
      exact ⟨r, ⟨hin, by simpa using hsev, hsc⟩, hid⟩
  · intro cid
    simp only [dealBreakers, List.mem_map, List.mem_filter, decide_eq_true_eq]
    constructor
    · rintro ⟨r, ⟨hin, hsc⟩, hid⟩
      exact ⟨r, hin, hsc, hid⟩
    · rintro ⟨r, hin, hsc, hid⟩
      exact ⟨r, ⟨hin, hsc⟩, hid⟩

/-- Witness for claim C9 on a concrete pair of clauses: the single critical
clause lands in the must-address bucket. -/
theorem aggregator_bucketing_witness :
    (⟨("a"), 95, .CRITICAL, 80, false⟩ : ClauseRiskM) ∈
      mustAddressImmediately
        [⟨("a"), 95, .CRITICAL, 80, false⟩, ⟨("b"), 40, .MEDIUM, 60, false⟩] :=
  (aggregator_bucketing
      [⟨("a"), 95, .CRITICAL, 80, false⟩,
       ⟨("b"), 40, .MEDIUM, 60, false⟩]).2.2.2.1 (by decide) _
    (by decide) rfl

end ClauseCare
